import Mathlib

/-!
Verification of the builtin-definition synthesizer in
`src/compiler/can/src/builtins.rs`.

The module synthesizes canonical-AST definitions for the standard-library
builtins.  This development embeds the canonical expression data model, the
fresh-variable allocator, every per-builtin synthesizer and the dispatcher
`builtin_defs_map`, and proves the stated properties: dispatcher
completeness and rejection, the shapes of the safe-wrapper / fold /
result-combinator idioms, alpha-determinism across allocator seeds, and the
invariants of the produced `Def` records.

The allocator (`roc_types::subs::VarStore`) is embedded as an explicit
counter threaded through every constructor in the exact order in which the
Rust source calls `var_store.fresh()`.
-/

namespace RocCan

/-- Type variable handle (`roc_types::subs::Variable`): either one of the
process-reserved variables this module uses (`Variable::NAT`,
`Variable::NATURAL`, `Variable::EMPTY_RECORD`) or a handle minted by the
fresh-variable allocator, carrying the allocator counter value at mint time. -/
inductive Variable : Type where
  | NAT : Variable
  | NATURAL : Variable
  | EMPTY_RECORD : Variable
  | mk (n : Nat) : Variable
deriving DecidableEq

/-- A source region (`roc_region::all::Region`); this module only ever
produces `Region::zero()`, so the embedding has the one constant. -/
inductive Region : Type where
  | zero : Region
deriving DecidableEq

/-- `roc_region::all::Located`. -/
structure Located (α : Type) : Type where
  region : Region
  value : α

/-- `no_region` from the source (also covering `Located::at_zero`). -/
@[simp] def noRegion {α : Type} (value : α) : Located α :=
  { region := Region.zero, value := value }

/-- Interned names (`roc_module::symbol::Symbol`) that appear in this module:
the dispatcher keys, the argument symbols `ARG_1` … `ARG_6`, the internal
helper-closure and helper-binding names, and (so that rejection of
unrecognized identities can be stated) arbitrary user symbols. -/
inductive Symbol : Type where
  | BOOL_EQ | BOOL_NEQ | BOOL_AND | BOOL_OR | BOOL_NOT
  | STR_CONCAT | STR_JOIN_WITH | STR_SPLIT | STR_IS_EMPTY | STR_STARTS_WITH
  | STR_STARTS_WITH_CODE_PT | STR_ENDS_WITH | STR_COUNT_GRAPHEMES
  | STR_FROM_INT | STR_FROM_UTF8 | STR_FROM_UTF8_RANGE | STR_TO_UTF8
  | STR_FROM_FLOAT | STR_REPEAT | STR_TRIM
  | LIST_LEN | LIST_GET | LIST_SET | LIST_APPEND | LIST_FIRST | LIST_LAST
  | LIST_IS_EMPTY | LIST_SINGLE | LIST_REPEAT | LIST_REVERSE | LIST_CONCAT
  | LIST_CONTAINS | LIST_MIN | LIST_MAX | LIST_SUM | LIST_PRODUCT
  | LIST_PREPEND | LIST_JOIN | LIST_JOIN_MAP | LIST_MAP | LIST_MAP2
  | LIST_MAP3 | LIST_MAP4 | LIST_TAKE_FIRST | LIST_TAKE_LAST | LIST_DROP
  | LIST_DROP_AT | LIST_DROP_FIRST | LIST_DROP_LAST | LIST_SWAP
  | LIST_MAP_WITH_INDEX | LIST_KEEP_IF | LIST_KEEP_OKS | LIST_KEEP_ERRS
  | LIST_RANGE | LIST_WALK | LIST_WALK_BACKWARDS | LIST_WALK_UNTIL
  | LIST_SORT_WITH | LIST_ANY | LIST_FIND
  | DICT_LEN | DICT_EMPTY | DICT_SINGLE | DICT_INSERT | DICT_REMOVE
  | DICT_GET | DICT_CONTAINS | DICT_KEYS | DICT_VALUES | DICT_UNION
  | DICT_INTERSECTION | DICT_DIFFERENCE | DICT_WALK
  | SET_EMPTY | SET_LEN | SET_SINGLE | SET_UNION | SET_INTERSECTION
  | SET_DIFFERENCE | SET_TO_LIST | SET_FROM_LIST | SET_INSERT | SET_REMOVE
  | SET_CONTAINS | SET_WALK
  | NUM_ADD | NUM_ADD_CHECKED | NUM_ADD_WRAP | NUM_SUB | NUM_SUB_WRAP
  | NUM_SUB_CHECKED | NUM_MUL | NUM_MUL_WRAP | NUM_MUL_CHECKED
  | NUM_GT | NUM_GTE | NUM_LT | NUM_LTE | NUM_COMPARE
  | NUM_SIN | NUM_COS | NUM_TAN | NUM_DIV_FLOAT | NUM_DIV_INT | NUM_DIV_CEIL
  | NUM_ABS | NUM_NEG | NUM_REM | NUM_IS_MULTIPLE_OF | NUM_SQRT | NUM_LOG
  | NUM_ROUND | NUM_IS_ODD | NUM_IS_EVEN | NUM_IS_ZERO | NUM_IS_POSITIVE
  | NUM_IS_NEGATIVE | NUM_TO_FLOAT | NUM_POW | NUM_CEILING | NUM_POW_INT
  | NUM_FLOOR | NUM_ATAN | NUM_ACOS | NUM_ASIN | NUM_BYTES_TO_U16
  | NUM_BYTES_TO_U32 | NUM_MAX_INT | NUM_MIN_INT | NUM_BITWISE_AND
  | NUM_BITWISE_XOR | NUM_BITWISE_OR | NUM_SHIFT_LEFT | NUM_SHIFT_RIGHT
  | NUM_SHIFT_RIGHT_ZERO_FILL | NUM_INT_CAST | NUM_MAX_I128
  | RESULT_MAP | RESULT_MAP_ERR | RESULT_AFTER | RESULT_WITH_DEFAULT
  | ARG_1 | ARG_2 | ARG_3 | ARG_4 | ARG_5 | ARG_6
  | LIST_JOIN_MAP_CONCAT | LIST_MIN_LT | LIST_MAX_GT | LIST_SUM_ADD
  | LIST_PRODUCT_MUL | SET_WALK_USER_FUNCTION | DICT_GET_RESULT
  | LIST_FIND_RESULT
  | user (n : Nat)

/-- The low-level opcode catalog (`roc_module::low_level::LowLevel`),
restricted to the opcodes this module references. -/
inductive LowLevel : Type where
  | Eq | NotEq | And | Or | Not
  | NumAdd | NumAddWrap | NumAddChecked | NumSub | NumSubWrap | NumSubChecked
  | NumMul | NumMulWrap | NumMulChecked
  | NumGt | NumGte | NumLt | NumLte | NumCompare
  | NumSin | NumCos | NumDivUnchecked | NumDivCeilUnchecked
  | NumAbs | NumNeg | NumRemUnchecked | NumIsMultipleOf
  | NumSqrtUnchecked | NumLogUnchecked | NumRound | NumToFloat | NumPow
  | NumCeiling | NumPowInt | NumFloor | NumAtan | NumAcos | NumAsin
  | NumBytesToU16 | NumBytesToU32
  | NumBitwiseAnd | NumBitwiseXor | NumBitwiseOr
  | NumShiftLeftBy | NumShiftRightBy | NumShiftRightZfBy | NumIntCast
  | StrConcat | StrJoinWith | StrSplit | StrIsEmpty | StrStartsWith
  | StrStartsWithCodePt | StrEndsWith | StrCountGraphemes | StrFromInt
  | StrFromUtf8 | StrFromUtf8Range | StrToUtf8 | StrFromFloat | StrRepeat
  | StrTrim
  | ListLen | ListGetUnsafe | ListSet | ListAppend | ListSingle | ListRepeat
  | ListReverse | ListConcat | ListContains | ListPrepend | ListJoin
  | ListMap | ListMap2 | ListMap3 | ListMap4 | ListTakeFirst | ListTakeLast
  | ListDrop | ListDropAt | ListSwap | ListMapWithIndex | ListKeepIf
  | ListKeepOks | ListKeepErrs | ListRange | ListWalk | ListWalkBackwards
  | ListWalkUntil | ListSortWith | ListAny | ListFindUnsafe
  | DictSize | DictEmpty | DictInsert | DictRemove | DictContains
  | DictGetUnsafe | DictKeys | DictValues | DictUnion | DictIntersection
  | DictDifference | DictWalk | SetFromList

/-- `roc_module::ident::TagName`; only the `Global` variant is used here. -/
inductive TagName : Type where
  | global (name : String) : TagName
deriving DecidableEq

/-- `roc_module::operator::CalledVia`; only `Space` is used here. -/
inductive CalledVia : Type where
  | Space : CalledVia
deriving DecidableEq

/-- `crate::expr::Recursive`; only `NotRecursive` is used here. -/
inductive Recursive : Type where
  | NotRecursive : Recursive
deriving DecidableEq

/-- Modelled from the spec: the explicit type annotation attached to a
definition (`crate::def::Annotation`).  Its contents — a signature taken
from the pre-solved builtin type-signature table `roc_builtins::std::types()`
— live outside this repository snapshot, so the embedding keeps only an
opaque marker; the claims about annotations only inspect presence or
absence. -/
inductive Anno : Type where
  | fromStdTable : Anno
deriving DecidableEq

/-- `crate::pattern::Pattern`, restricted to the variants this module uses. -/
inductive Pattern : Type where
  | Identifier (symbol : Symbol) : Pattern
  | Underscore : Pattern
  | AppliedTag (wholeVar extVar : Variable) (tagName : TagName)
      (arguments : List (Variable × Located Pattern)) : Pattern

/-- `crate::expr::Expr`, restricted to the variants this module constructs.
`LetNonRec`'s boxed `crate::def::Def` is inlined as five fields (pattern,
expression, expression variable, pattern variables, annotation),
`ClosureData` is inlined into `Closure`, a `WhenBranch` is the triple
(patterns, value, guard), and `Call`'s boxed 4-tuple (function variable,
function expression, lambda-set variable, return-type variable) is inlined
as four fields. -/
inductive Expr : Type where
  | Var (symbol : Symbol) : Expr
  | Num (numVar : Variable) (str : String) (val : Int) : Expr
  | Int (numVar precisionVar : Variable) (str : String) (val : Int) : Expr
  | Float (numVar precisionVar : Variable) (str : String) (val : Rat) : Expr
  | EmptyRecord : Expr
  | List (elemVar : Variable) (locElems : List (Located Expr)) : Expr
  | RunLowLevel (op : LowLevel) (args : List (Variable × Expr))
      (retVar : Variable) : Expr
  | If (condVar branchVar : Variable)
      (branches : List (Located Expr × Located Expr))
      (finalElse : Located Expr) : Expr
  | When (condVar exprVar : Variable) (region : Region)
      (locCond : Located Expr)
      (branches : List (List (Located Pattern) × Located Expr ×
        Option (Located Expr))) : Expr
  | LetNonRec (defPattern : Located Pattern) (defExpr : Located Expr)
      (defExprVar : Variable) (defPatternVars : List (Symbol × Variable))
      (defAnno : Option Anno) (cont : Located Expr) (retVar : Variable) : Expr
  | Access (recordVar extVar : Variable) (field : String)
      (fieldVar : Variable) (locExpr : Located Expr) : Expr
  | Tag (variantVar extVar : Variable) (name : TagName)
      (arguments : List (Variable × Located Expr)) : Expr
  | Closure (functionType closureType closureExtVar returnType : Variable)
      (name : Symbol) (recursive : Recursive)
      (capturedSymbols : List (Symbol × Variable))
      (arguments : List (Variable × Located Pattern))
      (locBody : Located Expr) : Expr
  | Call (fnVar : Variable) (fnExpr : Located Expr)
      (closureVar exprVar : Variable)
      (args : List (Variable × Located Expr)) (calledVia : CalledVia) : Expr

/-- `crate::def::Def`: a top-level binding.  The `anno` field embeds the
source's `annotation : Option<Annotation>` field. -/
structure Def : Type where
  locPattern : Located Pattern
  locExpr : Located Expr
  exprVar : Variable
  patternVars : List (Symbol × Variable)
  anno : Option Anno

/-- `Expr::LetNonRec(Box::new(def), Box::new(cont), ret_var)`. -/
@[simp] def Expr.letNonRecD (d : Def) (cont : Located Expr)
    (retVar : Variable) : Expr :=
  Expr.LetNonRec d.locPattern d.locExpr d.exprVar d.patternVars d.anno
    cont retVar

/-- `roc_types::subs::VarStore`: the fresh-variable allocator, a counter.
A value of this type is the counter's current state; distinct seeds model
independently-seeded allocators. -/
abbrev VarStore := Nat

/-- `VarStore::fresh`: return the current counter as a variable handle and
bump the counter. -/
@[simp] def VarStore.fresh (vs : VarStore) : Variable × VarStore :=
  (Variable.mk vs, vs + 1)

/-- The `tag` helper's `arguments` mapping: each argument expression gets a
freshly minted variable, in order. -/
@[simp] def tagArgsE :
    List Expr → VarStore → List (Variable × Located Expr) × VarStore
  | [], vs => ([], vs)
  | e :: rest, vs =>
    let (v, vs) := vs.fresh
    let (tail, vs) := tagArgsE rest vs
    ((v, noRegion e) :: tail, vs)

/-- The `tag` helper from the source: a global tag expression whose variant
variable, extension variable and per-argument variables are all fresh. -/
@[simp] def tagE (name : String) (args : List Expr) (vs : VarStore) :
    Expr × VarStore :=
  let (variantVar, vs) := vs.fresh
  let (extVar, vs) := vs.fresh
  let (arguments, vs) := tagArgsE args vs
  (Expr.Tag variantVar extVar (TagName.global name) arguments, vs)

/-- The `int` literal helper from the source. -/
@[simp] def intE (numVar precisionVar : Variable) (i : Int) : Expr :=
  Expr.Int numVar precisionVar (toString i) i

/-- The `num` literal helper from the source. -/
@[simp] def numE (numVar : Variable) (i : Int) : Expr :=
  Expr.Num numVar (toString i) i

/-- The `float` literal helper from the source (`f64` modelled as `Rat`; the
only float literal this module ever emits is `0.0`). -/
@[simp] def floatE (numVar precisionVar : Variable) (f : Rat) : Expr :=
  Expr.Float numVar precisionVar (toString f) f

/-- `defn_help` from the source: wrap a body in a non-capturing,
non-recursive closure over the given argument patterns. -/
@[simp] def defn_help (fnName : Symbol) (args : List (Variable × Symbol))
    (vs : VarStore) (body : Expr) (retVar : Variable) : Expr × VarStore :=
  let closureArgs :=
    args.map (fun p => (p.1, noRegion (Pattern.Identifier p.2)))
  let (functionType, vs) := vs.fresh
  let (closureType, vs) := vs.fresh
  let (closureExtVar, vs) := vs.fresh
  (Expr.Closure functionType closureType closureExtVar retVar fnName
    Recursive.NotRecursive [] closureArgs (noRegion body), vs)

/-- `defn` from the source: a closure-bodied top-level definition with no
annotation and no pattern variables. -/
@[simp] def defn (fnName : Symbol) (args : List (Variable × Symbol))
    (vs : VarStore) (body : Expr) (retVar : Variable) : Def × VarStore :=
  let (expr, vs) := defn_help fnName args vs body retVar
  let (exprVar, vs) := vs.fresh
  ({ locPattern := noRegion (Pattern.Identifier fnName),
     locExpr := noRegion expr,
     exprVar := exprVar,
     patternVars := [],
     anno := none }, vs)

/-- `i64::MAX`. -/
def i64MAX : Int := 9223372036854775807

/-- `i64::MIN`. -/
def i64MIN : Int := -9223372036854775808

/-- `i128::MAX`. -/
def i128MAX : Int := 170141183460469231731687303715884105727

/-- `lowlevel_1` from the source: arity-1 direct passthrough to an opcode. -/
@[simp] def lowlevel_1 (symbol : Symbol) (op : LowLevel) (vs : VarStore) :
    Def × VarStore :=
  let (arg1_var, vs) := vs.fresh
  let (ret_var, vs) := vs.fresh
  let body := Expr.RunLowLevel op [(arg1_var, Expr.Var Symbol.ARG_1)] ret_var
  defn symbol [(arg1_var, Symbol.ARG_1)] vs body ret_var

/-- `lowlevel_2` from the source: arity-2 direct passthrough to an opcode. -/
@[simp] def lowlevel_2 (symbol : Symbol) (op : LowLevel) (vs : VarStore) :
    Def × VarStore :=
  let (arg1_var, vs) := vs.fresh
  let (arg2_var, vs) := vs.fresh
  let (ret_var, vs) := vs.fresh
  let body := Expr.RunLowLevel op
    [(arg1_var, Expr.Var Symbol.ARG_1), (arg2_var, Expr.Var Symbol.ARG_2)]
    ret_var
  defn symbol [(arg1_var, Symbol.ARG_1), (arg2_var, Symbol.ARG_2)] vs body
    ret_var

/-- `lowlevel_3` from the source: arity-3 direct passthrough to an opcode. -/
@[simp] def lowlevel_3 (symbol : Symbol) (op : LowLevel) (vs : VarStore) :
    Def × VarStore :=
  let (arg1_var, vs) := vs.fresh
  let (arg2_var, vs) := vs.fresh
  let (arg3_var, vs) := vs.fresh
  let (ret_var, vs) := vs.fresh
  let body := Expr.RunLowLevel op
    [(arg1_var, Expr.Var Symbol.ARG_1), (arg2_var, Expr.Var Symbol.ARG_2),
      (arg3_var, Expr.Var Symbol.ARG_3)] ret_var
  defn symbol
    [(arg1_var, Symbol.ARG_1), (arg2_var, Symbol.ARG_2),
      (arg3_var, Symbol.ARG_3)] vs body ret_var

/-- `lowlevel_4` from the source: arity-4 direct passthrough to an opcode. -/
@[simp] def lowlevel_4 (symbol : Symbol) (op : LowLevel) (vs : VarStore) :
    Def × VarStore :=
  let (arg1_var, vs) := vs.fresh
  let (arg2_var, vs) := vs.fresh
  let (arg3_var, vs) := vs.fresh
  let (arg4_var, vs) := vs.fresh
  let (ret_var, vs) := vs.fresh
  let body := Expr.RunLowLevel op
    [(arg1_var, Expr.Var Symbol.ARG_1), (arg2_var, Expr.Var Symbol.ARG_2),
      (arg3_var, Expr.Var Symbol.ARG_3), (arg4_var, Expr.Var Symbol.ARG_4)]
    ret_var
  defn symbol
    [(arg1_var, Symbol.ARG_1), (arg2_var, Symbol.ARG_2),
      (arg3_var, Symbol.ARG_3), (arg4_var, Symbol.ARG_4)] vs body ret_var

/-- `lowlevel_5` from the source: arity-5 direct passthrough to an opcode. -/
@[simp] def lowlevel_5 (symbol : Symbol) (op : LowLevel) (vs : VarStore) :
    Def × VarStore :=
  let (arg1_var, vs) := vs.fresh
  let (arg2_var, vs) := vs.fresh
  let (arg3_var, vs) := vs.fresh
  let (arg4_var, vs) := vs.fresh
  let (arg5_var, vs) := vs.fresh
  let (ret_var, vs) := vs.fresh
  let body := Expr.RunLowLevel op
    [(arg1_var, Expr.Var Symbol.ARG_1), (arg2_var, Expr.Var Symbol.ARG_2),
      (arg3_var, Expr.Var Symbol.ARG_3), (arg4_var, Expr.Var Symbol.ARG_4),
      (arg5_var, Expr.Var Symbol.ARG_5)] ret_var
  defn symbol
    [(arg1_var, Symbol.ARG_1), (arg2_var, Symbol.ARG_2),
      (arg3_var, Symbol.ARG_3), (arg4_var, Symbol.ARG_4),
      (arg5_var, Symbol.ARG_5)] vs body ret_var

/-- `num_max_int` from the source: `Num.maxInt`, an `i64::MAX` literal with
no annotation. -/
@[simp] def num_max_int (symbol : Symbol) (vs : VarStore) : Def × VarStore :=
  let (int_var, vs) := vs.fresh
  let (int_precision_var, vs) := vs.fresh
  let body := intE int_var int_precision_var i64MAX
  ({ locPattern := noRegion (Pattern.Identifier symbol),
     locExpr := noRegion body,
     exprVar := int_var,
     patternVars := [],
     anno := none }, vs)

/-- `num_min_int` from the source: `Num.minInt`, an `i64::MIN` literal with
no annotation. -/
@[simp] def num_min_int (symbol : Symbol) (vs : VarStore) : Def × VarStore :=
  let (int_var, vs) := vs.fresh
  let (int_precision_var, vs) := vs.fresh
  let body := intE int_var int_precision_var i64MIN
  ({ locPattern := noRegion (Pattern.Identifier symbol),
     locExpr := noRegion body,
     exprVar := int_var,
     patternVars := [],
     anno := none }, vs)

/-- `bool_eq` from the source: `Bool.isEq` with one variable shared by both
operands. -/
@[simp] def bool_eq (symbol : Symbol) (vs : VarStore) : Def × VarStore :=
  let (arg_var, vs) := vs.fresh
  let (bool_var, vs) := vs.fresh
  let body := Expr.RunLowLevel LowLevel.Eq
    [(arg_var, Expr.Var Symbol.ARG_1), (arg_var, Expr.Var Symbol.ARG_2)]
    bool_var
  defn symbol [(arg_var, Symbol.ARG_1), (arg_var, Symbol.ARG_2)] vs body
    bool_var

/-- `bool_neq` from the source: `Bool.isNotEq`. -/
@[simp] def bool_neq (symbol : Symbol) (vs : VarStore) : Def × VarStore :=
  let (arg_var, vs) := vs.fresh
  let (bool_var, vs) := vs.fresh
  let body := Expr.RunLowLevel LowLevel.NotEq
    [(arg_var, Expr.Var Symbol.ARG_1), (arg_var, Expr.Var Symbol.ARG_2)]
    bool_var
  defn symbol [(arg_var, Symbol.ARG_1), (arg_var, Symbol.ARG_2)] vs body
    bool_var

/-- `bool_or` from the source. -/
@[simp] def bool_or (symbol : Symbol) (vs : VarStore) : Def × VarStore :=
  let (bool_var, vs) := vs.fresh
  let body := Expr.RunLowLevel LowLevel.Or
    [(bool_var, Expr.Var Symbol.ARG_1), (bool_var, Expr.Var Symbol.ARG_2)]
    bool_var
  defn symbol [(bool_var, Symbol.ARG_1), (bool_var, Symbol.ARG_2)] vs body
    bool_var

/-- `bool_not` from the source. -/
@[simp] def bool_not (symbol : Symbol) (vs : VarStore) : Def × VarStore :=
  let (bool_var, vs) := vs.fresh
  let body := Expr.RunLowLevel LowLevel.Not
    [(bool_var, Expr.Var Symbol.ARG_1)] bool_var
  defn symbol [(bool_var, Symbol.ARG_1)] vs body bool_var

/-- `bool_and` from the source; note that the opcode call's result variable
is a second fresh variable, distinct from `bool_var`. -/
@[simp] def bool_and (symbol : Symbol) (vs : VarStore) : Def × VarStore :=
  let (bool_var, vs) := vs.fresh
  let (ret_var, vs) := vs.fresh
  let body := Expr.RunLowLevel LowLevel.And
    [(bool_var, Expr.Var Symbol.ARG_1), (bool_var, Expr.Var Symbol.ARG_2)]
    ret_var
  defn symbol [(bool_var, Symbol.ARG_1), (bool_var, Symbol.ARG_2)] vs body
    bool_var

/-- `num_binop` from the source: `Num a, Num a -> Num a` passthrough with one
shared variable. -/
@[simp] def num_binop (symbol : Symbol) (vs : VarStore) (op : LowLevel) :
    Def × VarStore :=
  let (num_var, vs) := vs.fresh
  let body := Expr.RunLowLevel op
    [(num_var, Expr.Var Symbol.ARG_1), (num_var, Expr.Var Symbol.ARG_2)]
    num_var
  defn symbol [(num_var, Symbol.ARG_1), (num_var, Symbol.ARG_2)] vs body
    num_var

/-- `num_num_other_binop` from the source: `Num a, Num a -> b` passthrough. -/
@[simp] def num_num_other_binop (symbol : Symbol) (vs : VarStore)
    (op : LowLevel) : Def × VarStore :=
  let (num_var, vs) := vs.fresh
  let (bool_var, vs) := vs.fresh
  let body := Expr.RunLowLevel op
    [(num_var, Expr.Var Symbol.ARG_1), (num_var, Expr.Var Symbol.ARG_2)]
    bool_var
  defn symbol [(num_var, Symbol.ARG_1), (num_var, Symbol.ARG_2)] vs body
    bool_var

/-- `num_add` from the source. -/
@[simp] def num_add (symbol : Symbol) (vs : VarStore) : Def × VarStore :=
  num_binop symbol vs LowLevel.NumAdd

/-- `num_add_wrap` from the source. -/
@[simp] def num_add_wrap (symbol : Symbol) (vs : VarStore) : Def × VarStore :=
  num_binop symbol vs LowLevel.NumAddWrap

/-- `num_overflow_checked` from the source: bind the checked primitive's
anonymous-record result to `ARG_3`, then branch on its `b` (overflow) field,
yielding `Err Overflow` when set and `Ok` of its `a` (value) field
otherwise. -/
@[simp] def num_overflow_checked (symbol : Symbol) (vs : VarStore)
    (lowlevel : LowLevel) : Def × VarStore :=
  let (bool_var, vs) := vs.fresh
  let (num_var_1, vs) := vs.fresh
  let (num_var_2, vs) := vs.fresh
  let (num_var_3, vs) := vs.fresh
  let (ret_var, vs) := vs.fresh
  let (record_var, vs) := vs.fresh
  let (cond_ext_var, vs) := vs.fresh
  let (cond_field_var, vs) := vs.fresh
  let cond := Expr.Access record_var cond_ext_var "b" cond_field_var
    (noRegion (Expr.Var Symbol.ARG_3))
  let (overflowTag, vs) := tagE "Overflow" [] vs
  let (errTag, vs) := tagE "Err" [overflowTag] vs
  let (ok_ext_var, vs) := vs.fresh
  let okAccess := Expr.Access record_var ok_ext_var "a" num_var_3
    (noRegion (Expr.Var Symbol.ARG_3))
  let (okTag, vs) := tagE "Ok" [okAccess] vs
  let cont := Expr.If bool_var ret_var [(noRegion cond, noRegion errTag)]
    (noRegion okTag)
  let innerDef : Def :=
    { locPattern := noRegion (Pattern.Identifier Symbol.ARG_3),
      locExpr := noRegion (Expr.RunLowLevel lowlevel
        [(num_var_1, Expr.Var Symbol.ARG_1),
          (num_var_2, Expr.Var Symbol.ARG_2)] record_var),
      exprVar := record_var,
      patternVars := [],
      anno := none }
  let body := Expr.letNonRecD innerDef (noRegion cont) ret_var
  defn symbol [(num_var_1, Symbol.ARG_1), (num_var_2, Symbol.ARG_2)] vs body
    ret_var

/-- `num_add_checked` from the source. -/
@[simp] def num_add_checked (symbol : Symbol) (vs : VarStore) :
    Def × VarStore :=
  num_overflow_checked symbol vs LowLevel.NumAddChecked

/-- `num_sub` from the source. -/
@[simp] def num_sub (symbol : Symbol) (vs : VarStore) : Def × VarStore :=
  num_binop symbol vs LowLevel.NumSub

/-- `num_sub_wrap` from the source. -/
@[simp] def num_sub_wrap (symbol : Symbol) (vs : VarStore) : Def × VarStore :=
  num_binop symbol vs LowLevel.NumSubWrap

/-- `num_sub_checked` from the source. -/
@[simp] def num_sub_checked (symbol : Symbol) (vs : VarStore) :
    Def × VarStore :=
  num_overflow_checked symbol vs LowLevel.NumSubChecked

/-- `num_mul` from the source. -/
@[simp] def num_mul (symbol : Symbol) (vs : VarStore) : Def × VarStore :=
  num_binop symbol vs LowLevel.NumMul

/-- `num_mul_wrap` from the source. -/
@[simp] def num_mul_wrap (symbol : Symbol) (vs : VarStore) : Def × VarStore :=
  num_binop symbol vs LowLevel.NumMulWrap

/-- `num_mul_checked` from the source. -/
@[simp] def num_mul_checked (symbol : Symbol) (vs : VarStore) :
    Def × VarStore :=
  num_overflow_checked symbol vs LowLevel.NumMulChecked

/-- `num_gt` from the source. -/
@[simp] def num_gt (symbol : Symbol) (vs : VarStore) : Def × VarStore :=
  num_num_other_binop symbol vs LowLevel.NumGt

/-- `num_gte` from the source. -/
@[simp] def num_gte (symbol : Symbol) (vs : VarStore) : Def × VarStore :=
  num_num_other_binop symbol vs LowLevel.NumGte

/-- `num_lt` from the source. -/
@[simp] def num_lt (symbol : Symbol) (vs : VarStore) : Def × VarStore :=
  num_num_other_binop symbol vs LowLevel.NumLt

/-- `num_lte` from the source. -/
@[simp] def num_lte (symbol : Symbol) (vs : VarStore) : Def × VarStore :=
  num_num_other_binop symbol vs LowLevel.NumLte

/-- `num_compare` from the source. -/
@[simp] def num_compare (symbol : Symbol) (vs : VarStore) : Def × VarStore :=
  num_num_other_binop symbol vs LowLevel.NumCompare

/-- `num_sin` from the source. -/
@[simp] def num_sin (symbol : Symbol) (vs : VarStore) : Def × VarStore :=
  let (float_var, vs) := vs.fresh
  let body := Expr.RunLowLevel LowLevel.NumSin
    [(float_var, Expr.Var Symbol.ARG_1)] float_var
  defn symbol [(float_var, Symbol.ARG_1)] vs body float_var

/-- `num_cos` from the source. -/
@[simp] def num_cos (symbol : Symbol) (vs : VarStore) : Def × VarStore :=
  let (float_var, vs) := vs.fresh
  let body := Expr.RunLowLevel LowLevel.NumCos
    [(float_var, Expr.Var Symbol.ARG_1)] float_var
  defn symbol [(float_var, Symbol.ARG_1)] vs body float_var

/-- `num_tan` from the source: `sin x / cos x` via the unchecked division
opcode. -/
@[simp] def num_tan (symbol : Symbol) (vs : VarStore) : Def × VarStore :=
  let (float_var, vs) := vs.fresh
  let body := Expr.RunLowLevel LowLevel.NumDivUnchecked
    [(float_var, Expr.RunLowLevel LowLevel.NumSin
        [(float_var, Expr.Var Symbol.ARG_1)] float_var),
      (float_var, Expr.RunLowLevel LowLevel.NumCos
        [(float_var, Expr.Var Symbol.ARG_1)] float_var)] float_var
  defn symbol [(float_var, Symbol.ARG_1)] vs body float_var

/-- `num_is_zero` from the source. -/
@[simp] def num_is_zero (symbol : Symbol) (vs : VarStore) : Def × VarStore :=
  let (arg_var, vs) := vs.fresh
  let (bool_var, vs) := vs.fresh
  let (unbound_zero_var, vs) := vs.fresh
  let body := Expr.RunLowLevel LowLevel.Eq
    [(arg_var, Expr.Var Symbol.ARG_1), (arg_var, numE unbound_zero_var 0)]
    bool_var
  defn symbol [(arg_var, Symbol.ARG_1)] vs body bool_var

/-- `num_is_negative` from the source: `0 > x`. -/
@[simp] def num_is_negative (symbol : Symbol) (vs : VarStore) :
    Def × VarStore :=
  let (arg_var, vs) := vs.fresh
  let (bool_var, vs) := vs.fresh
  let (unbound_zero_var, vs) := vs.fresh
  let body := Expr.RunLowLevel LowLevel.NumGt
    [(arg_var, numE unbound_zero_var 0), (arg_var, Expr.Var Symbol.ARG_1)]
    bool_var
  defn symbol [(arg_var, Symbol.ARG_1)] vs body bool_var

/-- `num_is_positive` from the source: `x > 0`. -/
@[simp] def num_is_positive (symbol : Symbol) (vs : VarStore) :
    Def × VarStore :=
  let (arg_var, vs) := vs.fresh
  let (bool_var, vs) := vs.fresh
  let (unbound_zero_var, vs) := vs.fresh
  let body := Expr.RunLowLevel LowLevel.NumGt
    [(arg_var, Expr.Var Symbol.ARG_1), (arg_var, numE unbound_zero_var 0)]
    bool_var
  defn symbol [(arg_var, Symbol.ARG_1)] vs body bool_var

/-- `num_is_odd` from the source: `1 == (x rem 2)`. -/
@[simp] def num_is_odd (symbol : Symbol) (vs : VarStore) : Def × VarStore :=
  let (arg_var, vs) := vs.fresh
  let (bool_var, vs) := vs.fresh
  let (unbound_two_var, vs) := vs.fresh
  let (one_num_var, vs) := vs.fresh
  let (one_precision_var, vs) := vs.fresh
  let body := Expr.RunLowLevel LowLevel.Eq
    [(arg_var, intE one_num_var one_precision_var 1),
      (arg_var, Expr.RunLowLevel LowLevel.NumRemUnchecked
        [(arg_var, Expr.Var Symbol.ARG_1), (arg_var, numE unbound_two_var 2)]
        arg_var)] bool_var
  defn symbol [(arg_var, Symbol.ARG_1)] vs body bool_var

/-- `num_is_even` from the source: `0 == (x rem 2)`. -/
@[simp] def num_is_even (symbol : Symbol) (vs : VarStore) : Def × VarStore :=
  let (arg_var, vs) := vs.fresh
  let (arg_num_var, vs) := vs.fresh
  let (bool_var, vs) := vs.fresh
  let body := Expr.RunLowLevel LowLevel.Eq
    [(arg_var, numE arg_num_var 0),
      (arg_var, Expr.RunLowLevel LowLevel.NumRemUnchecked
        [(arg_var, Expr.Var Symbol.ARG_1), (arg_var, numE arg_num_var 2)]
        arg_var)] bool_var
  defn symbol [(arg_var, Symbol.ARG_1)] vs body bool_var

/-- `num_to_float` from the source. -/
@[simp] def num_to_float (symbol : Symbol) (vs : VarStore) : Def × VarStore :=
  let (arg_var, vs) := vs.fresh
  let (float_var, vs) := vs.fresh
  let body := Expr.RunLowLevel LowLevel.NumToFloat
    [(arg_var, Expr.Var Symbol.ARG_1)] float_var
  defn symbol [(arg_var, Symbol.ARG_1)] vs body float_var

/-- `num_sqrt` from the source: guard `x >= 0.0`, then `Ok` of the unchecked
square root, else `Err SqrtOfNegative`. -/
@[simp] def num_sqrt (symbol : Symbol) (vs : VarStore) : Def × VarStore :=
  let (bool_var, vs) := vs.fresh
  let (float_var, vs) := vs.fresh
  let (unbound_zero_var, vs) := vs.fresh
  let (precision_var, vs) := vs.fresh
  let (ret_var, vs) := vs.fresh
  let guard := Expr.RunLowLevel LowLevel.NumGte
    [(float_var, Expr.Var Symbol.ARG_1),
      (float_var, floatE unbound_zero_var precision_var 0)] bool_var
  let (okTag, vs) := tagE "Ok"
    [Expr.RunLowLevel LowLevel.NumSqrtUnchecked
      [(float_var, Expr.Var Symbol.ARG_1)] float_var] vs
  let (sqrtNegTag, vs) := tagE "SqrtOfNegative" [] vs
  let (errTag, vs) := tagE "Err" [sqrtNegTag] vs
  let body := Expr.If bool_var ret_var [(noRegion guard, noRegion okTag)]
    (noRegion errTag)
  defn symbol [(float_var, Symbol.ARG_1)] vs body ret_var

/-- `num_log` from the source: guard `x > 0.0`, then `Ok` of the unchecked
logarithm, else `Err LogNeedsPositive`. -/
@[simp] def num_log (symbol : Symbol) (vs : VarStore) : Def × VarStore :=
  let (bool_var, vs) := vs.fresh
  let (float_var, vs) := vs.fresh
  let (unbound_zero_var, vs) := vs.fresh
  let (precision_var, vs) := vs.fresh
  let (ret_var, vs) := vs.fresh
  let guard := Expr.RunLowLevel LowLevel.NumGt
    [(float_var, Expr.Var Symbol.ARG_1),
      (float_var, floatE unbound_zero_var precision_var 0)] bool_var
  let (okTag, vs) := tagE "Ok"
    [Expr.RunLowLevel LowLevel.NumLogUnchecked
      [(float_var, Expr.Var Symbol.ARG_1)] float_var] vs
  let (logNeedsTag, vs) := tagE "LogNeedsPositive" [] vs
  let (errTag, vs) := tagE "Err" [logNeedsTag] vs
  let body := Expr.If bool_var ret_var [(noRegion guard, noRegion okTag)]
    (noRegion errTag)
  defn symbol [(float_var, Symbol.ARG_1)] vs body ret_var

/-- `num_round` from the source. -/
@[simp] def num_round (symbol : Symbol) (vs : VarStore) : Def × VarStore :=
  let (float_var, vs) := vs.fresh
  let (int_var, vs) := vs.fresh
  let body := Expr.RunLowLevel LowLevel.NumRound
    [(float_var, Expr.Var Symbol.ARG_1)] int_var
  defn symbol [(float_var, Symbol.ARG_1)] vs body int_var

/-- `num_pow` from the source. -/
@[simp] def num_pow (symbol : Symbol) (vs : VarStore) : Def × VarStore :=
  let (float_var, vs) := vs.fresh
  let body := Expr.RunLowLevel LowLevel.NumPow
    [(float_var, Expr.Var Symbol.ARG_1), (float_var, Expr.Var Symbol.ARG_2)]
    float_var
  defn symbol [(float_var, Symbol.ARG_1), (float_var, Symbol.ARG_2)] vs body
    float_var

/-- `num_ceiling` from the source. -/
@[simp] def num_ceiling (symbol : Symbol) (vs : VarStore) : Def × VarStore :=
  let (float_var, vs) := vs.fresh
  let (int_var, vs) := vs.fresh
  let body := Expr.RunLowLevel LowLevel.NumCeiling
    [(float_var, Expr.Var Symbol.ARG_1)] int_var
  defn symbol [(float_var, Symbol.ARG_1)] vs body int_var

/-- `num_pow_int` from the source. -/
@[simp] def num_pow_int (symbol : Symbol) (vs : VarStore) : Def × VarStore :=
  let (int_var, vs) := vs.fresh
  let body := Expr.RunLowLevel LowLevel.NumPowInt
    [(int_var, Expr.Var Symbol.ARG_1), (int_var, Expr.Var Symbol.ARG_2)]
    int_var
  defn symbol [(int_var, Symbol.ARG_1), (int_var, Symbol.ARG_2)] vs body
    int_var

/-- `num_floor` from the source. -/
@[simp] def num_floor (symbol : Symbol) (vs : VarStore) : Def × VarStore :=
  let (float_var, vs) := vs.fresh
  let (int_var, vs) := vs.fresh
  let body := Expr.RunLowLevel LowLevel.NumFloor
    [(float_var, Expr.Var Symbol.ARG_1)] int_var
  defn symbol [(float_var, Symbol.ARG_1)] vs body int_var

/-- `num_atan` from the source. -/
@[simp] def num_atan (symbol : Symbol) (vs : VarStore) : Def × VarStore :=
  let (arg_float_var, vs) := vs.fresh
  let (ret_float_var, vs) := vs.fresh
  let body := Expr.RunLowLevel LowLevel.NumAtan
    [(arg_float_var, Expr.Var Symbol.ARG_1)] ret_float_var
  defn symbol [(arg_float_var, Symbol.ARG_1)] vs body ret_float_var

/-- `num_acos` from the source. -/
@[simp] def num_acos (symbol : Symbol) (vs : VarStore) : Def × VarStore :=
  let (arg_float_var, vs) := vs.fresh
  let (ret_float_var, vs) := vs.fresh
  let body := Expr.RunLowLevel LowLevel.NumAcos
    [(arg_float_var, Expr.Var Symbol.ARG_1)] ret_float_var
  defn symbol [(arg_float_var, Symbol.ARG_1)] vs body ret_float_var

/-- `num_asin` from the source. -/
@[simp] def num_asin (symbol : Symbol) (vs : VarStore) : Def × VarStore :=
  let (arg_float_var, vs) := vs.fresh
  let (ret_float_var, vs) := vs.fresh
  let body := Expr.RunLowLevel LowLevel.NumAsin
    [(arg_float_var, Expr.Var Symbol.ARG_1)] ret_float_var
  defn symbol [(arg_float_var, Symbol.ARG_1)] vs body ret_float_var

/-- `num_bytes_to` from the source (defined near the bottom of the Rust
file): bounds-check `arg_2 + offset < List.len arg_1`, then `Ok` of the
byte-decoding opcode, else `Err OutOfBounds`. -/
@[simp] def num_bytes_to (symbol : Symbol) (vs : VarStore) (offset : Int)
    (low_level : LowLevel) : Def × VarStore :=
  let (len_var, vs) := vs.fresh
  let (list_var, vs) := vs.fresh
  let (elem_var, vs) := vs.fresh
  let (ret_var, vs) := vs.fresh
  let (bool_var, vs) := vs.fresh
  let (add_var, vs) := vs.fresh
  let (cast_var, vs) := vs.fresh
  let (branch_var, vs) := vs.fresh
  let (offset_num_var, vs) := vs.fresh
  let guard := Expr.RunLowLevel LowLevel.NumLt
    [(len_var, Expr.RunLowLevel LowLevel.NumAdd
        [(add_var, Expr.Var Symbol.ARG_2),
          (add_var, Expr.RunLowLevel LowLevel.NumIntCast
            [(cast_var, numE offset_num_var offset)] cast_var)] add_var),
      (len_var, Expr.RunLowLevel LowLevel.ListLen
        [(list_var, Expr.Var Symbol.ARG_1)] len_var)] bool_var
  let (okTag, vs) := tagE "Ok"
    [Expr.RunLowLevel low_level
      [(list_var, Expr.Var Symbol.ARG_1), (len_var, Expr.Var Symbol.ARG_2)]
      elem_var] vs
  let (oobTag, vs) := tagE "OutOfBounds" [] vs
  let (errTag, vs) := tagE "Err" [oobTag] vs
  let body := Expr.If bool_var branch_var [(noRegion guard, noRegion okTag)]
    (noRegion errTag)
  defn symbol [(list_var, Symbol.ARG_1), (len_var, Symbol.ARG_2)] vs body
    ret_var

/-- `num_bytes_to_u16` from the source. -/
@[simp] def num_bytes_to_u16 (symbol : Symbol) (vs : VarStore) :
    Def × VarStore :=
  num_bytes_to symbol vs 1 LowLevel.NumBytesToU16

/-- `num_bytes_to_u32` from the source. -/
@[simp] def num_bytes_to_u32 (symbol : Symbol) (vs : VarStore) :
    Def × VarStore :=
  num_bytes_to symbol vs 3 LowLevel.NumBytesToU32

/-- `num_bitwise_and` from the source. -/
@[simp] def num_bitwise_and (symbol : Symbol) (vs : VarStore) :
    Def × VarStore :=
  num_binop symbol vs LowLevel.NumBitwiseAnd

/-- `num_bitwise_xor` from the source. -/
@[simp] def num_bitwise_xor (symbol : Symbol) (vs : VarStore) :
    Def × VarStore :=
  num_binop symbol vs LowLevel.NumBitwiseXor

/-- `num_bitwise_or` from the source. -/
@[simp] def num_bitwise_or (symbol : Symbol) (vs : VarStore) :
    Def × VarStore :=
  num_binop symbol vs LowLevel.NumBitwiseOr

/-- `num_shift_left_by` from the source. -/
@[simp] def num_shift_left_by (symbol : Symbol) (vs : VarStore) :
    Def × VarStore :=
  lowlevel_2 symbol LowLevel.NumShiftLeftBy vs

/-- `num_shift_right_by` from the source. -/
@[simp] def num_shift_right_by (symbol : Symbol) (vs : VarStore) :
    Def × VarStore :=
  lowlevel_2 symbol LowLevel.NumShiftRightBy vs

/-- `num_shift_right_zf_by` from the source. -/
@[simp] def num_shift_right_zf_by (symbol : Symbol) (vs : VarStore) :
    Def × VarStore :=
  lowlevel_2 symbol LowLevel.NumShiftRightZfBy vs

/-- `num_int_cast` from the source. -/
@[simp] def num_int_cast (symbol : Symbol) (vs : VarStore) : Def × VarStore :=
  lowlevel_1 symbol LowLevel.NumIntCast vs

/-- `num_max_i128` from the source: `Num.maxI128`, an `i128::MAX` literal
carrying an explicit annotation taken from the pre-solved builtin
type-signature table (the only builtin here with a `Some` annotation). -/
@[simp] def num_max_i128 (symbol : Symbol) (vs : VarStore) : Def × VarStore :=
  let (int_var, vs) := vs.fresh
  let (int_precision_var, vs) := vs.fresh
  let body := intE int_var int_precision_var i128MAX
  ({ locPattern := noRegion (Pattern.Identifier symbol),
     locExpr := noRegion body,
     exprVar := int_var,
     patternVars := [],
     anno := some Anno.fromStdTable }, vs)

/-- `list_is_empty` from the source: `0 == List.len list`, using the
reserved `NAT`/`NATURAL` variables for the length and the zero literal. -/
@[simp] def list_is_empty (symbol : Symbol) (vs : VarStore) :
    Def × VarStore :=
  let (list_var, vs) := vs.fresh
  let (bool_var, vs) := vs.fresh
  let len_var := Variable.NAT
  let unbound_zero_var := Variable.NATURAL
  let body := Expr.RunLowLevel LowLevel.Eq
    [(len_var, numE unbound_zero_var 0),
      (len_var, Expr.RunLowLevel LowLevel.ListLen
        [(list_var, Expr.Var Symbol.ARG_1)] len_var)] bool_var
  defn symbol [(list_var, Symbol.ARG_1)] vs body bool_var

/-- `list_reverse` from the source. -/
@[simp] def list_reverse (symbol : Symbol) (vs : VarStore) : Def × VarStore :=
  let (list_var, vs) := vs.fresh
  let body := Expr.RunLowLevel LowLevel.ListReverse
    [(list_var, Expr.Var Symbol.ARG_1)] list_var
  defn symbol [(list_var, Symbol.ARG_1)] vs body list_var

/-- `str_split` from the source. -/
@[simp] def str_split (symbol : Symbol) (vs : VarStore) : Def × VarStore :=
  let (str_var, vs) := vs.fresh
  let (ret_list_var, vs) := vs.fresh
  let body := Expr.RunLowLevel LowLevel.StrSplit
    [(str_var, Expr.Var Symbol.ARG_1), (str_var, Expr.Var Symbol.ARG_2)]
    ret_list_var
  defn symbol [(str_var, Symbol.ARG_1), (str_var, Symbol.ARG_2)] vs body
    ret_list_var

/-- `str_trim` from the source. -/
@[simp] def str_trim (symbol : Symbol) (vs : VarStore) : Def × VarStore :=
  lowlevel_1 symbol LowLevel.StrTrim vs

/-- `str_repeat` from the source. -/
@[simp] def str_repeat (symbol : Symbol) (vs : VarStore) : Def × VarStore :=
  let (str_var, vs) := vs.fresh
  let (nat_var, vs) := vs.fresh
  let body := Expr.RunLowLevel LowLevel.StrRepeat
    [(str_var, Expr.Var Symbol.ARG_1), (nat_var, Expr.Var Symbol.ARG_2)]
    str_var
  defn symbol [(str_var, Symbol.ARG_1), (nat_var, Symbol.ARG_2)] vs body
    str_var

/-- `str_concat` from the source. -/
@[simp] def str_concat (symbol : Symbol) (vs : VarStore) : Def × VarStore :=
  let (str_var, vs) := vs.fresh
  let body := Expr.RunLowLevel LowLevel.StrConcat
    [(str_var, Expr.Var Symbol.ARG_1), (str_var, Expr.Var Symbol.ARG_2)]
    str_var
  defn symbol [(str_var, Symbol.ARG_1), (str_var, Symbol.ARG_2)] vs body
    str_var

/-- `str_join_with` from the source. -/
@[simp] def str_join_with (symbol : Symbol) (vs : VarStore) :
    Def × VarStore :=
  let (list_str_var, vs) := vs.fresh
  let (str_var, vs) := vs.fresh
  let body := Expr.RunLowLevel LowLevel.StrJoinWith
    [(list_str_var, Expr.Var Symbol.ARG_1), (str_var, Expr.Var Symbol.ARG_2)]
    str_var
  defn symbol [(list_str_var, Symbol.ARG_1), (str_var, Symbol.ARG_2)] vs body
    str_var

/-- `str_is_empty` from the source. -/
@[simp] def str_is_empty (symbol : Symbol) (vs : VarStore) : Def × VarStore :=
  let (str_var, vs) := vs.fresh
  let (bool_var, vs) := vs.fresh
  let body := Expr.RunLowLevel LowLevel.StrIsEmpty
    [(str_var, Expr.Var Symbol.ARG_1)] bool_var
  defn symbol [(str_var, Symbol.ARG_1)] vs body bool_var

/-- `str_starts_with` from the source. -/
@[simp] def str_starts_with (symbol : Symbol) (vs : VarStore) :
    Def × VarStore :=
  lowlevel_2 symbol LowLevel.StrStartsWith vs

/-- `str_starts_with_code_point` from the source. -/
@[simp] def str_starts_with_code_point (symbol : Symbol) (vs : VarStore) :
    Def × VarStore :=
  lowlevel_2 symbol LowLevel.StrStartsWithCodePt vs

/-- `str_ends_with` from the source. -/
@[simp] def str_ends_with (symbol : Symbol) (vs : VarStore) :
    Def × VarStore :=
  let (str_var, vs) := vs.fresh
  let (bool_var, vs) := vs.fresh
  let body := Expr.RunLowLevel LowLevel.StrEndsWith
    [(str_var, Expr.Var Symbol.ARG_1), (str_var, Expr.Var Symbol.ARG_2)]
    bool_var
  defn symbol [(str_var, Symbol.ARG_1), (str_var, Symbol.ARG_2)] vs body
    bool_var

/-- `str_count_graphemes` from the source. -/
@[simp] def str_count_graphemes (symbol : Symbol) (vs : VarStore) :
    Def × VarStore :=
  let (str_var, vs) := vs.fresh
  let (int_var, vs) := vs.fresh
  let body := Expr.RunLowLevel LowLevel.StrCountGraphemes
    [(str_var, Expr.Var Symbol.ARG_1)] int_var
  defn symbol [(str_var, Symbol.ARG_1)] vs body int_var

/-- `str_from_int` from the source. -/
@[simp] def str_from_int (symbol : Symbol) (vs : VarStore) : Def × VarStore :=
  let (int_var, vs) := vs.fresh
  let (str_var, vs) := vs.fresh
  let body := Expr.RunLowLevel LowLevel.StrFromInt
    [(int_var, Expr.Var Symbol.ARG_1)] str_var
  defn symbol [(int_var, Symbol.ARG_1)] vs body str_var

/-- `str_from_utf8` from the source: bind the decoder's record result to
`ARG_2`, guard on its `c_isOk` flag, yielding `Ok` of `b_str` or
`Err (BadUtf8 d_problem a_byteIndex)`. -/
@[simp] def str_from_utf8 (symbol : Symbol) (vs : VarStore) :
    Def × VarStore :=
  let (bytes_var, vs) := vs.fresh
  let (bool_var, vs) := vs.fresh
  let (record_var, vs) := vs.fresh
  let (ret_var, vs) := vs.fresh
  let innerDef : Def :=
    { locPattern := noRegion (Pattern.Identifier Symbol.ARG_2),
      locExpr := noRegion (Expr.RunLowLevel LowLevel.StrFromUtf8
        [(bytes_var, Expr.Var Symbol.ARG_1)] record_var),
      exprVar := record_var,
      patternVars := [],
      anno := none }
  let (cond_ext_var, vs) := vs.fresh
  let (cond_field_var, vs) := vs.fresh
  let cond := Expr.Access record_var cond_ext_var "c_isOk" cond_field_var
    (noRegion (Expr.Var Symbol.ARG_2))
  let (ok_ext_var, vs) := vs.fresh
  let (ok_field_var, vs) := vs.fresh
  let okAccess := Expr.Access record_var ok_ext_var "b_str" ok_field_var
    (noRegion (Expr.Var Symbol.ARG_2))
  let (okTag, vs) := tagE "Ok" [okAccess] vs
  let (problem_ext_var, vs) := vs.fresh
  let (problem_field_var, vs) := vs.fresh
  let problemAccess := Expr.Access record_var problem_ext_var "d_problem"
    problem_field_var (noRegion (Expr.Var Symbol.ARG_2))
  let (index_ext_var, vs) := vs.fresh
  let (index_field_var, vs) := vs.fresh
  let indexAccess := Expr.Access record_var index_ext_var "a_byteIndex"
    index_field_var (noRegion (Expr.Var Symbol.ARG_2))
  let (badUtf8Tag, vs) := tagE "BadUtf8" [problemAccess, indexAccess] vs
  let (errTag, vs) := tagE "Err" [badUtf8Tag] vs
  let cont := Expr.If bool_var ret_var [(noRegion cond, noRegion okTag)]
    (noRegion errTag)
  let body := Expr.letNonRecD innerDef (noRegion cont) ret_var
  defn symbol [(bytes_var, Symbol.ARG_1)] vs body ret_var

/-- `str_from_utf8_range` from the source: like `str_from_utf8` but with a
pre-check `start + count <= List.len bytes` wrapped around the whole
decode, reporting `Err OutOfBounds` when it fails. -/
@[simp] def str_from_utf8_range (symbol : Symbol) (vs : VarStore) :
    Def × VarStore :=
  let (bytes_var, vs) := vs.fresh
  let (bool_var, vs) := vs.fresh
  let (arg_record_var, vs) := vs.fresh
  let (ll_record_var, vs) := vs.fresh
  let (ret_var, vs) := vs.fresh
  let innerDef : Def :=
    { locPattern := noRegion (Pattern.Identifier Symbol.ARG_3),
      locExpr := noRegion (Expr.RunLowLevel LowLevel.StrFromUtf8Range
        [(bytes_var, Expr.Var Symbol.ARG_1),
          (arg_record_var, Expr.Var Symbol.ARG_2)] ll_record_var),
      exprVar := ll_record_var,
      patternVars := [],
      anno := none }
  let (cond_ext_var, vs) := vs.fresh
  let (cond_field_var, vs) := vs.fresh
  let cond := Expr.Access ll_record_var cond_ext_var "c_isOk" cond_field_var
    (noRegion (Expr.Var Symbol.ARG_3))
  let (ok_ext_var, vs) := vs.fresh
  let (ok_field_var, vs) := vs.fresh
  let okAccess := Expr.Access ll_record_var ok_ext_var "b_str" ok_field_var
    (noRegion (Expr.Var Symbol.ARG_3))
  let (okTag, vs) := tagE "Ok" [okAccess] vs
  let (problem_ext_var, vs) := vs.fresh
  let (problem_field_var, vs) := vs.fresh
  let problemAccess := Expr.Access ll_record_var problem_ext_var "d_problem"
    problem_field_var (noRegion (Expr.Var Symbol.ARG_3))
  let (index_ext_var, vs) := vs.fresh
  let (index_field_var, vs) := vs.fresh
  let indexAccess := Expr.Access ll_record_var index_ext_var "a_byteIndex"
    index_field_var (noRegion (Expr.Var Symbol.ARG_3))
  let (badUtf8Tag, vs) := tagE "BadUtf8" [problemAccess, indexAccess] vs
  let (errTag, vs) := tagE "Err" [badUtf8Tag] vs
  let cont := Expr.If bool_var ret_var [(noRegion cond, noRegion okTag)]
    (noRegion errTag)
  let roc_result := Expr.letNonRecD innerDef (noRegion cont) ret_var
  let (bounds_var, vs) := vs.fresh
  let (bounds_bool, vs) := vs.fresh
  let (add_var, vs) := vs.fresh
  let (start_ext_var, vs) := vs.fresh
  let (start_field_var, vs) := vs.fresh
  let startAccess := Expr.Access arg_record_var start_ext_var "start"
    start_field_var (noRegion (Expr.Var Symbol.ARG_2))
  let (count_ext_var, vs) := vs.fresh
  let (count_field_var, vs) := vs.fresh
  let countAccess := Expr.Access arg_record_var count_ext_var "count"
    count_field_var (noRegion (Expr.Var Symbol.ARG_2))
  let boundsGuard := Expr.RunLowLevel LowLevel.NumLte
    [(bounds_var, Expr.RunLowLevel LowLevel.NumAdd
        [(add_var, startAccess), (add_var, countAccess)] add_var),
      (bounds_var, Expr.RunLowLevel LowLevel.ListLen
        [(bytes_var, Expr.Var Symbol.ARG_1)] bounds_var)] bounds_bool
  let (oobTag, vs) := tagE "OutOfBounds" [] vs
  let (outerErrTag, vs) := tagE "Err" [oobTag] vs
  let body := Expr.If bounds_bool ret_var
    [(noRegion boundsGuard, noRegion roc_result)] (noRegion outerErrTag)
  defn symbol [(bytes_var, Symbol.ARG_1), (arg_record_var, Symbol.ARG_2)] vs
    body ret_var

/-- `str_to_utf8` from the source. -/
@[simp] def str_to_utf8 (symbol : Symbol) (vs : VarStore) : Def × VarStore :=
  lowlevel_1 symbol LowLevel.StrToUtf8 vs

/-- `str_from_float` from the source. -/
@[simp] def str_from_float (symbol : Symbol) (vs : VarStore) :
    Def × VarStore :=
  let (float_var, vs) := vs.fresh
  let (str_var, vs) := vs.fresh
  let body := Expr.RunLowLevel LowLevel.StrFromFloat
    [(float_var, Expr.Var Symbol.ARG_1)] str_var
  defn symbol [(float_var, Symbol.ARG_1)] vs body str_var

/-- `list_concat` from the source. -/
@[simp] def list_concat (symbol : Symbol) (vs : VarStore) : Def × VarStore :=
  let (list_var, vs) := vs.fresh
  let body := Expr.RunLowLevel LowLevel.ListConcat
    [(list_var, Expr.Var Symbol.ARG_1), (list_var, Expr.Var Symbol.ARG_2)]
    list_var
  defn symbol [(list_var, Symbol.ARG_1), (list_var, Symbol.ARG_2)] vs body
    list_var

/-- `list_repeat` from the source. -/
@[simp] def list_repeat (symbol : Symbol) (vs : VarStore) : Def × VarStore :=
  let (elem_var, vs) := vs.fresh
  let (len_var, vs) := vs.fresh
  let (list_var, vs) := vs.fresh
  let body := Expr.RunLowLevel LowLevel.ListRepeat
    [(elem_var, Expr.Var Symbol.ARG_1), (len_var, Expr.Var Symbol.ARG_2)]
    list_var
  defn symbol [(elem_var, Symbol.ARG_1), (len_var, Symbol.ARG_2)] vs body
    list_var

/-- `list_single` from the source. -/
@[simp] def list_single (symbol : Symbol) (vs : VarStore) : Def × VarStore :=
  let (elem_var, vs) := vs.fresh
  let (list_var, vs) := vs.fresh
  let body := Expr.RunLowLevel LowLevel.ListSingle
    [(elem_var, Expr.Var Symbol.ARG_1)] list_var
  defn symbol [(elem_var, Symbol.ARG_1)] vs body list_var

/-- `list_len` from the source. -/
@[simp] def list_len (symbol : Symbol) (vs : VarStore) : Def × VarStore :=
  let (len_var, vs) := vs.fresh
  let (list_var, vs) := vs.fresh
  let body := Expr.RunLowLevel LowLevel.ListLen
    [(list_var, Expr.Var Symbol.ARG_1)] len_var
  defn symbol [(list_var, Symbol.ARG_1)] vs body len_var

/-- `list_get` from the source: guard `index < List.len list`, then `Ok` of
`ListGetUnsafe list index`, else `Err OutOfBounds`. -/
@[simp] def list_get (symbol : Symbol) (vs : VarStore) : Def × VarStore :=
  let (bool_var, vs) := vs.fresh
  let (len_var, vs) := vs.fresh
  let (list_var, vs) := vs.fresh
  let (elem_var, vs) := vs.fresh
  let (ret_var, vs) := vs.fresh
  let (branch_var, vs) := vs.fresh
  let guard := Expr.RunLowLevel LowLevel.NumLt
    [(len_var, Expr.Var Symbol.ARG_2),
      (len_var, Expr.RunLowLevel LowLevel.ListLen
        [(list_var, Expr.Var Symbol.ARG_1)] len_var)] bool_var
  let (okTag, vs) := tagE "Ok"
    [Expr.RunLowLevel LowLevel.ListGetUnsafe
      [(list_var, Expr.Var Symbol.ARG_1), (len_var, Expr.Var Symbol.ARG_2)]
      elem_var] vs
  let (oobTag, vs) := tagE "OutOfBounds" [] vs
  let (errTag, vs) := tagE "Err" [oobTag] vs
  let body := Expr.If bool_var branch_var [(noRegion guard, noRegion okTag)]
    (noRegion errTag)
  defn symbol [(list_var, Symbol.ARG_1), (len_var, Symbol.ARG_2)] vs body
    ret_var

/-- `list_set` from the source: bounds-check, then `ListSet`, else the list
unchanged. -/
@[simp] def list_set (symbol : Symbol) (vs : VarStore) : Def × VarStore :=
  let (bool_var, vs) := vs.fresh
  let (len_var, vs) := vs.fresh
  let (elem_var, vs) := vs.fresh
  let (list_arg_var, vs) := vs.fresh
  let (list_ret_var, vs) := vs.fresh
  let guard := Expr.RunLowLevel LowLevel.NumLt
    [(len_var, Expr.Var Symbol.ARG_2),
      (len_var, Expr.RunLowLevel LowLevel.ListLen
        [(list_arg_var, Expr.Var Symbol.ARG_1)] len_var)] bool_var
  let setCall := Expr.RunLowLevel LowLevel.ListSet
    [(list_arg_var, Expr.Var Symbol.ARG_1), (len_var, Expr.Var Symbol.ARG_2),
      (elem_var, Expr.Var Symbol.ARG_3)] list_ret_var
  let body := Expr.If bool_var list_ret_var
    [(noRegion guard, noRegion setCall)] (noRegion (Expr.Var Symbol.ARG_1))
  defn symbol
    [(list_arg_var, Symbol.ARG_1), (len_var, Symbol.ARG_2),
      (elem_var, Symbol.ARG_3)] vs body list_ret_var

/-- `list_swap` from the source. -/
@[simp] def list_swap (symbol : Symbol) (vs : VarStore) : Def × VarStore :=
  let (list_var, vs) := vs.fresh
  let (index1_var, vs) := vs.fresh
  let (index2_var, vs) := vs.fresh
  let body := Expr.RunLowLevel LowLevel.ListSwap
    [(list_var, Expr.Var Symbol.ARG_1), (index1_var, Expr.Var Symbol.ARG_2),
      (index2_var, Expr.Var Symbol.ARG_3)] list_var
  defn symbol
    [(list_var, Symbol.ARG_1), (index1_var, Symbol.ARG_2),
      (index2_var, Symbol.ARG_3)] vs body list_var

/-- `list_take_first` from the source. -/
@[simp] def list_take_first (symbol : Symbol) (vs : VarStore) :
    Def × VarStore :=
  let (list_var, vs) := vs.fresh
  let (len_var, vs) := vs.fresh
  let body := Expr.RunLowLevel LowLevel.ListTakeFirst
    [(list_var, Expr.Var Symbol.ARG_1), (len_var, Expr.Var Symbol.ARG_2)]
    list_var
  defn symbol [(list_var, Symbol.ARG_1), (len_var, Symbol.ARG_2)] vs body
    list_var

/-- `list_take_last` from the source. -/
@[simp] def list_take_last (symbol : Symbol) (vs : VarStore) :
    Def × VarStore :=
  let (list_var, vs) := vs.fresh
  let (len_var, vs) := vs.fresh
  let body := Expr.RunLowLevel LowLevel.ListTakeLast
    [(list_var, Expr.Var Symbol.ARG_1), (len_var, Expr.Var Symbol.ARG_2)]
    list_var
  defn symbol [(list_var, Symbol.ARG_1), (len_var, Symbol.ARG_2)] vs body
    list_var

/-- `list_drop` from the source. -/
@[simp] def list_drop (symbol : Symbol) (vs : VarStore) : Def × VarStore :=
  let (list_var, vs) := vs.fresh
  let (index_var, vs) := vs.fresh
  let body := Expr.RunLowLevel LowLevel.ListDrop
    [(list_var, Expr.Var Symbol.ARG_1), (index_var, Expr.Var Symbol.ARG_2)]
    list_var
  defn symbol [(list_var, Symbol.ARG_1), (index_var, Symbol.ARG_2)] vs body
    list_var

/-- `list_drop_at` from the source. -/
@[simp] def list_drop_at (symbol : Symbol) (vs : VarStore) : Def × VarStore :=
  let (list_var, vs) := vs.fresh
  let (index_var, vs) := vs.fresh
  let body := Expr.RunLowLevel LowLevel.ListDropAt
    [(list_var, Expr.Var Symbol.ARG_1), (index_var, Expr.Var Symbol.ARG_2)]
    list_var
  defn symbol [(list_var, Symbol.ARG_1), (index_var, Symbol.ARG_2)] vs body
    list_var

/-- `list_drop_first` from the source: `ListDropAt list 0` with the reserved
`NAT`/`NATURAL` variables typing the zero literal. -/
@[simp] def list_drop_first (symbol : Symbol) (vs : VarStore) :
    Def × VarStore :=
  let (list_var, vs) := vs.fresh
  let (index_var, vs) := vs.fresh
  let num_var := Variable.NAT
  let num_precision_var := Variable.NATURAL
  let body := Expr.RunLowLevel LowLevel.ListDropAt
    [(list_var, Expr.Var Symbol.ARG_1),
      (index_var, intE num_var num_precision_var 0)] list_var
  defn symbol [(list_var, Symbol.ARG_1)] vs body list_var

/-- `list_drop_last` from the source: `ListDropAt list (List.len list - 1)`. -/
@[simp] def list_drop_last (symbol : Symbol) (vs : VarStore) :
    Def × VarStore :=
  let (list_var, vs) := vs.fresh
  let (index_var, vs) := vs.fresh
  let (arg_var, vs) := vs.fresh
  let len_var := Variable.NAT
  let num_var := len_var
  let num_precision_var := Variable.NATURAL
  let body := Expr.RunLowLevel LowLevel.ListDropAt
    [(list_var, Expr.Var Symbol.ARG_1),
      (index_var, Expr.RunLowLevel LowLevel.NumSubWrap
        [(arg_var, Expr.RunLowLevel LowLevel.ListLen
            [(list_var, Expr.Var Symbol.ARG_1)] len_var),
          (arg_var, intE num_var num_precision_var 1)] len_var)] list_var
  defn symbol [(list_var, Symbol.ARG_1)] vs body list_var

/-- `list_append` from the source. -/
@[simp] def list_append (symbol : Symbol) (vs : VarStore) : Def × VarStore :=
  let (list_var, vs) := vs.fresh
  let (elem_var, vs) := vs.fresh
  let body := Expr.RunLowLevel LowLevel.ListAppend
    [(list_var, Expr.Var Symbol.ARG_1), (elem_var, Expr.Var Symbol.ARG_2)]
    list_var
  defn symbol [(list_var, Symbol.ARG_1), (elem_var, Symbol.ARG_2)] vs body
    list_var

/-- `list_prepend` from the source. -/
@[simp] def list_prepend (symbol : Symbol) (vs : VarStore) : Def × VarStore :=
  let (list_var, vs) := vs.fresh
  let (elem_var, vs) := vs.fresh
  let body := Expr.RunLowLevel LowLevel.ListPrepend
    [(list_var, Expr.Var Symbol.ARG_1), (elem_var, Expr.Var Symbol.ARG_2)]
    list_var
  defn symbol [(list_var, Symbol.ARG_1), (elem_var, Symbol.ARG_2)] vs body
    list_var

/-- `list_join` from the source. -/
@[simp] def list_join (symbol : Symbol) (vs : VarStore) : Def × VarStore :=
  let (list_var, vs) := vs.fresh
  let (list_of_list_var, vs) := vs.fresh
  let body := Expr.RunLowLevel LowLevel.ListJoin
    [(list_of_list_var, Expr.Var Symbol.ARG_1)] list_var
  defn symbol [(list_of_list_var, Symbol.ARG_1)] vs body list_var

/-- `list_walk` from the source. -/
@[simp] def list_walk (symbol : Symbol) (vs : VarStore) : Def × VarStore :=
  lowlevel_3 symbol LowLevel.ListWalk vs

/-- `list_walk_backwards` from the source. -/
@[simp] def list_walk_backwards (symbol : Symbol) (vs : VarStore) :
    Def × VarStore :=
  lowlevel_3 symbol LowLevel.ListWalkBackwards vs

/-- `list_walk_until` from the source. -/
@[simp] def list_walk_until (symbol : Symbol) (vs : VarStore) :
    Def × VarStore :=
  lowlevel_3 symbol LowLevel.ListWalkUntil vs

/-- `list_join_map` from the source: `List.walk input [] (\state, elem ->
List.concat state (mapper elem))`, with the user mapper captured by the step
closure. -/
@[simp] def list_join_map (symbol : Symbol) (vs : VarStore) :
    Def × VarStore :=
  let (before, vs) := vs.fresh
  let (list_before, vs) := vs.fresh
  let (after, vs) := vs.fresh
  let (list_after, vs) := vs.fresh
  let (before2list_after, vs) := vs.fresh
  let (t_concat_clos, vs) := vs.fresh
  let (mapper_lambda_set, vs) := vs.fresh
  let (closure_type, vs) := vs.fresh
  let (closure_ext_var, vs) := vs.fresh
  let mapper_elem := Expr.Call before2list_after
    (noRegion (Expr.Var Symbol.ARG_2)) mapper_lambda_set list_after
    [(before, noRegion (Expr.Var Symbol.ARG_4))] CalledVia.Space
  let concat_clos := Expr.Closure t_concat_clos closure_type closure_ext_var
    list_after Symbol.LIST_JOIN_MAP_CONCAT Recursive.NotRecursive
    [(Symbol.ARG_2, before2list_after)]
    [(list_after, noRegion (Pattern.Identifier Symbol.ARG_3)),
      (before, noRegion (Pattern.Identifier Symbol.ARG_4))]
    (noRegion (Expr.RunLowLevel LowLevel.ListConcat
      [(list_after, Expr.Var Symbol.ARG_3), (list_after, mapper_elem)]
      list_after))
  let body := Expr.RunLowLevel LowLevel.ListWalk
    [(list_before, Expr.Var Symbol.ARG_1),
      (list_after, Expr.List after []),
      (t_concat_clos, concat_clos)] list_after
  defn symbol [(list_before, Symbol.ARG_1), (before2list_after, Symbol.ARG_2)]
    vs body list_after

/-- `list_min_lt` from the source: the internal step closure
`\acc, elem -> if elem < acc then elem else acc`. -/
@[simp] def list_min_lt (list_elem_var : Variable) (vs : VarStore) :
    Expr × VarStore :=
  let (bool_var, vs) := vs.fresh
  let body := Expr.If bool_var list_elem_var
    [(noRegion (Expr.RunLowLevel LowLevel.NumLt
        [(list_elem_var, Expr.Var Symbol.ARG_4),
          (list_elem_var, Expr.Var Symbol.ARG_3)] bool_var),
      noRegion (Expr.Var Symbol.ARG_4))]
    (noRegion (Expr.Var Symbol.ARG_3))
  defn_help Symbol.LIST_MIN_LT
    [(list_elem_var, Symbol.ARG_3), (list_elem_var, Symbol.ARG_4)] vs body
    list_elem_var

/-- `list_min` from the source: guard `List.len list != 0`, then `Ok` of a
fold seeded with `ListGetUnsafe list 0`, else `Err ListWasEmpty`. -/
@[simp] def list_min (symbol : Symbol) (vs : VarStore) : Def × VarStore :=
  let (arg_var, vs) := vs.fresh
  let (bool_var, vs) := vs.fresh
  let (list_var, vs) := vs.fresh
  let len_var := Variable.NAT
  let num_var := len_var
  let num_precision_var := Variable.NATURAL
  let (list_elem_var, vs) := vs.fresh
  let (ret_var, vs) := vs.fresh
  let (closure_var, vs) := vs.fresh
  let (branch_var, vs) := vs.fresh
  let guard := Expr.RunLowLevel LowLevel.NotEq
    [(len_var, intE num_var num_precision_var 0),
      (len_var, Expr.RunLowLevel LowLevel.ListLen
        [(list_var, Expr.Var Symbol.ARG_1)] len_var)] bool_var
  let (minClos, vs) := list_min_lt list_elem_var vs
  let walk := Expr.RunLowLevel LowLevel.ListWalk
    [(list_var, Expr.Var Symbol.ARG_1),
      (list_elem_var, Expr.RunLowLevel LowLevel.ListGetUnsafe
        [(list_var, Expr.Var Symbol.ARG_1),
          (arg_var, intE num_var num_precision_var 0)] list_elem_var),
      (closure_var, minClos)] list_elem_var
  let (okTag, vs) := tagE "Ok" [walk] vs
  let (emptyTag, vs) := tagE "ListWasEmpty" [] vs
  let (errTag, vs) := tagE "Err" [emptyTag] vs
  let body := Expr.If bool_var branch_var [(noRegion guard, noRegion okTag)]
    (noRegion errTag)
  defn symbol [(list_var, Symbol.ARG_1)] vs body ret_var

/-- `list_max_gt` from the source: the internal step closure
`\acc, elem -> if elem > acc then elem else acc`. -/
@[simp] def list_max_gt (list_elem_var : Variable) (vs : VarStore) :
    Expr × VarStore :=
  let (bool_var, vs) := vs.fresh
  let body := Expr.If bool_var list_elem_var
    [(noRegion (Expr.RunLowLevel LowLevel.NumGt
        [(list_elem_var, Expr.Var Symbol.ARG_4),
          (list_elem_var, Expr.Var Symbol.ARG_3)] bool_var),
      noRegion (Expr.Var Symbol.ARG_4))]
    (noRegion (Expr.Var Symbol.ARG_3))
  defn_help Symbol.LIST_MAX_GT
    [(list_elem_var, Symbol.ARG_3), (list_elem_var, Symbol.ARG_4)] vs body
    list_elem_var

/-- `list_max` from the source: guard `List.len list != 0`, then `Ok` of a
fold seeded with `ListGetUnsafe list 0`, else `Err ListWasEmpty`. -/
@[simp] def list_max (symbol : Symbol) (vs : VarStore) : Def × VarStore :=
  let (arg_var, vs) := vs.fresh
  let (bool_var, vs) := vs.fresh
  let (list_var, vs) := vs.fresh
  let len_var := Variable.NAT
  let num_var := len_var
  let num_precision_var := Variable.NATURAL
  let (list_elem_var, vs) := vs.fresh
  let (ret_var, vs) := vs.fresh
  let (closure_var, vs) := vs.fresh
  let (branch_var, vs) := vs.fresh
  let guard := Expr.RunLowLevel LowLevel.NotEq
    [(len_var, intE num_var num_precision_var 0),
      (len_var, Expr.RunLowLevel LowLevel.ListLen
        [(list_var, Expr.Var Symbol.ARG_1)] len_var)] bool_var
  let (maxClos, vs) := list_max_gt list_elem_var vs
  let walk := Expr.RunLowLevel LowLevel.ListWalk
    [(list_var, Expr.Var Symbol.ARG_1),
      (list_elem_var, Expr.RunLowLevel LowLevel.ListGetUnsafe
        [(list_var, Expr.Var Symbol.ARG_1),
          (arg_var, intE num_var num_precision_var 0)] list_elem_var),
      (closure_var, maxClos)] list_elem_var
  let (okTag, vs) := tagE "Ok" [walk] vs
  let (emptyTag, vs) := tagE "ListWasEmpty" [] vs
  let (errTag, vs) := tagE "Err" [emptyTag] vs
  let body := Expr.If bool_var branch_var [(noRegion guard, noRegion okTag)]
    (noRegion errTag)
  defn symbol [(list_var, Symbol.ARG_1)] vs body ret_var

/-- `list_sum_add` from the source: the internal step closure for `List.sum`. -/
@[simp] def list_sum_add (num_var : Variable) (vs : VarStore) :
    Expr × VarStore :=
  let body := Expr.RunLowLevel LowLevel.NumAdd
    [(num_var, Expr.Var Symbol.ARG_3), (num_var, Expr.Var Symbol.ARG_4)]
    num_var
  defn_help Symbol.LIST_SUM_ADD
    [(num_var, Symbol.ARG_3), (num_var, Symbol.ARG_4)] vs body num_var

/-- `list_sum` from the source: a fold seeded with the literal `0`. -/
@[simp] def list_sum (symbol : Symbol) (vs : VarStore) : Def × VarStore :=
  let (num_var, vs) := vs.fresh
  let ret_var := num_var
  let (list_var, vs) := vs.fresh
  let (closure_var, vs) := vs.fresh
  let (zero_num_var, vs) := vs.fresh
  let (addClos, vs) := list_sum_add num_var vs
  let body := Expr.RunLowLevel LowLevel.ListWalk
    [(list_var, Expr.Var Symbol.ARG_1),
      (num_var, numE zero_num_var 0),
      (closure_var, addClos)] ret_var
  defn symbol [(list_var, Symbol.ARG_1)] vs body ret_var

/-- `list_product_mul` from the source: the internal step closure for
`List.product`. -/
@[simp] def list_product_mul (num_var : Variable) (vs : VarStore) :
    Expr × VarStore :=
  let body := Expr.RunLowLevel LowLevel.NumMul
    [(num_var, Expr.Var Symbol.ARG_3), (num_var, Expr.Var Symbol.ARG_4)]
    num_var
  defn_help Symbol.LIST_PRODUCT_MUL
    [(num_var, Symbol.ARG_3), (num_var, Symbol.ARG_4)] vs body num_var

/-- `list_product` from the source: a fold seeded with the literal `1`. -/
@[simp] def list_product (symbol : Symbol) (vs : VarStore) : Def × VarStore :=
  let (num_var, vs) := vs.fresh
  let ret_var := num_var
  let (list_var, vs) := vs.fresh
  let (closure_var, vs) := vs.fresh
  let (one_num_var, vs) := vs.fresh
  let (mulClos, vs) := list_product_mul num_var vs
  let body := Expr.RunLowLevel LowLevel.ListWalk
    [(list_var, Expr.Var Symbol.ARG_1),
      (num_var, numE one_num_var 1),
      (closure_var, mulClos)] ret_var
  defn symbol [(list_var, Symbol.ARG_1)] vs body ret_var

/-- `list_keep_if` from the source. -/
@[simp] def list_keep_if (symbol : Symbol) (vs : VarStore) : Def × VarStore :=
  let (list_var, vs) := vs.fresh
  let (func_var, vs) := vs.fresh
  let body := Expr.RunLowLevel LowLevel.ListKeepIf
    [(list_var, Expr.Var Symbol.ARG_1), (func_var, Expr.Var Symbol.ARG_2)]
    list_var
  defn symbol [(list_var, Symbol.ARG_1), (func_var, Symbol.ARG_2)] vs body
    list_var

/-- `list_contains` from the source. -/
@[simp] def list_contains (symbol : Symbol) (vs : VarStore) :
    Def × VarStore :=
  lowlevel_2 symbol LowLevel.ListContains vs

/-- `list_keep_oks` from the source. -/
@[simp] def list_keep_oks (symbol : Symbol) (vs : VarStore) :
    Def × VarStore :=
  lowlevel_2 symbol LowLevel.ListKeepOks vs

/-- `list_keep_errs` from the source. -/
@[simp] def list_keep_errs (symbol : Symbol) (vs : VarStore) :
    Def × VarStore :=
  lowlevel_2 symbol LowLevel.ListKeepErrs vs

/-- `list_range` from the source. -/
@[simp] def list_range (symbol : Symbol) (vs : VarStore) : Def × VarStore :=
  lowlevel_2 symbol LowLevel.ListRange vs

/-- `list_map` from the source. -/
@[simp] def list_map (symbol : Symbol) (vs : VarStore) : Def × VarStore :=
  lowlevel_2 symbol LowLevel.ListMap vs

/-- `list_map_with_index` from the source. -/
@[simp] def list_map_with_index (symbol : Symbol) (vs : VarStore) :
    Def × VarStore :=
  lowlevel_2 symbol LowLevel.ListMapWithIndex vs

/-- `list_map2` from the source. -/
@[simp] def list_map2 (symbol : Symbol) (vs : VarStore) : Def × VarStore :=
  lowlevel_3 symbol LowLevel.ListMap2 vs

/-- `list_map3` from the source. -/
@[simp] def list_map3 (symbol : Symbol) (vs : VarStore) : Def × VarStore :=
  lowlevel_4 symbol LowLevel.ListMap3 vs

/-- `list_map4` from the source. -/
@[simp] def list_map4 (symbol : Symbol) (vs : VarStore) : Def × VarStore :=
  lowlevel_5 symbol LowLevel.ListMap4 vs

/-- `list_sort_with` from the source. -/
@[simp] def list_sort_with (symbol : Symbol) (vs : VarStore) :
    Def × VarStore :=
  lowlevel_2 symbol LowLevel.ListSortWith vs

/-- `list_any` from the source. -/
@[simp] def list_any (symbol : Symbol) (vs : VarStore) : Def × VarStore :=
  lowlevel_2 symbol LowLevel.ListAny vs

/-- `list_find` from the source: bind `ListFindUnsafe`'s
`{ value, found }` record, then guard on the `found` field. -/
@[simp] def list_find (symbol : Symbol) (vs : VarStore) : Def × VarStore :=
  let (t_list, vs) := vs.fresh
  let (t_pred_fn, vs) := vs.fresh
  let (t_bool, vs) := vs.fresh
  let (t_found, vs) := vs.fresh
  let (t_value, vs) := vs.fresh
  let (t_ret, vs) := vs.fresh
  let (t_find_result, vs) := vs.fresh
  let (t_ext_var1, vs) := vs.fresh
  let (t_ext_var2, vs) := vs.fresh
  let innerDef : Def :=
    { locPattern := noRegion (Pattern.Identifier Symbol.LIST_FIND_RESULT),
      locExpr := noRegion (Expr.RunLowLevel LowLevel.ListFindUnsafe
        [(t_list, Expr.Var Symbol.ARG_1), (t_pred_fn, Expr.Var Symbol.ARG_2)]
        t_find_result),
      exprVar := t_find_result,
      patternVars := [],
      anno := none }
  let getValue := Expr.Access t_find_result t_ext_var1 "value" t_value
    (noRegion (Expr.Var Symbol.LIST_FIND_RESULT))
  let getFound := Expr.Access t_find_result t_ext_var2 "found" t_found
    (noRegion (Expr.Var Symbol.LIST_FIND_RESULT))
  let (makeOk, vs) := tagE "Ok" [getValue] vs
  let (notFoundTag, vs) := tagE "NotFound" [] vs
  let (makeErr, vs) := tagE "Err" [notFoundTag] vs
  let inspect := Expr.If t_bool t_ret
    [(noRegion getFound, noRegion makeOk)] (noRegion makeErr)
  let body := Expr.letNonRecD innerDef (noRegion inspect) t_ret
  defn symbol [(t_list, Symbol.ARG_1), (t_pred_fn, Symbol.ARG_2)] vs body
    t_ret

/-- `dict_len` from the source; the result variable is the reserved `NAT`. -/
@[simp] def dict_len (symbol : Symbol) (vs : VarStore) : Def × VarStore :=
  let (arg1_var, vs) := vs.fresh
  let ret_var := Variable.NAT
  let body := Expr.RunLowLevel LowLevel.DictSize
    [(arg1_var, Expr.Var Symbol.ARG_1)] ret_var
  defn symbol [(arg1_var, Symbol.ARG_1)] vs body ret_var

/-- `dict_empty` from the source: a direct `Def` (no wrapping closure). -/
@[simp] def dict_empty (symbol : Symbol) (vs : VarStore) : Def × VarStore :=
  let (dict_var, vs) := vs.fresh
  let body := Expr.RunLowLevel LowLevel.DictEmpty [] dict_var
  ({ locPattern := noRegion (Pattern.Identifier symbol),
     locExpr := noRegion body,
     exprVar := dict_var,
     patternVars := [],
     anno := none }, vs)

/-- `dict_single` from the source: insert into a fresh empty dictionary. -/
@[simp] def dict_single (symbol : Symbol) (vs : VarStore) : Def × VarStore :=
  let (key_var, vs) := vs.fresh
  let (value_var, vs) := vs.fresh
  let (dict_var, vs) := vs.fresh
  let empty := Expr.RunLowLevel LowLevel.DictEmpty [] dict_var
  let body := Expr.RunLowLevel LowLevel.DictInsert
    [(dict_var, empty), (key_var, Expr.Var Symbol.ARG_1),
      (value_var, Expr.Var Symbol.ARG_2)] dict_var
  defn symbol [(key_var, Symbol.ARG_1), (value_var, Symbol.ARG_2)] vs body
    dict_var

/-- `dict_insert` from the source. -/
@[simp] def dict_insert (symbol : Symbol) (vs : VarStore) : Def × VarStore :=
  lowlevel_3 symbol LowLevel.DictInsert vs

/-- `dict_remove` from the source. -/
@[simp] def dict_remove (symbol : Symbol) (vs : VarStore) : Def × VarStore :=
  lowlevel_2 symbol LowLevel.DictRemove vs

/-- `dict_contains` from the source. -/
@[simp] def dict_contains (symbol : Symbol) (vs : VarStore) :
    Def × VarStore :=
  lowlevel_2 symbol LowLevel.DictContains vs

/-- `dict_get` from the source: bind `DictGetUnsafe`'s `{ zflag, value }`
record, then guard on the `zflag` field. -/
@[simp] def dict_get (symbol : Symbol) (vs : VarStore) : Def × VarStore :=
  let (bool_var, vs) := vs.fresh
  let (flag_var, vs) := vs.fresh
  let (key_var, vs) := vs.fresh
  let (dict_var, vs) := vs.fresh
  let (value_var, vs) := vs.fresh
  let (ret_var, vs) := vs.fresh
  let (temp_record_var, vs) := vs.fresh
  let (ext_var1, vs) := vs.fresh
  let (ext_var2, vs) := vs.fresh
  let innerDef : Def :=
    { locPattern := noRegion (Pattern.Identifier Symbol.DICT_GET_RESULT),
      locExpr := noRegion (Expr.RunLowLevel LowLevel.DictGetUnsafe
        [(dict_var, Expr.Var Symbol.ARG_1), (key_var, Expr.Var Symbol.ARG_2)]
        temp_record_var),
      exprVar := temp_record_var,
      patternVars := [],
      anno := none }
  let getValue := Expr.Access temp_record_var ext_var1 "value" value_var
    (noRegion (Expr.Var Symbol.DICT_GET_RESULT))
  let getFlag := Expr.Access temp_record_var ext_var2 "zflag" flag_var
    (noRegion (Expr.Var Symbol.DICT_GET_RESULT))
  let (makeOk, vs) := tagE "Ok" [getValue] vs
  let (keyNotFoundTag, vs) := tagE "KeyNotFound" [] vs
  let (makeErr, vs) := tagE "Err" [keyNotFoundTag] vs
  let inspect := Expr.If bool_var ret_var
    [(noRegion getFlag, noRegion makeOk)] (noRegion makeErr)
  let body := Expr.letNonRecD innerDef (noRegion inspect) ret_var
  defn symbol [(dict_var, Symbol.ARG_1), (key_var, Symbol.ARG_2)] vs body
    ret_var

/-- `dict_keys` from the source. -/
@[simp] def dict_keys (symbol : Symbol) (vs : VarStore) : Def × VarStore :=
  lowlevel_1 symbol LowLevel.DictKeys vs

/-- `dict_values` from the source. -/
@[simp] def dict_values (symbol : Symbol) (vs : VarStore) : Def × VarStore :=
  lowlevel_1 symbol LowLevel.DictValues vs

/-- `dict_union` from the source. -/
@[simp] def dict_union (symbol : Symbol) (vs : VarStore) : Def × VarStore :=
  lowlevel_2 symbol LowLevel.DictUnion vs

/-- `dict_difference` from the source. -/
@[simp] def dict_difference (symbol : Symbol) (vs : VarStore) :
    Def × VarStore :=
  lowlevel_2 symbol LowLevel.DictDifference vs

/-- `dict_intersection` from the source. -/
@[simp] def dict_intersection (symbol : Symbol) (vs : VarStore) :
    Def × VarStore :=
  lowlevel_2 symbol LowLevel.DictIntersection vs

/-- `dict_walk` from the source. -/
@[simp] def dict_walk (symbol : Symbol) (vs : VarStore) : Def × VarStore :=
  lowlevel_3 symbol LowLevel.DictWalk vs

/-- `set_empty` from the source: a direct `Def` (no wrapping closure). -/
@[simp] def set_empty (symbol : Symbol) (vs : VarStore) : Def × VarStore :=
  let (set_var, vs) := vs.fresh
  let body := Expr.RunLowLevel LowLevel.DictEmpty [] set_var
  ({ locPattern := noRegion (Pattern.Identifier symbol),
     locExpr := noRegion body,
     exprVar := set_var,
     patternVars := [],
     anno := none }, vs)

/-- `set_single` from the source: insert (with an empty-record value typed by
the reserved `EMPTY_RECORD` variable) into a fresh empty dictionary. -/
@[simp] def set_single (symbol : Symbol) (vs : VarStore) : Def × VarStore :=
  let (key_var, vs) := vs.fresh
  let (set_var, vs) := vs.fresh
  let value_var := Variable.EMPTY_RECORD
  let empty := Expr.RunLowLevel LowLevel.DictEmpty [] set_var
  let body := Expr.RunLowLevel LowLevel.DictInsert
    [(set_var, empty), (key_var, Expr.Var Symbol.ARG_1),
      (value_var, Expr.EmptyRecord)] set_var
  defn symbol [(key_var, Symbol.ARG_1)] vs body set_var

/-- `set_len` from the source. -/
@[simp] def set_len (symbol : Symbol) (vs : VarStore) : Def × VarStore :=
  lowlevel_1 symbol LowLevel.DictSize vs

/-- `set_union` from the source. -/
@[simp] def set_union (symbol : Symbol) (vs : VarStore) : Def × VarStore :=
  lowlevel_2 symbol LowLevel.DictUnion vs

/-- `set_difference` from the source. -/
@[simp] def set_difference (symbol : Symbol) (vs : VarStore) :
    Def × VarStore :=
  lowlevel_2 symbol LowLevel.DictDifference vs

/-- `set_intersection` from the source. -/
@[simp] def set_intersection (symbol : Symbol) (vs : VarStore) :
    Def × VarStore :=
  lowlevel_2 symbol LowLevel.DictIntersection vs

/-- `set_to_list` from the source: delegates to `dict_keys`. -/
@[simp] def set_to_list (symbol : Symbol) (vs : VarStore) : Def × VarStore :=
  dict_keys symbol vs

/-- `set_from_list` from the source. -/
@[simp] def set_from_list (symbol : Symbol) (vs : VarStore) :
    Def × VarStore :=
  lowlevel_1 symbol LowLevel.SetFromList vs

/-- `set_insert` from the source. -/
@[simp] def set_insert (symbol : Symbol) (vs : VarStore) : Def × VarStore :=
  let (dict_var, vs) := vs.fresh
  let (key_var, vs) := vs.fresh
  let val_var := Variable.EMPTY_RECORD
  let body := Expr.RunLowLevel LowLevel.DictInsert
    [(dict_var, Expr.Var Symbol.ARG_1), (key_var, Expr.Var Symbol.ARG_2),
      (val_var, Expr.EmptyRecord)] dict_var
  defn symbol [(dict_var, Symbol.ARG_1), (key_var, Symbol.ARG_2)] vs body
    dict_var

/-- `set_remove` from the source: delegates to `dict_remove`. -/
@[simp] def set_remove (symbol : Symbol) (vs : VarStore) : Def × VarStore :=
  dict_remove symbol vs

/-- `set_contains` from the source: delegates to `dict_contains`. -/
@[simp] def set_contains (symbol : Symbol) (vs : VarStore) : Def × VarStore :=
  dict_contains symbol vs

/-- `set_walk` from the source: `DictWalk` with a wrapper closure that drops
the (empty-record) dictionary value before calling the user function. -/
@[simp] def set_walk (symbol : Symbol) (vs : VarStore) : Def × VarStore :=
  let (dict_var, vs) := vs.fresh
  let (func_var, vs) := vs.fresh
  let (key_var, vs) := vs.fresh
  let (accum_var, vs) := vs.fresh
  let (wrapper_var, vs) := vs.fresh
  let (fn_closure_var, vs) := vs.fresh
  let call_func := Expr.Call func_var (noRegion (Expr.Var Symbol.ARG_3))
    fn_closure_var accum_var
    [(accum_var, noRegion (Expr.Var Symbol.ARG_5)),
      (key_var, noRegion (Expr.Var Symbol.ARG_6))] CalledVia.Space
  let (closure_type, vs) := vs.fresh
  let (closure_ext_var, vs) := vs.fresh
  let wrapper := Expr.Closure wrapper_var closure_type closure_ext_var
    accum_var Symbol.SET_WALK_USER_FUNCTION Recursive.NotRecursive
    [(Symbol.ARG_3, func_var)]
    [(accum_var, noRegion (Pattern.Identifier Symbol.ARG_5)),
      (key_var, noRegion (Pattern.Identifier Symbol.ARG_6)),
      (Variable.EMPTY_RECORD, noRegion Pattern.Underscore)]
    (noRegion call_func)
  let body := Expr.RunLowLevel LowLevel.DictWalk
    [(dict_var, Expr.Var Symbol.ARG_1), (accum_var, Expr.Var Symbol.ARG_2),
      (wrapper_var, wrapper)] accum_var
  defn symbol
    [(dict_var, Symbol.ARG_1), (accum_var, Symbol.ARG_2),
      (func_var, Symbol.ARG_3)] vs body accum_var

/-- `num_rem` from the source: guard `arg2 != 0`, then `Ok` of the unchecked
remainder, else `Err DivByZero`. -/
@[simp] def num_rem (symbol : Symbol) (vs : VarStore) : Def × VarStore :=
  let (num_var, vs) := vs.fresh
  let (unbound_zero_var, vs) := vs.fresh
  let (bool_var, vs) := vs.fresh
  let (ret_var, vs) := vs.fresh
  let guard := Expr.RunLowLevel LowLevel.NotEq
    [(num_var, Expr.Var Symbol.ARG_2), (num_var, numE unbound_zero_var 0)]
    bool_var
  let (okTag, vs) := tagE "Ok"
    [Expr.RunLowLevel LowLevel.NumRemUnchecked
      [(num_var, Expr.Var Symbol.ARG_1), (num_var, Expr.Var Symbol.ARG_2)]
      num_var] vs
  let (divByZeroTag, vs) := tagE "DivByZero" [] vs
  let (errTag, vs) := tagE "Err" [divByZeroTag] vs
  let body := Expr.If bool_var ret_var [(noRegion guard, noRegion okTag)]
    (noRegion errTag)
  defn symbol [(num_var, Symbol.ARG_1), (num_var, Symbol.ARG_2)] vs body
    ret_var

/-- `num_is_multiple_of` from the source. -/
@[simp] def num_is_multiple_of (symbol : Symbol) (vs : VarStore) :
    Def × VarStore :=
  lowlevel_2 symbol LowLevel.NumIsMultipleOf vs

/-- `num_neg` from the source. -/
@[simp] def num_neg (symbol : Symbol) (vs : VarStore) : Def × VarStore :=
  let (num_var, vs) := vs.fresh
  let body := Expr.RunLowLevel LowLevel.NumNeg
    [(num_var, Expr.Var Symbol.ARG_1)] num_var
  defn symbol [(num_var, Symbol.ARG_1)] vs body num_var

/-- `num_abs` from the source. -/
@[simp] def num_abs (symbol : Symbol) (vs : VarStore) : Def × VarStore :=
  let (num_var, vs) := vs.fresh
  let body := Expr.RunLowLevel LowLevel.NumAbs
    [(num_var, Expr.Var Symbol.ARG_1)] num_var
  defn symbol [(num_var, Symbol.ARG_1)] vs body num_var

/-- `num_div_float` from the source: guard `denominator != 0.0`, then `Ok`
of `NumDivUnchecked numerator denominator`, else `Err DivByZero`. -/
@[simp] def num_div_float (symbol : Symbol) (vs : VarStore) :
    Def × VarStore :=
  let (bool_var, vs) := vs.fresh
  let (num_var, vs) := vs.fresh
  let (unbound_zero_var, vs) := vs.fresh
  let (precision_var, vs) := vs.fresh
  let (ret_var, vs) := vs.fresh
  let guard := Expr.RunLowLevel LowLevel.NotEq
    [(num_var, Expr.Var Symbol.ARG_2),
      (num_var, floatE unbound_zero_var precision_var 0)] bool_var
  let (okTag, vs) := tagE "Ok"
    [Expr.RunLowLevel LowLevel.NumDivUnchecked
      [(num_var, Expr.Var Symbol.ARG_1), (num_var, Expr.Var Symbol.ARG_2)]
      num_var] vs
  let (divByZeroTag, vs) := tagE "DivByZero" [] vs
  let (errTag, vs) := tagE "Err" [divByZeroTag] vs
  let body := Expr.If bool_var ret_var [(noRegion guard, noRegion okTag)]
    (noRegion errTag)
  defn symbol [(num_var, Symbol.ARG_1), (num_var, Symbol.ARG_2)] vs body
    ret_var

/-- `num_div_int` from the source: guard `denominator != 0`, then `Ok` of
`NumDivUnchecked numerator denominator`, else `Err DivByZero`. -/
@[simp] def num_div_int (symbol : Symbol) (vs : VarStore) : Def × VarStore :=
  let (bool_var, vs) := vs.fresh
  let (num_var, vs) := vs.fresh
  let (unbound_zero_var, vs) := vs.fresh
  let (unbound_zero_precision_var, vs) := vs.fresh
  let (ret_var, vs) := vs.fresh
  let guard := Expr.RunLowLevel LowLevel.NotEq
    [(num_var, Expr.Var Symbol.ARG_2),
      (num_var, intE unbound_zero_var unbound_zero_precision_var 0)] bool_var
  let (okTag, vs) := tagE "Ok"
    [Expr.RunLowLevel LowLevel.NumDivUnchecked
      [(num_var, Expr.Var Symbol.ARG_1), (num_var, Expr.Var Symbol.ARG_2)]
      num_var] vs
  let (divByZeroTag, vs) := tagE "DivByZero" [] vs
  let (errTag, vs) := tagE "Err" [divByZeroTag] vs
  let body := Expr.If bool_var ret_var [(noRegion guard, noRegion okTag)]
    (noRegion errTag)
  defn symbol [(num_var, Symbol.ARG_1), (num_var, Symbol.ARG_2)] vs body
    ret_var

/-- `num_div_ceil` from the source: like `num_div_int` with the ceiling
division opcode. -/
@[simp] def num_div_ceil (symbol : Symbol) (vs : VarStore) : Def × VarStore :=
  let (bool_var, vs) := vs.fresh
  let (num_var, vs) := vs.fresh
  let (unbound_zero_var, vs) := vs.fresh
  let (unbound_zero_precision_var, vs) := vs.fresh
  let (ret_var, vs) := vs.fresh
  let guard := Expr.RunLowLevel LowLevel.NotEq
    [(num_var, Expr.Var Symbol.ARG_2),
      (num_var, intE unbound_zero_var unbound_zero_precision_var 0)] bool_var
  let (okTag, vs) := tagE "Ok"
    [Expr.RunLowLevel LowLevel.NumDivCeilUnchecked
      [(num_var, Expr.Var Symbol.ARG_1), (num_var, Expr.Var Symbol.ARG_2)]
      num_var] vs
  let (divByZeroTag, vs) := tagE "DivByZero" [] vs
  let (errTag, vs) := tagE "Err" [divByZeroTag] vs
  let body := Expr.If bool_var ret_var [(noRegion guard, noRegion okTag)]
    (noRegion errTag)
  defn symbol [(num_var, Symbol.ARG_1), (num_var, Symbol.ARG_2)] vs body
    ret_var

/-- `list_first` from the source: guard `List.len list != 0`, then `Ok` of
`ListGetUnsafe list 0`, else `Err ListWasEmpty`. -/
@[simp] def list_first (symbol : Symbol) (vs : VarStore) : Def × VarStore :=
  let (bool_var, vs) := vs.fresh
  let (list_var, vs) := vs.fresh
  let len_var := Variable.NAT
  let zero_var := len_var
  let zero_precision_var := Variable.NATURAL
  let (list_elem_var, vs) := vs.fresh
  let (ret_var, vs) := vs.fresh
  let (branch_var, vs) := vs.fresh
  let guard := Expr.RunLowLevel LowLevel.NotEq
    [(len_var, intE zero_var zero_precision_var 0),
      (len_var, Expr.RunLowLevel LowLevel.ListLen
        [(list_var, Expr.Var Symbol.ARG_1)] len_var)] bool_var
  let (okTag, vs) := tagE "Ok"
    [Expr.RunLowLevel LowLevel.ListGetUnsafe
      [(list_var, Expr.Var Symbol.ARG_1),
        (len_var, intE zero_var zero_precision_var 0)] list_elem_var] vs
  let (emptyTag, vs) := tagE "ListWasEmpty" [] vs
  let (errTag, vs) := tagE "Err" [emptyTag] vs
  let body := Expr.If bool_var branch_var [(noRegion guard, noRegion okTag)]
    (noRegion errTag)
  defn symbol [(list_var, Symbol.ARG_1)] vs body ret_var

/-- `list_last` from the source: guard `List.len list != 0`, then `Ok` of
`ListGetUnsafe list (List.len list - 1)`, else `Err ListWasEmpty`. -/
@[simp] def list_last (symbol : Symbol) (vs : VarStore) : Def × VarStore :=
  let (arg_var, vs) := vs.fresh
  let (bool_var, vs) := vs.fresh
  let (list_var, vs) := vs.fresh
  let len_var := Variable.NAT
  let num_var := len_var
  let num_precision_var := Variable.NATURAL
  let (list_elem_var, vs) := vs.fresh
  let (ret_var, vs) := vs.fresh
  let (branch_var, vs) := vs.fresh
  let guard := Expr.RunLowLevel LowLevel.NotEq
    [(len_var, intE num_var num_precision_var 0),
      (len_var, Expr.RunLowLevel LowLevel.ListLen
        [(list_var, Expr.Var Symbol.ARG_1)] len_var)] bool_var
  let (okTag, vs) := tagE "Ok"
    [Expr.RunLowLevel LowLevel.ListGetUnsafe
      [(list_var, Expr.Var Symbol.ARG_1),
        (len_var, Expr.RunLowLevel LowLevel.NumSubWrap
          [(arg_var, Expr.RunLowLevel LowLevel.ListLen
              [(list_var, Expr.Var Symbol.ARG_1)] len_var),
            (arg_var, intE num_var num_precision_var 1)] len_var)]
      list_elem_var] vs
  let (emptyTag, vs) := tagE "ListWasEmpty" [] vs
  let (errTag, vs) := tagE "Err" [emptyTag] vs
  let body := Expr.If bool_var branch_var [(noRegion guard, noRegion okTag)]
    (noRegion errTag)
  defn symbol [(list_var, Symbol.ARG_1)] vs body ret_var

/-- `result_map` from the source: `when r is Ok x -> Ok (f x);
Err e -> Err e`. -/
@[simp] def result_map (symbol : Symbol) (vs : VarStore) : Def × VarStore :=
  let (ret_var, vs) := vs.fresh
  let (func_var, vs) := vs.fresh
  let (result_var, vs) := vs.fresh
  let (fn_closure_var, vs) := vs.fresh
  let (fn_expr_var, vs) := vs.fresh
  let (call_arg_var, vs) := vs.fresh
  let call_func := Expr.Call func_var (noRegion (Expr.Var Symbol.ARG_2))
    fn_closure_var fn_expr_var
    [(call_arg_var, noRegion (Expr.Var Symbol.ARG_5))] CalledVia.Space
  let (ok_variant_var, vs) := vs.fresh
  let (ok_ext_var, vs) := vs.fresh
  let (ok_arg_var, vs) := vs.fresh
  let okValue := Expr.Tag ok_variant_var ok_ext_var (TagName.global "Ok")
    [(ok_arg_var, noRegion call_func)]
  let (ok_pat_ext_var, vs) := vs.fresh
  let (ok_pat_arg_var, vs) := vs.fresh
  let okPattern := Pattern.AppliedTag result_var ok_pat_ext_var
    (TagName.global "Ok")
    [(ok_pat_arg_var, noRegion (Pattern.Identifier Symbol.ARG_5))]
  let (err_variant_var, vs) := vs.fresh
  let (err_ext_var, vs) := vs.fresh
  let (err_arg_var, vs) := vs.fresh
  let errValue := Expr.Tag err_variant_var err_ext_var (TagName.global "Err")
    [(err_arg_var, noRegion (Expr.Var Symbol.ARG_4))]
  let (err_pat_ext_var, vs) := vs.fresh
  let (err_pat_arg_var, vs) := vs.fresh
  let errPattern := Pattern.AppliedTag result_var err_pat_ext_var
    (TagName.global "Err")
    [(err_pat_arg_var, noRegion (Pattern.Identifier Symbol.ARG_4))]
  let body := Expr.When result_var ret_var Region.zero
    (noRegion (Expr.Var Symbol.ARG_1))
    [([noRegion okPattern], noRegion okValue, none),
      ([noRegion errPattern], noRegion errValue, none)]
  defn symbol [(result_var, Symbol.ARG_1), (func_var, Symbol.ARG_2)] vs body
    ret_var

/-- `result_map_err` from the source: `when r is Err x -> Err (f x);
Ok x -> Ok x` (the `Err` arm is listed first). -/
@[simp] def result_map_err (symbol : Symbol) (vs : VarStore) :
    Def × VarStore :=
  let (ret_var, vs) := vs.fresh
  let (func_var, vs) := vs.fresh
  let (result_var, vs) := vs.fresh
  let (fn_closure_var, vs) := vs.fresh
  let (fn_expr_var, vs) := vs.fresh
  let (call_arg_var, vs) := vs.fresh
  let call_func := Expr.Call func_var (noRegion (Expr.Var Symbol.ARG_2))
    fn_closure_var fn_expr_var
    [(call_arg_var, noRegion (Expr.Var Symbol.ARG_5))] CalledVia.Space
  let (err_variant_var, vs) := vs.fresh
  let (err_ext_var, vs) := vs.fresh
  let (err_arg_var, vs) := vs.fresh
  let errValue := Expr.Tag err_variant_var err_ext_var (TagName.global "Err")
    [(err_arg_var, noRegion call_func)]
  let (err_pat_ext_var, vs) := vs.fresh
  let (err_pat_arg_var, vs) := vs.fresh
  let errPattern := Pattern.AppliedTag result_var err_pat_ext_var
    (TagName.global "Err")
    [(err_pat_arg_var, noRegion (Pattern.Identifier Symbol.ARG_5))]
  let (ok_variant_var, vs) := vs.fresh
  let (ok_ext_var, vs) := vs.fresh
  let (ok_arg_var, vs) := vs.fresh
  let okValue := Expr.Tag ok_variant_var ok_ext_var (TagName.global "Ok")
    [(ok_arg_var, noRegion (Expr.Var Symbol.ARG_4))]
  let (ok_pat_ext_var, vs) := vs.fresh
  let (ok_pat_arg_var, vs) := vs.fresh
  let okPattern := Pattern.AppliedTag result_var ok_pat_ext_var
    (TagName.global "Ok")
    [(ok_pat_arg_var, noRegion (Pattern.Identifier Symbol.ARG_4))]
  let body := Expr.When result_var ret_var Region.zero
    (noRegion (Expr.Var Symbol.ARG_1))
    [([noRegion errPattern], noRegion errValue, none),
      ([noRegion okPattern], noRegion okValue, none)]
  defn symbol [(result_var, Symbol.ARG_1), (func_var, Symbol.ARG_2)] vs body
    ret_var

/-- `result_with_default` from the source: `when r is Ok x -> x;
Err _ -> default`. -/
@[simp] def result_with_default (symbol : Symbol) (vs : VarStore) :
    Def × VarStore :=
  let (ret_var, vs) := vs.fresh
  let (result_var, vs) := vs.fresh
  let (ok_pat_ext_var, vs) := vs.fresh
  let okPattern := Pattern.AppliedTag result_var ok_pat_ext_var
    (TagName.global "Ok")
    [(ret_var, noRegion (Pattern.Identifier Symbol.ARG_3))]
  let (err_pat_ext_var, vs) := vs.fresh
  let (err_pat_arg_var, vs) := vs.fresh
  let errPattern := Pattern.AppliedTag result_var err_pat_ext_var
    (TagName.global "Err") [(err_pat_arg_var, noRegion Pattern.Underscore)]
  let body := Expr.When result_var ret_var Region.zero
    (noRegion (Expr.Var Symbol.ARG_1))
    [([noRegion okPattern], noRegion (Expr.Var Symbol.ARG_3), none),
      ([noRegion errPattern], noRegion (Expr.Var Symbol.ARG_2), none)]
  defn symbol [(result_var, Symbol.ARG_1), (ret_var, Symbol.ARG_2)] vs body
    ret_var

/-- `result_after` from the source: `when r is Ok x -> f x; Err e -> Err e`
(the callback's result is not re-wrapped). -/
@[simp] def result_after (symbol : Symbol) (vs : VarStore) : Def × VarStore :=
  let (ret_var, vs) := vs.fresh
  let (func_var, vs) := vs.fresh
  let (result_var, vs) := vs.fresh
  let (fn_closure_var, vs) := vs.fresh
  let (fn_expr_var, vs) := vs.fresh
  let (call_arg_var, vs) := vs.fresh
  let call_func := Expr.Call func_var (noRegion (Expr.Var Symbol.ARG_2))
    fn_closure_var fn_expr_var
    [(call_arg_var, noRegion (Expr.Var Symbol.ARG_5))] CalledVia.Space
  let (ok_pat_ext_var, vs) := vs.fresh
  let (ok_pat_arg_var, vs) := vs.fresh
  let okPattern := Pattern.AppliedTag result_var ok_pat_ext_var
    (TagName.global "Ok")
    [(ok_pat_arg_var, noRegion (Pattern.Identifier Symbol.ARG_5))]
  let (err_variant_var, vs) := vs.fresh
  let (err_ext_var, vs) := vs.fresh
  let (err_arg_var, vs) := vs.fresh
  let errValue := Expr.Tag err_variant_var err_ext_var (TagName.global "Err")
    [(err_arg_var, noRegion (Expr.Var Symbol.ARG_4))]
  let (err_pat_ext_var, vs) := vs.fresh
  let (err_pat_arg_var, vs) := vs.fresh
  let errPattern := Pattern.AppliedTag result_var err_pat_ext_var
    (TagName.global "Err")
    [(err_pat_arg_var, noRegion (Pattern.Identifier Symbol.ARG_4))]
  let body := Expr.When result_var ret_var Region.zero
    (noRegion (Expr.Var Symbol.ARG_1))
    [([noRegion okPattern], noRegion call_func, none),
      ([noRegion errPattern], noRegion errValue, none)]
  defn symbol [(result_var, Symbol.ARG_1), (func_var, Symbol.ARG_2)] vs body
    ret_var

/-- The `Some(func(Symbol::$key, var_store))` wrapping done by each arm of
the `macro_magic!` dispatch. -/
@[simp] def mapSome (p : Def × VarStore) : Option Def × VarStore :=
  (some p.1, p.2)

set_option maxHeartbeats 1000000 in
/-- `builtin_defs_map` from the source: the dispatcher.  Each arm of the
Rust `macro_magic!` match becomes one arm here, passing the matched key and
the allocator to the corresponding synthesizer and wrapping the result in
`Some`; every other symbol falls through to `None`. -/
def builtin_defs_map (symbol : Symbol) (vs : VarStore) :
    Option Def × VarStore :=
  match symbol with
  | Symbol.BOOL_EQ => mapSome (bool_eq Symbol.BOOL_EQ vs)
  | Symbol.BOOL_NEQ => mapSome (bool_neq Symbol.BOOL_NEQ vs)
  | Symbol.BOOL_AND => mapSome (bool_and Symbol.BOOL_AND vs)
  | Symbol.BOOL_OR => mapSome (bool_or Symbol.BOOL_OR vs)
  | Symbol.BOOL_NOT => mapSome (bool_not Symbol.BOOL_NOT vs)
  | Symbol.STR_CONCAT => mapSome (str_concat Symbol.STR_CONCAT vs)
  | Symbol.STR_JOIN_WITH => mapSome (str_join_with Symbol.STR_JOIN_WITH vs)
  | Symbol.STR_SPLIT => mapSome (str_split Symbol.STR_SPLIT vs)
  | Symbol.STR_IS_EMPTY => mapSome (str_is_empty Symbol.STR_IS_EMPTY vs)
  | Symbol.STR_STARTS_WITH =>
    mapSome (str_starts_with Symbol.STR_STARTS_WITH vs)
  | Symbol.STR_STARTS_WITH_CODE_PT =>
    mapSome (str_starts_with_code_point Symbol.STR_STARTS_WITH_CODE_PT vs)
  | Symbol.STR_ENDS_WITH => mapSome (str_ends_with Symbol.STR_ENDS_WITH vs)
  | Symbol.STR_COUNT_GRAPHEMES =>
    mapSome (str_count_graphemes Symbol.STR_COUNT_GRAPHEMES vs)
  | Symbol.STR_FROM_INT => mapSome (str_from_int Symbol.STR_FROM_INT vs)
  | Symbol.STR_FROM_UTF8 => mapSome (str_from_utf8 Symbol.STR_FROM_UTF8 vs)
  | Symbol.STR_FROM_UTF8_RANGE =>
    mapSome (str_from_utf8_range Symbol.STR_FROM_UTF8_RANGE vs)
  | Symbol.STR_TO_UTF8 => mapSome (str_to_utf8 Symbol.STR_TO_UTF8 vs)
  | Symbol.STR_FROM_FLOAT => mapSome (str_from_float Symbol.STR_FROM_FLOAT vs)
  | Symbol.STR_REPEAT => mapSome (str_repeat Symbol.STR_REPEAT vs)
  | Symbol.STR_TRIM => mapSome (str_trim Symbol.STR_TRIM vs)
  | Symbol.LIST_LEN => mapSome (list_len Symbol.LIST_LEN vs)
  | Symbol.LIST_GET => mapSome (list_get Symbol.LIST_GET vs)
  | Symbol.LIST_SET => mapSome (list_set Symbol.LIST_SET vs)
  | Symbol.LIST_APPEND => mapSome (list_append Symbol.LIST_APPEND vs)
  | Symbol.LIST_FIRST => mapSome (list_first Symbol.LIST_FIRST vs)
  | Symbol.LIST_LAST => mapSome (list_last Symbol.LIST_LAST vs)
  | Symbol.LIST_IS_EMPTY => mapSome (list_is_empty Symbol.LIST_IS_EMPTY vs)
  | Symbol.LIST_SINGLE => mapSome (list_single Symbol.LIST_SINGLE vs)
  | Symbol.LIST_REPEAT => mapSome (list_repeat Symbol.LIST_REPEAT vs)
  | Symbol.LIST_REVERSE => mapSome (list_reverse Symbol.LIST_REVERSE vs)
  | Symbol.LIST_CONCAT => mapSome (list_concat Symbol.LIST_CONCAT vs)
  | Symbol.LIST_CONTAINS => mapSome (list_contains Symbol.LIST_CONTAINS vs)
  | Symbol.LIST_MIN => mapSome (list_min Symbol.LIST_MIN vs)
  | Symbol.LIST_MAX => mapSome (list_max Symbol.LIST_MAX vs)
  | Symbol.LIST_SUM => mapSome (list_sum Symbol.LIST_SUM vs)
  | Symbol.LIST_PRODUCT => mapSome (list_product Symbol.LIST_PRODUCT vs)
  | Symbol.LIST_PREPEND => mapSome (list_prepend Symbol.LIST_PREPEND vs)
  | Symbol.LIST_JOIN => mapSome (list_join Symbol.LIST_JOIN vs)
  | Symbol.LIST_JOIN_MAP => mapSome (list_join_map Symbol.LIST_JOIN_MAP vs)
  | Symbol.LIST_MAP => mapSome (list_map Symbol.LIST_MAP vs)
  | Symbol.LIST_MAP2 => mapSome (list_map2 Symbol.LIST_MAP2 vs)
  | Symbol.LIST_MAP3 => mapSome (list_map3 Symbol.LIST_MAP3 vs)
  | Symbol.LIST_MAP4 => mapSome (list_map4 Symbol.LIST_MAP4 vs)
  | Symbol.LIST_TAKE_FIRST =>
    mapSome (list_take_first Symbol.LIST_TAKE_FIRST vs)
  | Symbol.LIST_TAKE_LAST => mapSome (list_take_last Symbol.LIST_TAKE_LAST vs)
  | Symbol.LIST_DROP => mapSome (list_drop Symbol.LIST_DROP vs)
  | Symbol.LIST_DROP_AT => mapSome (list_drop_at Symbol.LIST_DROP_AT vs)
  | Symbol.LIST_DROP_FIRST =>
    mapSome (list_drop_first Symbol.LIST_DROP_FIRST vs)
  | Symbol.LIST_DROP_LAST => mapSome (list_drop_last Symbol.LIST_DROP_LAST vs)
  | Symbol.LIST_SWAP => mapSome (list_swap Symbol.LIST_SWAP vs)
  | Symbol.LIST_MAP_WITH_INDEX =>
    mapSome (list_map_with_index Symbol.LIST_MAP_WITH_INDEX vs)
  | Symbol.LIST_KEEP_IF => mapSome (list_keep_if Symbol.LIST_KEEP_IF vs)
  | Symbol.LIST_KEEP_OKS => mapSome (list_keep_oks Symbol.LIST_KEEP_OKS vs)
  | Symbol.LIST_KEEP_ERRS => mapSome (list_keep_errs Symbol.LIST_KEEP_ERRS vs)
  | Symbol.LIST_RANGE => mapSome (list_range Symbol.LIST_RANGE vs)
  | Symbol.LIST_WALK => mapSome (list_walk Symbol.LIST_WALK vs)
  | Symbol.LIST_WALK_BACKWARDS =>
    mapSome (list_walk_backwards Symbol.LIST_WALK_BACKWARDS vs)
  | Symbol.LIST_WALK_UNTIL =>
    mapSome (list_walk_until Symbol.LIST_WALK_UNTIL vs)
  | Symbol.LIST_SORT_WITH => mapSome (list_sort_with Symbol.LIST_SORT_WITH vs)
  | Symbol.LIST_ANY => mapSome (list_any Symbol.LIST_ANY vs)
  | Symbol.LIST_FIND => mapSome (list_find Symbol.LIST_FIND vs)
  | Symbol.DICT_LEN => mapSome (dict_len Symbol.DICT_LEN vs)
  | Symbol.DICT_EMPTY => mapSome (dict_empty Symbol.DICT_EMPTY vs)
  | Symbol.DICT_SINGLE => mapSome (dict_single Symbol.DICT_SINGLE vs)
  | Symbol.DICT_INSERT => mapSome (dict_insert Symbol.DICT_INSERT vs)
  | Symbol.DICT_REMOVE => mapSome (dict_remove Symbol.DICT_REMOVE vs)
  | Symbol.DICT_GET => mapSome (dict_get Symbol.DICT_GET vs)
  | Symbol.DICT_CONTAINS => mapSome (dict_contains Symbol.DICT_CONTAINS vs)
  | Symbol.DICT_KEYS => mapSome (dict_keys Symbol.DICT_KEYS vs)
  | Symbol.DICT_VALUES => mapSome (dict_values Symbol.DICT_VALUES vs)
  | Symbol.DICT_UNION => mapSome (dict_union Symbol.DICT_UNION vs)
  | Symbol.DICT_INTERSECTION =>
    mapSome (dict_intersection Symbol.DICT_INTERSECTION vs)
  | Symbol.DICT_DIFFERENCE =>
    mapSome (dict_difference Symbol.DICT_DIFFERENCE vs)
  | Symbol.DICT_WALK => mapSome (dict_walk Symbol.DICT_WALK vs)
  | Symbol.SET_EMPTY => mapSome (set_empty Symbol.SET_EMPTY vs)
  | Symbol.SET_LEN => mapSome (set_len Symbol.SET_LEN vs)
  | Symbol.SET_SINGLE => mapSome (set_single Symbol.SET_SINGLE vs)
  | Symbol.SET_UNION => mapSome (set_union Symbol.SET_UNION vs)
  | Symbol.SET_INTERSECTION =>
    mapSome (set_intersection Symbol.SET_INTERSECTION vs)
  | Symbol.SET_DIFFERENCE =>
    mapSome (set_difference Symbol.SET_DIFFERENCE vs)
  | Symbol.SET_TO_LIST => mapSome (set_to_list Symbol.SET_TO_LIST vs)
  | Symbol.SET_FROM_LIST => mapSome (set_from_list Symbol.SET_FROM_LIST vs)
  | Symbol.SET_INSERT => mapSome (set_insert Symbol.SET_INSERT vs)
  | Symbol.SET_REMOVE => mapSome (set_remove Symbol.SET_REMOVE vs)
  | Symbol.SET_CONTAINS => mapSome (set_contains Symbol.SET_CONTAINS vs)
  | Symbol.SET_WALK => mapSome (set_walk Symbol.SET_WALK vs)
  | Symbol.NUM_ADD => mapSome (num_add Symbol.NUM_ADD vs)
  | Symbol.NUM_ADD_CHECKED =>
    mapSome (num_add_checked Symbol.NUM_ADD_CHECKED vs)
  | Symbol.NUM_ADD_WRAP => mapSome (num_add_wrap Symbol.NUM_ADD_WRAP vs)
  | Symbol.NUM_SUB => mapSome (num_sub Symbol.NUM_SUB vs)
  | Symbol.NUM_SUB_WRAP => mapSome (num_sub_wrap Symbol.NUM_SUB_WRAP vs)
  | Symbol.NUM_SUB_CHECKED =>
    mapSome (num_sub_checked Symbol.NUM_SUB_CHECKED vs)
  | Symbol.NUM_MUL => mapSome (num_mul Symbol.NUM_MUL vs)
  | Symbol.NUM_MUL_WRAP => mapSome (num_mul_wrap Symbol.NUM_MUL_WRAP vs)
  | Symbol.NUM_MUL_CHECKED =>
    mapSome (num_mul_checked Symbol.NUM_MUL_CHECKED vs)
  | Symbol.NUM_GT => mapSome (num_gt Symbol.NUM_GT vs)
  | Symbol.NUM_GTE => mapSome (num_gte Symbol.NUM_GTE vs)
  | Symbol.NUM_LT => mapSome (num_lt Symbol.NUM_LT vs)
  | Symbol.NUM_LTE => mapSome (num_lte Symbol.NUM_LTE vs)
  | Symbol.NUM_COMPARE => mapSome (num_compare Symbol.NUM_COMPARE vs)
  | Symbol.NUM_SIN => mapSome (num_sin Symbol.NUM_SIN vs)
  | Symbol.NUM_COS => mapSome (num_cos Symbol.NUM_COS vs)
  | Symbol.NUM_TAN => mapSome (num_tan Symbol.NUM_TAN vs)
  | Symbol.NUM_DIV_FLOAT => mapSome (num_div_float Symbol.NUM_DIV_FLOAT vs)
  | Symbol.NUM_DIV_INT => mapSome (num_div_int Symbol.NUM_DIV_INT vs)
  | Symbol.NUM_DIV_CEIL => mapSome (num_div_ceil Symbol.NUM_DIV_CEIL vs)
  | Symbol.NUM_ABS => mapSome (num_abs Symbol.NUM_ABS vs)
  | Symbol.NUM_NEG => mapSome (num_neg Symbol.NUM_NEG vs)
  | Symbol.NUM_REM => mapSome (num_rem Symbol.NUM_REM vs)
  | Symbol.NUM_IS_MULTIPLE_OF =>
    mapSome (num_is_multiple_of Symbol.NUM_IS_MULTIPLE_OF vs)
  | Symbol.NUM_SQRT => mapSome (num_sqrt Symbol.NUM_SQRT vs)
  | Symbol.NUM_LOG => mapSome (num_log Symbol.NUM_LOG vs)
  | Symbol.NUM_ROUND => mapSome (num_round Symbol.NUM_ROUND vs)
  | Symbol.NUM_IS_ODD => mapSome (num_is_odd Symbol.NUM_IS_ODD vs)
  | Symbol.NUM_IS_EVEN => mapSome (num_is_even Symbol.NUM_IS_EVEN vs)
  | Symbol.NUM_IS_ZERO => mapSome (num_is_zero Symbol.NUM_IS_ZERO vs)
  | Symbol.NUM_IS_POSITIVE =>
    mapSome (num_is_positive Symbol.NUM_IS_POSITIVE vs)
  | Symbol.NUM_IS_NEGATIVE =>
    mapSome (num_is_negative Symbol.NUM_IS_NEGATIVE vs)
  | Symbol.NUM_TO_FLOAT => mapSome (num_to_float Symbol.NUM_TO_FLOAT vs)
  | Symbol.NUM_POW => mapSome (num_pow Symbol.NUM_POW vs)
  | Symbol.NUM_CEILING => mapSome (num_ceiling Symbol.NUM_CEILING vs)
  | Symbol.NUM_POW_INT => mapSome (num_pow_int Symbol.NUM_POW_INT vs)
  | Symbol.NUM_FLOOR => mapSome (num_floor Symbol.NUM_FLOOR vs)
  | Symbol.NUM_ATAN => mapSome (num_atan Symbol.NUM_ATAN vs)
  | Symbol.NUM_ACOS => mapSome (num_acos Symbol.NUM_ACOS vs)
  | Symbol.NUM_ASIN => mapSome (num_asin Symbol.NUM_ASIN vs)
  | Symbol.NUM_BYTES_TO_U16 =>
    mapSome (num_bytes_to_u16 Symbol.NUM_BYTES_TO_U16 vs)
  | Symbol.NUM_BYTES_TO_U32 =>
    mapSome (num_bytes_to_u32 Symbol.NUM_BYTES_TO_U32 vs)
  | Symbol.NUM_MAX_INT => mapSome (num_max_int Symbol.NUM_MAX_INT vs)
  | Symbol.NUM_MIN_INT => mapSome (num_min_int Symbol.NUM_MIN_INT vs)
  | Symbol.NUM_BITWISE_AND =>
    mapSome (num_bitwise_and Symbol.NUM_BITWISE_AND vs)
  | Symbol.NUM_BITWISE_XOR =>
    mapSome (num_bitwise_xor Symbol.NUM_BITWISE_XOR vs)
  | Symbol.NUM_BITWISE_OR => mapSome (num_bitwise_or Symbol.NUM_BITWISE_OR vs)
  | Symbol.NUM_SHIFT_LEFT =>
    mapSome (num_shift_left_by Symbol.NUM_SHIFT_LEFT vs)
  | Symbol.NUM_SHIFT_RIGHT =>
    mapSome (num_shift_right_by Symbol.NUM_SHIFT_RIGHT vs)
  | Symbol.NUM_SHIFT_RIGHT_ZERO_FILL =>
    mapSome (num_shift_right_zf_by Symbol.NUM_SHIFT_RIGHT_ZERO_FILL vs)
  | Symbol.NUM_INT_CAST => mapSome (num_int_cast Symbol.NUM_INT_CAST vs)
  | Symbol.NUM_MAX_I128 => mapSome (num_max_i128 Symbol.NUM_MAX_I128 vs)
  | Symbol.RESULT_MAP => mapSome (result_map Symbol.RESULT_MAP vs)
  | Symbol.RESULT_MAP_ERR =>
    mapSome (result_map_err Symbol.RESULT_MAP_ERR vs)
  | Symbol.RESULT_AFTER => mapSome (result_after Symbol.RESULT_AFTER vs)
  | Symbol.RESULT_WITH_DEFAULT =>
    mapSome (result_with_default Symbol.RESULT_WITH_DEFAULT vs)
  | _ => (none, vs)

/-- Modelled from the spec: `Symbol::is_builtin` lives in
`roc_module::symbol`, which is not part of this repository snapshot.  The
spec characterizes the flag through its role — the identities the dispatcher
must cover ("must cover every flagged builtin identity") — so the flagged
set is modelled as exactly the dispatcher's key set, written out
independently of the dispatch itself. -/
def Symbol.is_builtin : Symbol → Bool
  | Symbol.BOOL_EQ | Symbol.BOOL_NEQ | Symbol.BOOL_AND | Symbol.BOOL_OR
  | Symbol.BOOL_NOT
  | Symbol.STR_CONCAT | Symbol.STR_JOIN_WITH | Symbol.STR_SPLIT
  | Symbol.STR_IS_EMPTY | Symbol.STR_STARTS_WITH
  | Symbol.STR_STARTS_WITH_CODE_PT | Symbol.STR_ENDS_WITH
  | Symbol.STR_COUNT_GRAPHEMES | Symbol.STR_FROM_INT | Symbol.STR_FROM_UTF8
  | Symbol.STR_FROM_UTF8_RANGE | Symbol.STR_TO_UTF8 | Symbol.STR_FROM_FLOAT
  | Symbol.STR_REPEAT | Symbol.STR_TRIM
  | Symbol.LIST_LEN | Symbol.LIST_GET | Symbol.LIST_SET | Symbol.LIST_APPEND
  | Symbol.LIST_FIRST | Symbol.LIST_LAST | Symbol.LIST_IS_EMPTY
  | Symbol.LIST_SINGLE | Symbol.LIST_REPEAT | Symbol.LIST_REVERSE
  | Symbol.LIST_CONCAT | Symbol.LIST_CONTAINS | Symbol.LIST_MIN
  | Symbol.LIST_MAX | Symbol.LIST_SUM | Symbol.LIST_PRODUCT
  | Symbol.LIST_PREPEND | Symbol.LIST_JOIN | Symbol.LIST_JOIN_MAP
  | Symbol.LIST_MAP | Symbol.LIST_MAP2 | Symbol.LIST_MAP3 | Symbol.LIST_MAP4
  | Symbol.LIST_TAKE_FIRST | Symbol.LIST_TAKE_LAST | Symbol.LIST_DROP
  | Symbol.LIST_DROP_AT | Symbol.LIST_DROP_FIRST | Symbol.LIST_DROP_LAST
  | Symbol.LIST_SWAP | Symbol.LIST_MAP_WITH_INDEX | Symbol.LIST_KEEP_IF
  | Symbol.LIST_KEEP_OKS | Symbol.LIST_KEEP_ERRS | Symbol.LIST_RANGE
  | Symbol.LIST_WALK | Symbol.LIST_WALK_BACKWARDS | Symbol.LIST_WALK_UNTIL
  | Symbol.LIST_SORT_WITH | Symbol.LIST_ANY | Symbol.LIST_FIND
  | Symbol.DICT_LEN | Symbol.DICT_EMPTY | Symbol.DICT_SINGLE
  | Symbol.DICT_INSERT | Symbol.DICT_REMOVE | Symbol.DICT_GET
  | Symbol.DICT_CONTAINS | Symbol.DICT_KEYS | Symbol.DICT_VALUES
  | Symbol.DICT_UNION | Symbol.DICT_INTERSECTION | Symbol.DICT_DIFFERENCE
  | Symbol.DICT_WALK
  | Symbol.SET_EMPTY | Symbol.SET_LEN | Symbol.SET_SINGLE | Symbol.SET_UNION
  | Symbol.SET_INTERSECTION | Symbol.SET_DIFFERENCE | Symbol.SET_TO_LIST
  | Symbol.SET_FROM_LIST | Symbol.SET_INSERT | Symbol.SET_REMOVE
  | Symbol.SET_CONTAINS | Symbol.SET_WALK
  | Symbol.NUM_ADD | Symbol.NUM_ADD_CHECKED | Symbol.NUM_ADD_WRAP
  | Symbol.NUM_SUB | Symbol.NUM_SUB_WRAP | Symbol.NUM_SUB_CHECKED
  | Symbol.NUM_MUL | Symbol.NUM_MUL_WRAP | Symbol.NUM_MUL_CHECKED
  | Symbol.NUM_GT | Symbol.NUM_GTE | Symbol.NUM_LT | Symbol.NUM_LTE
  | Symbol.NUM_COMPARE | Symbol.NUM_SIN | Symbol.NUM_COS | Symbol.NUM_TAN
  | Symbol.NUM_DIV_FLOAT | Symbol.NUM_DIV_INT | Symbol.NUM_DIV_CEIL
  | Symbol.NUM_ABS | Symbol.NUM_NEG | Symbol.NUM_REM
  | Symbol.NUM_IS_MULTIPLE_OF | Symbol.NUM_SQRT | Symbol.NUM_LOG
  | Symbol.NUM_ROUND | Symbol.NUM_IS_ODD | Symbol.NUM_IS_EVEN
  | Symbol.NUM_IS_ZERO | Symbol.NUM_IS_POSITIVE | Symbol.NUM_IS_NEGATIVE
  | Symbol.NUM_TO_FLOAT | Symbol.NUM_POW | Symbol.NUM_CEILING
  | Symbol.NUM_POW_INT | Symbol.NUM_FLOOR | Symbol.NUM_ATAN | Symbol.NUM_ACOS
  | Symbol.NUM_ASIN | Symbol.NUM_BYTES_TO_U16 | Symbol.NUM_BYTES_TO_U32
  | Symbol.NUM_MAX_INT | Symbol.NUM_MIN_INT | Symbol.NUM_BITWISE_AND
  | Symbol.NUM_BITWISE_XOR | Symbol.NUM_BITWISE_OR | Symbol.NUM_SHIFT_LEFT
  | Symbol.NUM_SHIFT_RIGHT | Symbol.NUM_SHIFT_RIGHT_ZERO_FILL
  | Symbol.NUM_INT_CAST | Symbol.NUM_MAX_I128
  | Symbol.RESULT_MAP | Symbol.RESULT_MAP_ERR | Symbol.RESULT_AFTER
  | Symbol.RESULT_WITH_DEFAULT => true
  | _ => false

/-- Modelled from the spec: the `debug_assert!(symbol.is_builtin())` at the
top of `builtin_defs_map`.  A debug build first checks the precondition and
aborts (outer `none`) when it fails; otherwise it behaves as the release
dispatcher. -/
def builtin_defs_map_debug (symbol : Symbol) (vs : VarStore) :
    Option (Option Def × VarStore) :=
  if Symbol.is_builtin symbol then some (builtin_defs_map symbol vs)
  else none

mutual

/-- Apply a variable renaming to every variable slot of a pattern. -/
@[simp] def mapPattern (rho : Variable → Variable) : Pattern → Pattern
  | Pattern.Identifier s => Pattern.Identifier s
  | Pattern.Underscore => Pattern.Underscore
  | Pattern.AppliedTag w e t args =>
    Pattern.AppliedTag (rho w) (rho e) t (mapPatternArgs rho args)

/-- Auxiliary map over applied-tag sub-pattern lists. -/
@[simp] def mapPatternArgs (rho : Variable → Variable) :
    List (Variable × Located Pattern) → List (Variable × Located Pattern)
  | [] => []
  | (v, lp) :: rest =>
    (rho v, ⟨lp.region, mapPattern rho lp.value⟩) :: mapPatternArgs rho rest

end

mutual

/-- Apply a variable renaming to every variable slot of an expression. -/
@[simp] def mapExpr (rho : Variable → Variable) : Expr → Expr
  | Expr.Var s => Expr.Var s
  | Expr.Num v str i => Expr.Num (rho v) str i
  | Expr.Int v p str i => Expr.Int (rho v) (rho p) str i
  | Expr.Float v p str f => Expr.Float (rho v) (rho p) str f
  | Expr.EmptyRecord => Expr.EmptyRecord
  | Expr.List ev elems => Expr.List (rho ev) (mapLocExprs rho elems)
  | Expr.RunLowLevel op args ret =>
    Expr.RunLowLevel op (mapArgExprs rho args) (rho ret)
  | Expr.If cv bv branches fe =>
    Expr.If (rho cv) (rho bv) (mapIfBranches rho branches)
      ⟨fe.region, mapExpr rho fe.value⟩
  | Expr.When cv ev r cond branches =>
    Expr.When (rho cv) (rho ev) r ⟨cond.region, mapExpr rho cond.value⟩
      (mapWhenBranches rho branches)
  | Expr.LetNonRec dp de dv pvs ann cont ret =>
    Expr.LetNonRec ⟨dp.region, mapPattern rho dp.value⟩
      ⟨de.region, mapExpr rho de.value⟩ (rho dv)
      (pvs.map (fun p => (p.1, rho p.2))) ann
      ⟨cont.region, mapExpr rho cont.value⟩ (rho ret)
  | Expr.Access rv ev f fv le =>
    Expr.Access (rho rv) (rho ev) f (rho fv) ⟨le.region, mapExpr rho le.value⟩
  | Expr.Tag vv ev n args =>
    Expr.Tag (rho vv) (rho ev) n (mapLocArgExprs rho args)
  | Expr.Closure ft ct cev rt n rec caps args body =>
    Expr.Closure (rho ft) (rho ct) (rho cev) (rho rt) n rec
      (caps.map (fun p => (p.1, rho p.2)))
      (mapPatternArgs rho args)
      ⟨body.region, mapExpr rho body.value⟩
  | Expr.Call fv fe cv ev args via =>
    Expr.Call (rho fv) ⟨fe.region, mapExpr rho fe.value⟩ (rho cv) (rho ev)
      (mapLocArgExprs rho args) via

/-- Auxiliary map over located expression lists. -/
@[simp] def mapLocExprs (rho : Variable → Variable) :
    List (Located Expr) → List (Located Expr)
  | [] => []
  | le :: rest => ⟨le.region, mapExpr rho le.value⟩ :: mapLocExprs rho rest

/-- Auxiliary map over low-level argument lists. -/
@[simp] def mapArgExprs (rho : Variable → Variable) :
    List (Variable × Expr) → List (Variable × Expr)
  | [] => []
  | (v, e) :: rest => (rho v, mapExpr rho e) :: mapArgExprs rho rest

/-- Auxiliary map over tag/call argument lists. -/
@[simp] def mapLocArgExprs (rho : Variable → Variable) :
    List (Variable × Located Expr) → List (Variable × Located Expr)
  | [] => []
  | (v, le) :: rest =>
    (rho v, ⟨le.region, mapExpr rho le.value⟩) :: mapLocArgExprs rho rest

/-- Auxiliary map over conditional branch lists. -/
@[simp] def mapIfBranches (rho : Variable → Variable) :
    List (Located Expr × Located Expr) → List (Located Expr × Located Expr)
  | [] => []
  | (c, b) :: rest =>
    (⟨c.region, mapExpr rho c.value⟩, ⟨b.region, mapExpr rho b.value⟩) ::
      mapIfBranches rho rest

/-- Auxiliary map over when-branch lists. -/
@[simp] def mapWhenBranches (rho : Variable → Variable) :
    List (List (Located Pattern) × Located Expr × Option (Located Expr)) →
    List (List (Located Pattern) × Located Expr × Option (Located Expr))
  | [] => []
  | (pats, val, guard) :: rest =>
    (pats.map (fun lp => ⟨lp.region, mapPattern rho lp.value⟩),
      ⟨val.region, mapExpr rho val.value⟩, mapOptGuard rho guard) ::
      mapWhenBranches rho rest

/-- Auxiliary map over an optional branch guard. -/
@[simp] def mapOptGuard (rho : Variable → Variable) :
    Option (Located Expr) → Option (Located Expr)
  | none => none
  | some g => some ⟨g.region, mapExpr rho g.value⟩

end

/-- Apply a variable renaming to every variable slot of a definition. -/
@[simp] def mapDef (rho : Variable → Variable) (d : Def) : Def :=
  { locPattern := ⟨d.locPattern.region, mapPattern rho d.locPattern.value⟩,
    locExpr := ⟨d.locExpr.region, mapExpr rho d.locExpr.value⟩,
    exprVar := rho d.exprVar,
    patternVars := d.patternVars.map (fun p => (p.1, rho p.2)),
    anno := d.anno }

/-- Renaming of variable handles that sends the handle minted as the `k`-th
fresh variable after seed `s1` to the handle minted as the `k`-th fresh
variable after seed `s2`, and fixes the process-reserved variables. -/
@[simp] def relocate (s1 s2 : Nat) : Variable → Variable
  | Variable.mk n => Variable.mk (n - s1 + s2)
  | v => v

/-- A renaming fixes the process-reserved variables. -/
def FixesReserved (rho : Variable → Variable) : Prop :=
  rho Variable.NAT = Variable.NAT ∧
  rho Variable.NATURAL = Variable.NATURAL ∧
  rho Variable.EMPTY_RECORD = Variable.EMPTY_RECORD

/-- Alpha-equivalence of definitions: two trees are equal after a consistent
renaming of variable handles.  The renaming is witnessed in both directions
(so it cannot conflate variables occurring in either tree), and both
renamings fix the process-reserved variables. -/
def AlphaEquivDef (d1 d2 : Def) : Prop :=
  ∃ rho sigma : Variable → Variable,
    FixesReserved rho ∧ FixesReserved sigma ∧
    mapDef rho d1 = d2 ∧ mapDef sigma d2 = d1

/-- Alpha-equivalence on the dispatcher's optional results: two misses are
equivalent, two hits must be alpha-equivalent definitions. -/
def AlphaEquivOpt : Option Def → Option Def → Prop
  | none, none => True
  | some d1, some d2 => AlphaEquivDef d1 d2
  | _, _ => False

/-- Body of a synthesized definition: the expression inside the wrapping
closure that `defn` produces (or the expression itself for the few direct
definitions such as `Dict.empty` and the numeric constants). -/
@[simp] def defBody (d : Def) : Expr :=
  match d.locExpr.value with
  | Expr.Closure _ _ _ _ _ _ _ _ body => body.value
  | e => e

/-- Body of the definition the dispatcher synthesizes for a symbol (an
`EmptyRecord` placeholder for unrecognized symbols, which no shape predicate
accepts). -/
@[simp] def bodyOfB (sym : Symbol) (vs : VarStore) : Expr :=
  match (builtin_defs_map sym vs).1 with
  | some d => defBody d
  | none => Expr.EmptyRecord

/-- Shape of an overflow-checked arithmetic builtin: a non-recursive binding
of the checked primitive's anonymous-record result (applied to `ARG_1` then
`ARG_2`), followed by `If(record.b, Err Overflow, Ok record.a)`. -/
def checkedShape (e : Expr) (ll : LowLevel) : Prop :=
  ∃ v1 v2 recordVar boolVar retVar extB fvB
    e1 e2 e3 e4 e5 o1 o2 o3 extA valueFv : Variable,
    e = Expr.LetNonRec (noRegion (Pattern.Identifier Symbol.ARG_3))
      (noRegion (Expr.RunLowLevel ll
        [(v1, Expr.Var Symbol.ARG_1), (v2, Expr.Var Symbol.ARG_2)] recordVar))
      recordVar [] none
      (noRegion (Expr.If boolVar retVar
        [(noRegion (Expr.Access recordVar extB "b" fvB
            (noRegion (Expr.Var Symbol.ARG_3))),
          noRegion (Expr.Tag e1 e2 (TagName.global "Err")
            [(e3, noRegion
                (Expr.Tag e4 e5 (TagName.global "Overflow") []))]))]
        (noRegion (Expr.Tag o1 o2 (TagName.global "Ok")
          [(o3, noRegion (Expr.Access recordVar extA "a" valueFv
              (noRegion (Expr.Var Symbol.ARG_3))))]))))
      retVar

/-- Shape of a synthesized division builtin:
`If(NotEq(arg2, zero-literal), Ok(NumDivUnchecked(arg1, arg2)),
Err DivByZero)`, with a float or integer zero literal. -/
def divShape (e : Expr) (isFloat : Bool) : Prop :=
  ∃ numVar boolVar retVar zv zp o1 o2 o3 e1 e2 e3 e4 e5 : Variable,
    e = Expr.If boolVar retVar
      [(noRegion (Expr.RunLowLevel LowLevel.NotEq
          [(numVar, Expr.Var Symbol.ARG_2),
            (numVar, if isFloat then floatE zv zp 0 else intE zv zp 0)]
          boolVar),
        noRegion (Expr.Tag o1 o2 (TagName.global "Ok")
          [(o3, noRegion (Expr.RunLowLevel LowLevel.NumDivUnchecked
              [(numVar, Expr.Var Symbol.ARG_1),
                (numVar, Expr.Var Symbol.ARG_2)] numVar))]))]
      (noRegion (Expr.Tag e1 e2 (TagName.global "Err")
        [(e3, noRegion (Expr.Tag e4 e5 (TagName.global "DivByZero") []))]))

/-- Shape of `List.min` / `List.max`: the whole fold is wrapped in the
safe-wrapper idiom guarded on `ListLen list != 0` (zero literal first,
carried by the reserved `NAT`/`NATURAL` variables), the fold is seeded with
`ListGetUnsafe list 0` in the success branch, the step closure compares
`ARG_4` to `ARG_3` with the given opcode, and the failure branch is
`Err ListWasEmpty`. -/
def minMaxShape (e : Expr) (cmpOp : LowLevel) (closName : Symbol) : Prop :=
  ∃ boolVar branchVar listVar elemVar argVar closureVar ft ct cev cbool
    o1 o2 o3 x1 x2 x3 x4 x5 : Variable,
    e = Expr.If boolVar branchVar
      [(noRegion (Expr.RunLowLevel LowLevel.NotEq
          [(Variable.NAT, intE Variable.NAT Variable.NATURAL 0),
            (Variable.NAT, Expr.RunLowLevel LowLevel.ListLen
              [(listVar, Expr.Var Symbol.ARG_1)] Variable.NAT)] boolVar),
        noRegion (Expr.Tag o1 o2 (TagName.global "Ok")
          [(o3, noRegion (Expr.RunLowLevel LowLevel.ListWalk
              [(listVar, Expr.Var Symbol.ARG_1),
                (elemVar, Expr.RunLowLevel LowLevel.ListGetUnsafe
                  [(listVar, Expr.Var Symbol.ARG_1),
                    (argVar, intE Variable.NAT Variable.NATURAL 0)] elemVar),
                (closureVar, Expr.Closure ft ct cev elemVar closName
                  Recursive.NotRecursive []
                  [(elemVar, noRegion (Pattern.Identifier Symbol.ARG_3)),
                    (elemVar, noRegion (Pattern.Identifier Symbol.ARG_4))]
                  (noRegion (Expr.If cbool elemVar
                    [(noRegion (Expr.RunLowLevel cmpOp
                        [(elemVar, Expr.Var Symbol.ARG_4),
                          (elemVar, Expr.Var Symbol.ARG_3)] cbool),
                      noRegion (Expr.Var Symbol.ARG_4))]
                    (noRegion (Expr.Var Symbol.ARG_3)))))] elemVar))]))]
      (noRegion (Expr.Tag x1 x2 (TagName.global "Err")
        [(x3, noRegion
            (Expr.Tag x4 x5 (TagName.global "ListWasEmpty") []))]))

/-- Name of the tag inside the `Err` wrapper of an `If` expression's else
branch, when the else branch has that shape. -/
@[simp] def elseErrPayloadTag : Expr → Option String
  | Expr.If _ _ _ finalElse =>
    match finalElse.value with
    | Expr.Tag _ _ (TagName.global "Err") [(_, le)] =>
      match le.value with
      | Expr.Tag _ _ (TagName.global n) _ => some n
      | _ => none
    | _ => none
  | _ => none

/-- Strict relational or equality comparison opcodes — the guard class
claim C6 asserts. -/
@[simp] def isStrictCompOp : LowLevel → Bool
  | LowLevel.NumLt | LowLevel.NumGt | LowLevel.NotEq | LowLevel.Eq => true
  | _ => false

/-- Relational (strict or non-strict) or equality comparison opcodes. -/
@[simp] def isCompOp : LowLevel → Bool
  | LowLevel.NumLt | LowLevel.NumGt | LowLevel.NumLte | LowLevel.NumGte
  | LowLevel.NotEq | LowLevel.Eq => true
  | _ => false

/-- A no-argument named tag wrapped in `Err`. -/
@[simp] def isErrNoArgTag : Expr → Bool
  | Expr.Tag _ _ (TagName.global "Err") [(_, le)] =>
    (match le.value with
      | Expr.Tag _ _ (TagName.global _) [] => true
      | _ => false)
  | _ => false

/-- The tree shape claim C6 asserts for every safe-wrapper builtin: exactly
`If(guard, success, failure)` with the guard a strict relational or equality
comparison and the failure branch (the else) a no-argument tag in `Err`. -/
@[simp] def claimC6Shape : Expr → Bool
  | Expr.If _ _ [(guard, _)] finalElse =>
    (match guard.value with
      | Expr.RunLowLevel op _ _ => isStrictCompOp op
      | _ => false) && isErrNoArgTag finalElse.value
  | _ => false

/-- Amended safe-wrapper shape for the comparison-guarded family: `If` with
a single comparison guard (strict or non-strict) and a no-argument `Err` tag
in the else branch. -/
@[simp] def wrapperIfShape : Expr → Bool
  | Expr.If _ _ [(guard, _)] finalElse =>
    (match guard.value with
      | Expr.RunLowLevel op _ _ => isCompOp op
      | _ => false) && isErrNoArgTag finalElse.value
  | _ => false

/-- Amended safe-wrapper shape for the checked-arithmetic family: a
non-recursive binding of a primitive call, continued by an `If` whose guard
is a record-field access and whose TRUE branch is the no-argument `Err`
failure. -/
@[simp] def checkedWrapperIf : Expr → Bool
  | Expr.LetNonRec _ de _ _ _ cont _ =>
    (match de.value with
      | Expr.RunLowLevel _ _ _ => true
      | _ => false) &&
    (match cont.value with
      | Expr.If _ _ [(guard, thenB)] _ =>
        (match guard.value with
          | Expr.Access _ _ _ _ _ => true
          | _ => false) && isErrNoArgTag thenB.value
      | _ => false)
  | _ => false

/-- Amended safe-wrapper shape for the validated-decoding family: a
non-recursive binding of a primitive call, continued by an `If` whose guard
is a record-field access, whose TRUE branch is `Ok`, and whose else branch
is `Err (BadUtf8 …)` — a tag WITH arguments. -/
@[simp] def utf8WrapperIf : Expr → Bool
  | Expr.LetNonRec _ de _ _ _ cont _ =>
    (match de.value with
      | Expr.RunLowLevel _ _ _ => true
      | _ => false) &&
    (match cont.value with
      | Expr.If _ _ [(guard, thenB)] finalElse =>
        (match guard.value with
          | Expr.Access _ _ _ _ _ => true
          | _ => false) &&
        (match thenB.value with
          | Expr.Tag _ _ (TagName.global "Ok") [_] => true
          | _ => false) &&
        (match finalElse.value with
          | Expr.Tag _ _ (TagName.global "Err") [(_, le)] =>
            (match le.value with
              | Expr.Tag _ _ (TagName.global "BadUtf8") (_ :: _) => true
              | _ => false)
          | _ => false)
      | _ => false)
  | _ => false

/-- Invariants of a dispatched definition, claim C10's subject: empty
pattern variables, a top-level pattern that is exactly the builtin's own
identifier, and an annotation that is absent for every builtin except
`Num.maxI128`, which carries the std-table annotation. -/
def C10prop (o : Option Def) (sym : Symbol) : Prop :=
  match o with
  | some d =>
    d.patternVars = [] ∧ d.locPattern.value = Pattern.Identifier sym ∧
    (sym = Symbol.NUM_MAX_I128 → d.anno = some Anno.fromStdTable) ∧
    (sym ≠ Symbol.NUM_MAX_I128 → d.anno = none)
  | none => True

/-- A synthesizer whose seed-`s` output is the seed-relocation of its
seed-`t` output, for any two seeds, always produces alpha-equivalent
definitions from independently-seeded allocators. -/
theorem alpha_of_shift {g : VarStore → Def × VarStore}
    (h : ∀ t1 t2 : Nat, mapDef (relocate t1 t2) (g t1).1 = (g t2).1)
    (s1 s2 : Nat) : AlphaEquivDef (g s1).1 (g s2).1 :=
  ⟨relocate s1 s2, relocate s2 s1, ⟨rfl, rfl, rfl⟩, ⟨rfl, rfl, rfl⟩,
    h s1 s2, h s2 s1⟩

/-! Seed-relocation lemmas: for every synthesizer, the output from seed
`s1` maps under `relocate s1 s2` to the output from seed `s2`.  These feed
the alpha-determinism theorem. -/

theorem lowlevel_1_shift (sy : Symbol) (op : LowLevel) (s1 s2 : Nat) :
    mapDef (relocate s1 s2) (lowlevel_1 sy op s1).1 = (lowlevel_1 sy op s2).1 := by
  simp only [lowlevel_1, defn, defn_help, VarStore.fresh, noRegion, mapDef,
    mapExpr, mapPattern, mapPatternArgs, mapArgExprs, mapLocArgExprs,
    mapLocExprs, mapIfBranches, mapWhenBranches, mapOptGuard, relocate, tagE,
    tagArgsE, intE, numE, floatE, Expr.letNonRecD, List.map,
    Def.mk.injEq, Located.mk.injEq, Prod.mk.injEq, List.cons.injEq,
    Variable.mk.injEq, Expr.Var.injEq, Expr.Num.injEq, Expr.Int.injEq,
    Expr.Float.injEq, Expr.List.injEq, Expr.RunLowLevel.injEq, Expr.If.injEq,
    Expr.When.injEq, Expr.LetNonRec.injEq, Expr.Access.injEq, Expr.Tag.injEq,
    Expr.Closure.injEq, Expr.Call.injEq, Pattern.Identifier.injEq,
    Pattern.AppliedTag.injEq, TagName.global.injEq, Option.some.injEq,
    and_true, true_and, and_self, eq_self_iff_true]
  try omega


theorem lowlevel_2_shift (sy : Symbol) (op : LowLevel) (s1 s2 : Nat) :
    mapDef (relocate s1 s2) (lowlevel_2 sy op s1).1 = (lowlevel_2 sy op s2).1 := by
  simp only [lowlevel_2, defn, defn_help, VarStore.fresh, noRegion, mapDef,
    mapExpr, mapPattern, mapPatternArgs, mapArgExprs, mapLocArgExprs,
    mapLocExprs, mapIfBranches, mapWhenBranches, mapOptGuard, relocate, tagE,
    tagArgsE, intE, numE, floatE, Expr.letNonRecD, List.map,
    Def.mk.injEq, Located.mk.injEq, Prod.mk.injEq, List.cons.injEq,
    Variable.mk.injEq, Expr.Var.injEq, Expr.Num.injEq, Expr.Int.injEq,
    Expr.Float.injEq, Expr.List.injEq, Expr.RunLowLevel.injEq, Expr.If.injEq,
    Expr.When.injEq, Expr.LetNonRec.injEq, Expr.Access.injEq, Expr.Tag.injEq,
    Expr.Closure.injEq, Expr.Call.injEq, Pattern.Identifier.injEq,
    Pattern.AppliedTag.injEq, TagName.global.injEq, Option.some.injEq,
    and_true, true_and, and_self, eq_self_iff_true]
  try omega


theorem lowlevel_3_shift (sy : Symbol) (op : LowLevel) (s1 s2 : Nat) :
    mapDef (relocate s1 s2) (lowlevel_3 sy op s1).1 = (lowlevel_3 sy op s2).1 := by
  simp only [lowlevel_3, defn, defn_help, VarStore.fresh, noRegion, mapDef,
    mapExpr, mapPattern, mapPatternArgs, mapArgExprs, mapLocArgExprs,
    mapLocExprs, mapIfBranches, mapWhenBranches, mapOptGuard, relocate, tagE,
    tagArgsE, intE, numE, floatE, Expr.letNonRecD, List.map,
    Def.mk.injEq, Located.mk.injEq, Prod.mk.injEq, List.cons.injEq,
    Variable.mk.injEq, Expr.Var.injEq, Expr.Num.injEq, Expr.Int.injEq,
    Expr.Float.injEq, Expr.List.injEq, Expr.RunLowLevel.injEq, Expr.If.injEq,
    Expr.When.injEq, Expr.LetNonRec.injEq, Expr.Access.injEq, Expr.Tag.injEq,
    Expr.Closure.injEq, Expr.Call.injEq, Pattern.Identifier.injEq,
    Pattern.AppliedTag.injEq, TagName.global.injEq, Option.some.injEq,
    and_true, true_and, and_self, eq_self_iff_true]
  try omega


theorem lowlevel_4_shift (sy : Symbol) (op : LowLevel) (s1 s2 : Nat) :
    mapDef (relocate s1 s2) (lowlevel_4 sy op s1).1 = (lowlevel_4 sy op s2).1 := by
  simp only [lowlevel_4, defn, defn_help, VarStore.fresh, noRegion, mapDef,
    mapExpr, mapPattern, mapPatternArgs, mapArgExprs, mapLocArgExprs,
    mapLocExprs, mapIfBranches, mapWhenBranches, mapOptGuard, relocate, tagE,
    tagArgsE, intE, numE, floatE, Expr.letNonRecD, List.map,
    Def.mk.injEq, Located.mk.injEq, Prod.mk.injEq, List.cons.injEq,
    Variable.mk.injEq, Expr.Var.injEq, Expr.Num.injEq, Expr.Int.injEq,
    Expr.Float.injEq, Expr.List.injEq, Expr.RunLowLevel.injEq, Expr.If.injEq,
    Expr.When.injEq, Expr.LetNonRec.injEq, Expr.Access.injEq, Expr.Tag.injEq,
    Expr.Closure.injEq, Expr.Call.injEq, Pattern.Identifier.injEq,
    Pattern.AppliedTag.injEq, TagName.global.injEq, Option.some.injEq,
    and_true, true_and, and_self, eq_self_iff_true]
  try omega


theorem lowlevel_5_shift (sy : Symbol) (op : LowLevel) (s1 s2 : Nat) :
    mapDef (relocate s1 s2) (lowlevel_5 sy op s1).1 = (lowlevel_5 sy op s2).1 := by
  simp only [lowlevel_5, defn, defn_help, VarStore.fresh, noRegion, mapDef,
    mapExpr, mapPattern, mapPatternArgs, mapArgExprs, mapLocArgExprs,
    mapLocExprs, mapIfBranches, mapWhenBranches, mapOptGuard, relocate, tagE,
    tagArgsE, intE, numE, floatE, Expr.letNonRecD, List.map,
    Def.mk.injEq, Located.mk.injEq, Prod.mk.injEq, List.cons.injEq,
    Variable.mk.injEq, Expr.Var.injEq, Expr.Num.injEq, Expr.Int.injEq,
    Expr.Float.injEq, Expr.List.injEq, Expr.RunLowLevel.injEq, Expr.If.injEq,
    Expr.When.injEq, Expr.LetNonRec.injEq, Expr.Access.injEq, Expr.Tag.injEq,
    Expr.Closure.injEq, Expr.Call.injEq, Pattern.Identifier.injEq,
    Pattern.AppliedTag.injEq, TagName.global.injEq, Option.some.injEq,
    and_true, true_and, and_self, eq_self_iff_true]
  try omega


theorem num_binop_shift (sy : Symbol) (op : LowLevel) (s1 s2 : Nat) :
    mapDef (relocate s1 s2) (num_binop sy s1 op).1 = (num_binop sy s2 op).1 := by
  simp only [num_binop, defn, defn_help, VarStore.fresh, noRegion, mapDef,
    mapExpr, mapPattern, mapPatternArgs, mapArgExprs, mapLocArgExprs,
    mapLocExprs, mapIfBranches, mapWhenBranches, mapOptGuard, relocate, tagE,
    tagArgsE, intE, numE, floatE, Expr.letNonRecD, List.map,
    Def.mk.injEq, Located.mk.injEq, Prod.mk.injEq, List.cons.injEq,
    Variable.mk.injEq, Expr.Var.injEq, Expr.Num.injEq, Expr.Int.injEq,
    Expr.Float.injEq, Expr.List.injEq, Expr.RunLowLevel.injEq, Expr.If.injEq,
    Expr.When.injEq, Expr.LetNonRec.injEq, Expr.Access.injEq, Expr.Tag.injEq,
    Expr.Closure.injEq, Expr.Call.injEq, Pattern.Identifier.injEq,
    Pattern.AppliedTag.injEq, TagName.global.injEq, Option.some.injEq,
    and_true, true_and, and_self, eq_self_iff_true]
  try omega


theorem num_num_other_binop_shift (sy : Symbol) (op : LowLevel) (s1 s2 : Nat) :
    mapDef (relocate s1 s2) (num_num_other_binop sy s1 op).1 = (num_num_other_binop sy s2 op).1 := by
  simp only [num_num_other_binop, defn, defn_help, VarStore.fresh, noRegion, mapDef,
    mapExpr, mapPattern, mapPatternArgs, mapArgExprs, mapLocArgExprs,
    mapLocExprs, mapIfBranches, mapWhenBranches, mapOptGuard, relocate, tagE,
    tagArgsE, intE, numE, floatE, Expr.letNonRecD, List.map,
    Def.mk.injEq, Located.mk.injEq, Prod.mk.injEq, List.cons.injEq,
    Variable.mk.injEq, Expr.Var.injEq, Expr.Num.injEq, Expr.Int.injEq,
    Expr.Float.injEq, Expr.List.injEq, Expr.RunLowLevel.injEq, Expr.If.injEq,
    Expr.When.injEq, Expr.LetNonRec.injEq, Expr.Access.injEq, Expr.Tag.injEq,
    Expr.Closure.injEq, Expr.Call.injEq, Pattern.Identifier.injEq,
    Pattern.AppliedTag.injEq, TagName.global.injEq, Option.some.injEq,
    and_true, true_and, and_self, eq_self_iff_true]
  try omega


theorem num_overflow_checked_shift (sy : Symbol) (ll : LowLevel) (s1 s2 : Nat) :
    mapDef (relocate s1 s2) (num_overflow_checked sy s1 ll).1 =
      (num_overflow_checked sy s2 ll).1 := by
  simp only [num_overflow_checked, defn, defn_help, VarStore.fresh, noRegion, mapDef,
    mapExpr, mapPattern, mapPatternArgs, mapArgExprs, mapLocArgExprs,
    mapLocExprs, mapIfBranches, mapWhenBranches, mapOptGuard, relocate, tagE,
    tagArgsE, intE, numE, floatE, Expr.letNonRecD, List.map,
    Def.mk.injEq, Located.mk.injEq, Prod.mk.injEq, List.cons.injEq,
    Variable.mk.injEq, Expr.Var.injEq, Expr.Num.injEq, Expr.Int.injEq,
    Expr.Float.injEq, Expr.List.injEq, Expr.RunLowLevel.injEq, Expr.If.injEq,
    Expr.When.injEq, Expr.LetNonRec.injEq, Expr.Access.injEq, Expr.Tag.injEq,
    Expr.Closure.injEq, Expr.Call.injEq, Pattern.Identifier.injEq,
    Pattern.AppliedTag.injEq, TagName.global.injEq, Option.some.injEq,
    and_true, true_and, and_self, eq_self_iff_true]
  try omega


theorem num_bytes_to_shift (sy : Symbol) (offset : Int) (ll : LowLevel) (s1 s2 : Nat) :
    mapDef (relocate s1 s2) (num_bytes_to sy s1 offset ll).1 =
      (num_bytes_to sy s2 offset ll).1 := by
  simp only [num_bytes_to, defn, defn_help, VarStore.fresh, noRegion, mapDef,
    mapExpr, mapPattern, mapPatternArgs, mapArgExprs, mapLocArgExprs,
    mapLocExprs, mapIfBranches, mapWhenBranches, mapOptGuard, relocate, tagE,
    tagArgsE, intE, numE, floatE, Expr.letNonRecD, List.map,
    Def.mk.injEq, Located.mk.injEq, Prod.mk.injEq, List.cons.injEq,
    Variable.mk.injEq, Expr.Var.injEq, Expr.Num.injEq, Expr.Int.injEq,
    Expr.Float.injEq, Expr.List.injEq, Expr.RunLowLevel.injEq, Expr.If.injEq,
    Expr.When.injEq, Expr.LetNonRec.injEq, Expr.Access.injEq, Expr.Tag.injEq,
    Expr.Closure.injEq, Expr.Call.injEq, Pattern.Identifier.injEq,
    Pattern.AppliedTag.injEq, TagName.global.injEq, Option.some.injEq,
    and_true, true_and, and_self, eq_self_iff_true]
  try omega


theorem num_max_int_shift (sy : Symbol) (s1 s2 : Nat) :
    mapDef (relocate s1 s2) (num_max_int sy s1).1 = (num_max_int sy s2).1 := by
  simp only [num_max_int, defn, defn_help, VarStore.fresh, noRegion, mapDef,
    mapExpr, mapPattern, mapPatternArgs, mapArgExprs, mapLocArgExprs,
    mapLocExprs, mapIfBranches, mapWhenBranches, mapOptGuard, relocate, tagE,
    tagArgsE, intE, numE, floatE, Expr.letNonRecD, List.map,
    Def.mk.injEq, Located.mk.injEq, Prod.mk.injEq, List.cons.injEq,
    Variable.mk.injEq, Expr.Var.injEq, Expr.Num.injEq, Expr.Int.injEq,
    Expr.Float.injEq, Expr.List.injEq, Expr.RunLowLevel.injEq, Expr.If.injEq,
    Expr.When.injEq, Expr.LetNonRec.injEq, Expr.Access.injEq, Expr.Tag.injEq,
    Expr.Closure.injEq, Expr.Call.injEq, Pattern.Identifier.injEq,
    Pattern.AppliedTag.injEq, TagName.global.injEq, Option.some.injEq,
    and_true, true_and, and_self, eq_self_iff_true]
  try omega


theorem num_min_int_shift (sy : Symbol) (s1 s2 : Nat) :
    mapDef (relocate s1 s2) (num_min_int sy s1).1 = (num_min_int sy s2).1 := by
  simp only [num_min_int, defn, defn_help, VarStore.fresh, noRegion, mapDef,
    mapExpr, mapPattern, mapPatternArgs, mapArgExprs, mapLocArgExprs,
    mapLocExprs, mapIfBranches, mapWhenBranches, mapOptGuard, relocate, tagE,
    tagArgsE, intE, numE, floatE, Expr.letNonRecD, List.map,
    Def.mk.injEq, Located.mk.injEq, Prod.mk.injEq, List.cons.injEq,
    Variable.mk.injEq, Expr.Var.injEq, Expr.Num.injEq, Expr.Int.injEq,
    Expr.Float.injEq, Expr.List.injEq, Expr.RunLowLevel.injEq, Expr.If.injEq,
    Expr.When.injEq, Expr.LetNonRec.injEq, Expr.Access.injEq, Expr.Tag.injEq,
    Expr.Closure.injEq, Expr.Call.injEq, Pattern.Identifier.injEq,
    Pattern.AppliedTag.injEq, TagName.global.injEq, Option.some.injEq,
    and_true, true_and, and_self, eq_self_iff_true]
  try omega


theorem num_max_i128_shift (sy : Symbol) (s1 s2 : Nat) :
    mapDef (relocate s1 s2) (num_max_i128 sy s1).1 = (num_max_i128 sy s2).1 := by
  simp only [num_max_i128, defn, defn_help, VarStore.fresh, noRegion, mapDef,
    mapExpr, mapPattern, mapPatternArgs, mapArgExprs, mapLocArgExprs,
    mapLocExprs, mapIfBranches, mapWhenBranches, mapOptGuard, relocate, tagE,
    tagArgsE, intE, numE, floatE, Expr.letNonRecD, List.map,
    Def.mk.injEq, Located.mk.injEq, Prod.mk.injEq, List.cons.injEq,
    Variable.mk.injEq, Expr.Var.injEq, Expr.Num.injEq, Expr.Int.injEq,
    Expr.Float.injEq, Expr.List.injEq, Expr.RunLowLevel.injEq, Expr.If.injEq,
    Expr.When.injEq, Expr.LetNonRec.injEq, Expr.Access.injEq, Expr.Tag.injEq,
    Expr.Closure.injEq, Expr.Call.injEq, Pattern.Identifier.injEq,
    Pattern.AppliedTag.injEq, TagName.global.injEq, Option.some.injEq,
    and_true, true_and, and_self, eq_self_iff_true]
  try omega


theorem bool_eq_shift (sy : Symbol) (s1 s2 : Nat) :
    mapDef (relocate s1 s2) (bool_eq sy s1).1 = (bool_eq sy s2).1 := by
  simp only [bool_eq, defn, defn_help, VarStore.fresh, noRegion, mapDef,
    mapExpr, mapPattern, mapPatternArgs, mapArgExprs, mapLocArgExprs,
    mapLocExprs, mapIfBranches, mapWhenBranches, mapOptGuard, relocate, tagE,
    tagArgsE, intE, numE, floatE, Expr.letNonRecD, List.map,
    Def.mk.injEq, Located.mk.injEq, Prod.mk.injEq, List.cons.injEq,
    Variable.mk.injEq, Expr.Var.injEq, Expr.Num.injEq, Expr.Int.injEq,
    Expr.Float.injEq, Expr.List.injEq, Expr.RunLowLevel.injEq, Expr.If.injEq,
    Expr.When.injEq, Expr.LetNonRec.injEq, Expr.Access.injEq, Expr.Tag.injEq,
    Expr.Closure.injEq, Expr.Call.injEq, Pattern.Identifier.injEq,
    Pattern.AppliedTag.injEq, TagName.global.injEq, Option.some.injEq,
    and_true, true_and, and_self, eq_self_iff_true]
  try omega


theorem bool_neq_shift (sy : Symbol) (s1 s2 : Nat) :
    mapDef (relocate s1 s2) (bool_neq sy s1).1 = (bool_neq sy s2).1 := by
  simp only [bool_neq, defn, defn_help, VarStore.fresh, noRegion, mapDef,
    mapExpr, mapPattern, mapPatternArgs, mapArgExprs, mapLocArgExprs,
    mapLocExprs, mapIfBranches, mapWhenBranches, mapOptGuard, relocate, tagE,
    tagArgsE, intE, numE, floatE, Expr.letNonRecD, List.map,
    Def.mk.injEq, Located.mk.injEq, Prod.mk.injEq, List.cons.injEq,
    Variable.mk.injEq, Expr.Var.injEq, Expr.Num.injEq, Expr.Int.injEq,
    Expr.Float.injEq, Expr.List.injEq, Expr.RunLowLevel.injEq, Expr.If.injEq,
    Expr.When.injEq, Expr.LetNonRec.injEq, Expr.Access.injEq, Expr.Tag.injEq,
    Expr.Closure.injEq, Expr.Call.injEq, Pattern.Identifier.injEq,
    Pattern.AppliedTag.injEq, TagName.global.injEq, Option.some.injEq,
    and_true, true_and, and_self, eq_self_iff_true]
  try omega


theorem bool_or_shift (sy : Symbol) (s1 s2 : Nat) :
    mapDef (relocate s1 s2) (bool_or sy s1).1 = (bool_or sy s2).1 := by
  simp only [bool_or, defn, defn_help, VarStore.fresh, noRegion, mapDef,
    mapExpr, mapPattern, mapPatternArgs, mapArgExprs, mapLocArgExprs,
    mapLocExprs, mapIfBranches, mapWhenBranches, mapOptGuard, relocate, tagE,
    tagArgsE, intE, numE, floatE, Expr.letNonRecD, List.map,
    Def.mk.injEq, Located.mk.injEq, Prod.mk.injEq, List.cons.injEq,
    Variable.mk.injEq, Expr.Var.injEq, Expr.Num.injEq, Expr.Int.injEq,
    Expr.Float.injEq, Expr.List.injEq, Expr.RunLowLevel.injEq, Expr.If.injEq,
    Expr.When.injEq, Expr.LetNonRec.injEq, Expr.Access.injEq, Expr.Tag.injEq,
    Expr.Closure.injEq, Expr.Call.injEq, Pattern.Identifier.injEq,
    Pattern.AppliedTag.injEq, TagName.global.injEq, Option.some.injEq,
    and_true, true_and, and_self, eq_self_iff_true]
  try omega


theorem bool_not_shift (sy : Symbol) (s1 s2 : Nat) :
    mapDef (relocate s1 s2) (bool_not sy s1).1 = (bool_not sy s2).1 := by
  simp only [bool_not, defn, defn_help, VarStore.fresh, noRegion, mapDef,
    mapExpr, mapPattern, mapPatternArgs, mapArgExprs, mapLocArgExprs,
    mapLocExprs, mapIfBranches, mapWhenBranches, mapOptGuard, relocate, tagE,
    tagArgsE, intE, numE, floatE, Expr.letNonRecD, List.map,
    Def.mk.injEq, Located.mk.injEq, Prod.mk.injEq, List.cons.injEq,
    Variable.mk.injEq, Expr.Var.injEq, Expr.Num.injEq, Expr.Int.injEq,
    Expr.Float.injEq, Expr.List.injEq, Expr.RunLowLevel.injEq, Expr.If.injEq,
    Expr.When.injEq, Expr.LetNonRec.injEq, Expr.Access.injEq, Expr.Tag.injEq,
    Expr.Closure.injEq, Expr.Call.injEq, Pattern.Identifier.injEq,
    Pattern.AppliedTag.injEq, TagName.global.injEq, Option.some.injEq,
    and_true, true_and, and_self, eq_self_iff_true]
  try omega


theorem bool_and_shift (sy : Symbol) (s1 s2 : Nat) :
    mapDef (relocate s1 s2) (bool_and sy s1).1 = (bool_and sy s2).1 := by
  simp only [bool_and, defn, defn_help, VarStore.fresh, noRegion, mapDef,
    mapExpr, mapPattern, mapPatternArgs, mapArgExprs, mapLocArgExprs,
    mapLocExprs, mapIfBranches, mapWhenBranches, mapOptGuard, relocate, tagE,
    tagArgsE, intE, numE, floatE, Expr.letNonRecD, List.map,
    Def.mk.injEq, Located.mk.injEq, Prod.mk.injEq, List.cons.injEq,
    Variable.mk.injEq, Expr.Var.injEq, Expr.Num.injEq, Expr.Int.injEq,
    Expr.Float.injEq, Expr.List.injEq, Expr.RunLowLevel.injEq, Expr.If.injEq,
    Expr.When.injEq, Expr.LetNonRec.injEq, Expr.Access.injEq, Expr.Tag.injEq,
    Expr.Closure.injEq, Expr.Call.injEq, Pattern.Identifier.injEq,
    Pattern.AppliedTag.injEq, TagName.global.injEq, Option.some.injEq,
    and_true, true_and, and_self, eq_self_iff_true]
  try omega


theorem num_sin_shift (sy : Symbol) (s1 s2 : Nat) :
    mapDef (relocate s1 s2) (num_sin sy s1).1 = (num_sin sy s2).1 := by
  simp only [num_sin, defn, defn_help, VarStore.fresh, noRegion, mapDef,
    mapExpr, mapPattern, mapPatternArgs, mapArgExprs, mapLocArgExprs,
    mapLocExprs, mapIfBranches, mapWhenBranches, mapOptGuard, relocate, tagE,
    tagArgsE, intE, numE, floatE, Expr.letNonRecD, List.map,
    Def.mk.injEq, Located.mk.injEq, Prod.mk.injEq, List.cons.injEq,
    Variable.mk.injEq, Expr.Var.injEq, Expr.Num.injEq, Expr.Int.injEq,
    Expr.Float.injEq, Expr.List.injEq, Expr.RunLowLevel.injEq, Expr.If.injEq,
    Expr.When.injEq, Expr.LetNonRec.injEq, Expr.Access.injEq, Expr.Tag.injEq,
    Expr.Closure.injEq, Expr.Call.injEq, Pattern.Identifier.injEq,
    Pattern.AppliedTag.injEq, TagName.global.injEq, Option.some.injEq,
    and_true, true_and, and_self, eq_self_iff_true]
  try omega


theorem num_cos_shift (sy : Symbol) (s1 s2 : Nat) :
    mapDef (relocate s1 s2) (num_cos sy s1).1 = (num_cos sy s2).1 := by
  simp only [num_cos, defn, defn_help, VarStore.fresh, noRegion, mapDef,
    mapExpr, mapPattern, mapPatternArgs, mapArgExprs, mapLocArgExprs,
    mapLocExprs, mapIfBranches, mapWhenBranches, mapOptGuard, relocate, tagE,
    tagArgsE, intE, numE, floatE, Expr.letNonRecD, List.map,
    Def.mk.injEq, Located.mk.injEq, Prod.mk.injEq, List.cons.injEq,
    Variable.mk.injEq, Expr.Var.injEq, Expr.Num.injEq, Expr.Int.injEq,
    Expr.Float.injEq, Expr.List.injEq, Expr.RunLowLevel.injEq, Expr.If.injEq,
    Expr.When.injEq, Expr.LetNonRec.injEq, Expr.Access.injEq, Expr.Tag.injEq,
    Expr.Closure.injEq, Expr.Call.injEq, Pattern.Identifier.injEq,
    Pattern.AppliedTag.injEq, TagName.global.injEq, Option.some.injEq,
    and_true, true_and, and_self, eq_self_iff_true]
  try omega


theorem num_tan_shift (sy : Symbol) (s1 s2 : Nat) :
    mapDef (relocate s1 s2) (num_tan sy s1).1 = (num_tan sy s2).1 := by
  simp only [num_tan, defn, defn_help, VarStore.fresh, noRegion, mapDef,
    mapExpr, mapPattern, mapPatternArgs, mapArgExprs, mapLocArgExprs,
    mapLocExprs, mapIfBranches, mapWhenBranches, mapOptGuard, relocate, tagE,
    tagArgsE, intE, numE, floatE, Expr.letNonRecD, List.map,
    Def.mk.injEq, Located.mk.injEq, Prod.mk.injEq, List.cons.injEq,
    Variable.mk.injEq, Expr.Var.injEq, Expr.Num.injEq, Expr.Int.injEq,
    Expr.Float.injEq, Expr.List.injEq, Expr.RunLowLevel.injEq, Expr.If.injEq,
    Expr.When.injEq, Expr.LetNonRec.injEq, Expr.Access.injEq, Expr.Tag.injEq,
    Expr.Closure.injEq, Expr.Call.injEq, Pattern.Identifier.injEq,
    Pattern.AppliedTag.injEq, TagName.global.injEq, Option.some.injEq,
    and_true, true_and, and_self, eq_self_iff_true]
  try omega


theorem num_is_zero_shift (sy : Symbol) (s1 s2 : Nat) :
    mapDef (relocate s1 s2) (num_is_zero sy s1).1 = (num_is_zero sy s2).1 := by
  simp only [num_is_zero, defn, defn_help, VarStore.fresh, noRegion, mapDef,
    mapExpr, mapPattern, mapPatternArgs, mapArgExprs, mapLocArgExprs,
    mapLocExprs, mapIfBranches, mapWhenBranches, mapOptGuard, relocate, tagE,
    tagArgsE, intE, numE, floatE, Expr.letNonRecD, List.map,
    Def.mk.injEq, Located.mk.injEq, Prod.mk.injEq, List.cons.injEq,
    Variable.mk.injEq, Expr.Var.injEq, Expr.Num.injEq, Expr.Int.injEq,
    Expr.Float.injEq, Expr.List.injEq, Expr.RunLowLevel.injEq, Expr.If.injEq,
    Expr.When.injEq, Expr.LetNonRec.injEq, Expr.Access.injEq, Expr.Tag.injEq,
    Expr.Closure.injEq, Expr.Call.injEq, Pattern.Identifier.injEq,
    Pattern.AppliedTag.injEq, TagName.global.injEq, Option.some.injEq,
    and_true, true_and, and_self, eq_self_iff_true]
  try omega


theorem num_is_negative_shift (sy : Symbol) (s1 s2 : Nat) :
    mapDef (relocate s1 s2) (num_is_negative sy s1).1 = (num_is_negative sy s2).1 := by
  simp only [num_is_negative, defn, defn_help, VarStore.fresh, noRegion, mapDef,
    mapExpr, mapPattern, mapPatternArgs, mapArgExprs, mapLocArgExprs,
    mapLocExprs, mapIfBranches, mapWhenBranches, mapOptGuard, relocate, tagE,
    tagArgsE, intE, numE, floatE, Expr.letNonRecD, List.map,
    Def.mk.injEq, Located.mk.injEq, Prod.mk.injEq, List.cons.injEq,
    Variable.mk.injEq, Expr.Var.injEq, Expr.Num.injEq, Expr.Int.injEq,
    Expr.Float.injEq, Expr.List.injEq, Expr.RunLowLevel.injEq, Expr.If.injEq,
    Expr.When.injEq, Expr.LetNonRec.injEq, Expr.Access.injEq, Expr.Tag.injEq,
    Expr.Closure.injEq, Expr.Call.injEq, Pattern.Identifier.injEq,
    Pattern.AppliedTag.injEq, TagName.global.injEq, Option.some.injEq,
    and_true, true_and, and_self, eq_self_iff_true]
  try omega


theorem num_is_positive_shift (sy : Symbol) (s1 s2 : Nat) :
    mapDef (relocate s1 s2) (num_is_positive sy s1).1 = (num_is_positive sy s2).1 := by
  simp only [num_is_positive, defn, defn_help, VarStore.fresh, noRegion, mapDef,
    mapExpr, mapPattern, mapPatternArgs, mapArgExprs, mapLocArgExprs,
    mapLocExprs, mapIfBranches, mapWhenBranches, mapOptGuard, relocate, tagE,
    tagArgsE, intE, numE, floatE, Expr.letNonRecD, List.map,
    Def.mk.injEq, Located.mk.injEq, Prod.mk.injEq, List.cons.injEq,
    Variable.mk.injEq, Expr.Var.injEq, Expr.Num.injEq, Expr.Int.injEq,
    Expr.Float.injEq, Expr.List.injEq, Expr.RunLowLevel.injEq, Expr.If.injEq,
    Expr.When.injEq, Expr.LetNonRec.injEq, Expr.Access.injEq, Expr.Tag.injEq,
    Expr.Closure.injEq, Expr.Call.injEq, Pattern.Identifier.injEq,
    Pattern.AppliedTag.injEq, TagName.global.injEq, Option.some.injEq,
    and_true, true_and, and_self, eq_self_iff_true]
  try omega


theorem num_is_odd_shift (sy : Symbol) (s1 s2 : Nat) :
    mapDef (relocate s1 s2) (num_is_odd sy s1).1 = (num_is_odd sy s2).1 := by
  simp only [num_is_odd, defn, defn_help, VarStore.fresh, noRegion, mapDef,
    mapExpr, mapPattern, mapPatternArgs, mapArgExprs, mapLocArgExprs,
    mapLocExprs, mapIfBranches, mapWhenBranches, mapOptGuard, relocate, tagE,
    tagArgsE, intE, numE, floatE, Expr.letNonRecD, List.map,
    Def.mk.injEq, Located.mk.injEq, Prod.mk.injEq, List.cons.injEq,
    Variable.mk.injEq, Expr.Var.injEq, Expr.Num.injEq, Expr.Int.injEq,
    Expr.Float.injEq, Expr.List.injEq, Expr.RunLowLevel.injEq, Expr.If.injEq,
    Expr.When.injEq, Expr.LetNonRec.injEq, Expr.Access.injEq, Expr.Tag.injEq,
    Expr.Closure.injEq, Expr.Call.injEq, Pattern.Identifier.injEq,
    Pattern.AppliedTag.injEq, TagName.global.injEq, Option.some.injEq,
    and_true, true_and, and_self, eq_self_iff_true]
  try omega


theorem num_is_even_shift (sy : Symbol) (s1 s2 : Nat) :
    mapDef (relocate s1 s2) (num_is_even sy s1).1 = (num_is_even sy s2).1 := by
  simp only [num_is_even, defn, defn_help, VarStore.fresh, noRegion, mapDef,
    mapExpr, mapPattern, mapPatternArgs, mapArgExprs, mapLocArgExprs,
    mapLocExprs, mapIfBranches, mapWhenBranches, mapOptGuard, relocate, tagE,
    tagArgsE, intE, numE, floatE, Expr.letNonRecD, List.map,
    Def.mk.injEq, Located.mk.injEq, Prod.mk.injEq, List.cons.injEq,
    Variable.mk.injEq, Expr.Var.injEq, Expr.Num.injEq, Expr.Int.injEq,
    Expr.Float.injEq, Expr.List.injEq, Expr.RunLowLevel.injEq, Expr.If.injEq,
    Expr.When.injEq, Expr.LetNonRec.injEq, Expr.Access.injEq, Expr.Tag.injEq,
    Expr.Closure.injEq, Expr.Call.injEq, Pattern.Identifier.injEq,
    Pattern.AppliedTag.injEq, TagName.global.injEq, Option.some.injEq,
    and_true, true_and, and_self, eq_self_iff_true]
  try omega


theorem num_to_float_shift (sy : Symbol) (s1 s2 : Nat) :
    mapDef (relocate s1 s2) (num_to_float sy s1).1 = (num_to_float sy s2).1 := by
  simp only [num_to_float, defn, defn_help, VarStore.fresh, noRegion, mapDef,
    mapExpr, mapPattern, mapPatternArgs, mapArgExprs, mapLocArgExprs,
    mapLocExprs, mapIfBranches, mapWhenBranches, mapOptGuard, relocate, tagE,
    tagArgsE, intE, numE, floatE, Expr.letNonRecD, List.map,
    Def.mk.injEq, Located.mk.injEq, Prod.mk.injEq, List.cons.injEq,
    Variable.mk.injEq, Expr.Var.injEq, Expr.Num.injEq, Expr.Int.injEq,
    Expr.Float.injEq, Expr.List.injEq, Expr.RunLowLevel.injEq, Expr.If.injEq,
    Expr.When.injEq, Expr.LetNonRec.injEq, Expr.Access.injEq, Expr.Tag.injEq,
    Expr.Closure.injEq, Expr.Call.injEq, Pattern.Identifier.injEq,
    Pattern.AppliedTag.injEq, TagName.global.injEq, Option.some.injEq,
    and_true, true_and, and_self, eq_self_iff_true]
  try omega


theorem num_sqrt_shift (sy : Symbol) (s1 s2 : Nat) :
    mapDef (relocate s1 s2) (num_sqrt sy s1).1 = (num_sqrt sy s2).1 := by
  simp only [num_sqrt, defn, defn_help, VarStore.fresh, noRegion, mapDef,
    mapExpr, mapPattern, mapPatternArgs, mapArgExprs, mapLocArgExprs,
    mapLocExprs, mapIfBranches, mapWhenBranches, mapOptGuard, relocate, tagE,
    tagArgsE, intE, numE, floatE, Expr.letNonRecD, List.map,
    Def.mk.injEq, Located.mk.injEq, Prod.mk.injEq, List.cons.injEq,
    Variable.mk.injEq, Expr.Var.injEq, Expr.Num.injEq, Expr.Int.injEq,
    Expr.Float.injEq, Expr.List.injEq, Expr.RunLowLevel.injEq, Expr.If.injEq,
    Expr.When.injEq, Expr.LetNonRec.injEq, Expr.Access.injEq, Expr.Tag.injEq,
    Expr.Closure.injEq, Expr.Call.injEq, Pattern.Identifier.injEq,
    Pattern.AppliedTag.injEq, TagName.global.injEq, Option.some.injEq,
    and_true, true_and, and_self, eq_self_iff_true]
  try omega


theorem num_log_shift (sy : Symbol) (s1 s2 : Nat) :
    mapDef (relocate s1 s2) (num_log sy s1).1 = (num_log sy s2).1 := by
  simp only [num_log, defn, defn_help, VarStore.fresh, noRegion, mapDef,
    mapExpr, mapPattern, mapPatternArgs, mapArgExprs, mapLocArgExprs,
    mapLocExprs, mapIfBranches, mapWhenBranches, mapOptGuard, relocate, tagE,
    tagArgsE, intE, numE, floatE, Expr.letNonRecD, List.map,
    Def.mk.injEq, Located.mk.injEq, Prod.mk.injEq, List.cons.injEq,
    Variable.mk.injEq, Expr.Var.injEq, Expr.Num.injEq, Expr.Int.injEq,
    Expr.Float.injEq, Expr.List.injEq, Expr.RunLowLevel.injEq, Expr.If.injEq,
    Expr.When.injEq, Expr.LetNonRec.injEq, Expr.Access.injEq, Expr.Tag.injEq,
    Expr.Closure.injEq, Expr.Call.injEq, Pattern.Identifier.injEq,
    Pattern.AppliedTag.injEq, TagName.global.injEq, Option.some.injEq,
    and_true, true_and, and_self, eq_self_iff_true]
  try omega


theorem num_round_shift (sy : Symbol) (s1 s2 : Nat) :
    mapDef (relocate s1 s2) (num_round sy s1).1 = (num_round sy s2).1 := by
  simp only [num_round, defn, defn_help, VarStore.fresh, noRegion, mapDef,
    mapExpr, mapPattern, mapPatternArgs, mapArgExprs, mapLocArgExprs,
    mapLocExprs, mapIfBranches, mapWhenBranches, mapOptGuard, relocate, tagE,
    tagArgsE, intE, numE, floatE, Expr.letNonRecD, List.map,
    Def.mk.injEq, Located.mk.injEq, Prod.mk.injEq, List.cons.injEq,
    Variable.mk.injEq, Expr.Var.injEq, Expr.Num.injEq, Expr.Int.injEq,
    Expr.Float.injEq, Expr.List.injEq, Expr.RunLowLevel.injEq, Expr.If.injEq,
    Expr.When.injEq, Expr.LetNonRec.injEq, Expr.Access.injEq, Expr.Tag.injEq,
    Expr.Closure.injEq, Expr.Call.injEq, Pattern.Identifier.injEq,
    Pattern.AppliedTag.injEq, TagName.global.injEq, Option.some.injEq,
    and_true, true_and, and_self, eq_self_iff_true]
  try omega


theorem num_pow_shift (sy : Symbol) (s1 s2 : Nat) :
    mapDef (relocate s1 s2) (num_pow sy s1).1 = (num_pow sy s2).1 := by
  simp only [num_pow, defn, defn_help, VarStore.fresh, noRegion, mapDef,
    mapExpr, mapPattern, mapPatternArgs, mapArgExprs, mapLocArgExprs,
    mapLocExprs, mapIfBranches, mapWhenBranches, mapOptGuard, relocate, tagE,
    tagArgsE, intE, numE, floatE, Expr.letNonRecD, List.map,
    Def.mk.injEq, Located.mk.injEq, Prod.mk.injEq, List.cons.injEq,
    Variable.mk.injEq, Expr.Var.injEq, Expr.Num.injEq, Expr.Int.injEq,
    Expr.Float.injEq, Expr.List.injEq, Expr.RunLowLevel.injEq, Expr.If.injEq,
    Expr.When.injEq, Expr.LetNonRec.injEq, Expr.Access.injEq, Expr.Tag.injEq,
    Expr.Closure.injEq, Expr.Call.injEq, Pattern.Identifier.injEq,
    Pattern.AppliedTag.injEq, TagName.global.injEq, Option.some.injEq,
    and_true, true_and, and_self, eq_self_iff_true]
  try omega


theorem num_ceiling_shift (sy : Symbol) (s1 s2 : Nat) :
    mapDef (relocate s1 s2) (num_ceiling sy s1).1 = (num_ceiling sy s2).1 := by
  simp only [num_ceiling, defn, defn_help, VarStore.fresh, noRegion, mapDef,
    mapExpr, mapPattern, mapPatternArgs, mapArgExprs, mapLocArgExprs,
    mapLocExprs, mapIfBranches, mapWhenBranches, mapOptGuard, relocate, tagE,
    tagArgsE, intE, numE, floatE, Expr.letNonRecD, List.map,
    Def.mk.injEq, Located.mk.injEq, Prod.mk.injEq, List.cons.injEq,
    Variable.mk.injEq, Expr.Var.injEq, Expr.Num.injEq, Expr.Int.injEq,
    Expr.Float.injEq, Expr.List.injEq, Expr.RunLowLevel.injEq, Expr.If.injEq,
    Expr.When.injEq, Expr.LetNonRec.injEq, Expr.Access.injEq, Expr.Tag.injEq,
    Expr.Closure.injEq, Expr.Call.injEq, Pattern.Identifier.injEq,
    Pattern.AppliedTag.injEq, TagName.global.injEq, Option.some.injEq,
    and_true, true_and, and_self, eq_self_iff_true]
  try omega


theorem num_pow_int_shift (sy : Symbol) (s1 s2 : Nat) :
    mapDef (relocate s1 s2) (num_pow_int sy s1).1 = (num_pow_int sy s2).1 := by
  simp only [num_pow_int, defn, defn_help, VarStore.fresh, noRegion, mapDef,
    mapExpr, mapPattern, mapPatternArgs, mapArgExprs, mapLocArgExprs,
    mapLocExprs, mapIfBranches, mapWhenBranches, mapOptGuard, relocate, tagE,
    tagArgsE, intE, numE, floatE, Expr.letNonRecD, List.map,
    Def.mk.injEq, Located.mk.injEq, Prod.mk.injEq, List.cons.injEq,
    Variable.mk.injEq, Expr.Var.injEq, Expr.Num.injEq, Expr.Int.injEq,
    Expr.Float.injEq, Expr.List.injEq, Expr.RunLowLevel.injEq, Expr.If.injEq,
    Expr.When.injEq, Expr.LetNonRec.injEq, Expr.Access.injEq, Expr.Tag.injEq,
    Expr.Closure.injEq, Expr.Call.injEq, Pattern.Identifier.injEq,
    Pattern.AppliedTag.injEq, TagName.global.injEq, Option.some.injEq,
    and_true, true_and, and_self, eq_self_iff_true]
  try omega


theorem num_floor_shift (sy : Symbol) (s1 s2 : Nat) :
    mapDef (relocate s1 s2) (num_floor sy s1).1 = (num_floor sy s2).1 := by
  simp only [num_floor, defn, defn_help, VarStore.fresh, noRegion, mapDef,
    mapExpr, mapPattern, mapPatternArgs, mapArgExprs, mapLocArgExprs,
    mapLocExprs, mapIfBranches, mapWhenBranches, mapOptGuard, relocate, tagE,
    tagArgsE, intE, numE, floatE, Expr.letNonRecD, List.map,
    Def.mk.injEq, Located.mk.injEq, Prod.mk.injEq, List.cons.injEq,
    Variable.mk.injEq, Expr.Var.injEq, Expr.Num.injEq, Expr.Int.injEq,
    Expr.Float.injEq, Expr.List.injEq, Expr.RunLowLevel.injEq, Expr.If.injEq,
    Expr.When.injEq, Expr.LetNonRec.injEq, Expr.Access.injEq, Expr.Tag.injEq,
    Expr.Closure.injEq, Expr.Call.injEq, Pattern.Identifier.injEq,
    Pattern.AppliedTag.injEq, TagName.global.injEq, Option.some.injEq,
    and_true, true_and, and_self, eq_self_iff_true]
  try omega


theorem num_atan_shift (sy : Symbol) (s1 s2 : Nat) :
    mapDef (relocate s1 s2) (num_atan sy s1).1 = (num_atan sy s2).1 := by
  simp only [num_atan, defn, defn_help, VarStore.fresh, noRegion, mapDef,
    mapExpr, mapPattern, mapPatternArgs, mapArgExprs, mapLocArgExprs,
    mapLocExprs, mapIfBranches, mapWhenBranches, mapOptGuard, relocate, tagE,
    tagArgsE, intE, numE, floatE, Expr.letNonRecD, List.map,
    Def.mk.injEq, Located.mk.injEq, Prod.mk.injEq, List.cons.injEq,
    Variable.mk.injEq, Expr.Var.injEq, Expr.Num.injEq, Expr.Int.injEq,
    Expr.Float.injEq, Expr.List.injEq, Expr.RunLowLevel.injEq, Expr.If.injEq,
    Expr.When.injEq, Expr.LetNonRec.injEq, Expr.Access.injEq, Expr.Tag.injEq,
    Expr.Closure.injEq, Expr.Call.injEq, Pattern.Identifier.injEq,
    Pattern.AppliedTag.injEq, TagName.global.injEq, Option.some.injEq,
    and_true, true_and, and_self, eq_self_iff_true]
  try omega


theorem num_acos_shift (sy : Symbol) (s1 s2 : Nat) :
    mapDef (relocate s1 s2) (num_acos sy s1).1 = (num_acos sy s2).1 := by
  simp only [num_acos, defn, defn_help, VarStore.fresh, noRegion, mapDef,
    mapExpr, mapPattern, mapPatternArgs, mapArgExprs, mapLocArgExprs,
    mapLocExprs, mapIfBranches, mapWhenBranches, mapOptGuard, relocate, tagE,
    tagArgsE, intE, numE, floatE, Expr.letNonRecD, List.map,
    Def.mk.injEq, Located.mk.injEq, Prod.mk.injEq, List.cons.injEq,
    Variable.mk.injEq, Expr.Var.injEq, Expr.Num.injEq, Expr.Int.injEq,
    Expr.Float.injEq, Expr.List.injEq, Expr.RunLowLevel.injEq, Expr.If.injEq,
    Expr.When.injEq, Expr.LetNonRec.injEq, Expr.Access.injEq, Expr.Tag.injEq,
    Expr.Closure.injEq, Expr.Call.injEq, Pattern.Identifier.injEq,
    Pattern.AppliedTag.injEq, TagName.global.injEq, Option.some.injEq,
    and_true, true_and, and_self, eq_self_iff_true]
  try omega


theorem num_asin_shift (sy : Symbol) (s1 s2 : Nat) :
    mapDef (relocate s1 s2) (num_asin sy s1).1 = (num_asin sy s2).1 := by
  simp only [num_asin, defn, defn_help, VarStore.fresh, noRegion, mapDef,
    mapExpr, mapPattern, mapPatternArgs, mapArgExprs, mapLocArgExprs,
    mapLocExprs, mapIfBranches, mapWhenBranches, mapOptGuard, relocate, tagE,
    tagArgsE, intE, numE, floatE, Expr.letNonRecD, List.map,
    Def.mk.injEq, Located.mk.injEq, Prod.mk.injEq, List.cons.injEq,
    Variable.mk.injEq, Expr.Var.injEq, Expr.Num.injEq, Expr.Int.injEq,
    Expr.Float.injEq, Expr.List.injEq, Expr.RunLowLevel.injEq, Expr.If.injEq,
    Expr.When.injEq, Expr.LetNonRec.injEq, Expr.Access.injEq, Expr.Tag.injEq,
    Expr.Closure.injEq, Expr.Call.injEq, Pattern.Identifier.injEq,
    Pattern.AppliedTag.injEq, TagName.global.injEq, Option.some.injEq,
    and_true, true_and, and_self, eq_self_iff_true]
  try omega


theorem list_is_empty_shift (sy : Symbol) (s1 s2 : Nat) :
    mapDef (relocate s1 s2) (list_is_empty sy s1).1 = (list_is_empty sy s2).1 := by
  simp only [list_is_empty, defn, defn_help, VarStore.fresh, noRegion, mapDef,
    mapExpr, mapPattern, mapPatternArgs, mapArgExprs, mapLocArgExprs,
    mapLocExprs, mapIfBranches, mapWhenBranches, mapOptGuard, relocate, tagE,
    tagArgsE, intE, numE, floatE, Expr.letNonRecD, List.map,
    Def.mk.injEq, Located.mk.injEq, Prod.mk.injEq, List.cons.injEq,
    Variable.mk.injEq, Expr.Var.injEq, Expr.Num.injEq, Expr.Int.injEq,
    Expr.Float.injEq, Expr.List.injEq, Expr.RunLowLevel.injEq, Expr.If.injEq,
    Expr.When.injEq, Expr.LetNonRec.injEq, Expr.Access.injEq, Expr.Tag.injEq,
    Expr.Closure.injEq, Expr.Call.injEq, Pattern.Identifier.injEq,
    Pattern.AppliedTag.injEq, TagName.global.injEq, Option.some.injEq,
    and_true, true_and, and_self, eq_self_iff_true]
  try omega


theorem list_reverse_shift (sy : Symbol) (s1 s2 : Nat) :
    mapDef (relocate s1 s2) (list_reverse sy s1).1 = (list_reverse sy s2).1 := by
  simp only [list_reverse, defn, defn_help, VarStore.fresh, noRegion, mapDef,
    mapExpr, mapPattern, mapPatternArgs, mapArgExprs, mapLocArgExprs,
    mapLocExprs, mapIfBranches, mapWhenBranches, mapOptGuard, relocate, tagE,
    tagArgsE, intE, numE, floatE, Expr.letNonRecD, List.map,
    Def.mk.injEq, Located.mk.injEq, Prod.mk.injEq, List.cons.injEq,
    Variable.mk.injEq, Expr.Var.injEq, Expr.Num.injEq, Expr.Int.injEq,
    Expr.Float.injEq, Expr.List.injEq, Expr.RunLowLevel.injEq, Expr.If.injEq,
    Expr.When.injEq, Expr.LetNonRec.injEq, Expr.Access.injEq, Expr.Tag.injEq,
    Expr.Closure.injEq, Expr.Call.injEq, Pattern.Identifier.injEq,
    Pattern.AppliedTag.injEq, TagName.global.injEq, Option.some.injEq,
    and_true, true_and, and_self, eq_self_iff_true]
  try omega


theorem str_split_shift (sy : Symbol) (s1 s2 : Nat) :
    mapDef (relocate s1 s2) (str_split sy s1).1 = (str_split sy s2).1 := by
  simp only [str_split, defn, defn_help, VarStore.fresh, noRegion, mapDef,
    mapExpr, mapPattern, mapPatternArgs, mapArgExprs, mapLocArgExprs,
    mapLocExprs, mapIfBranches, mapWhenBranches, mapOptGuard, relocate, tagE,
    tagArgsE, intE, numE, floatE, Expr.letNonRecD, List.map,
    Def.mk.injEq, Located.mk.injEq, Prod.mk.injEq, List.cons.injEq,
    Variable.mk.injEq, Expr.Var.injEq, Expr.Num.injEq, Expr.Int.injEq,
    Expr.Float.injEq, Expr.List.injEq, Expr.RunLowLevel.injEq, Expr.If.injEq,
    Expr.When.injEq, Expr.LetNonRec.injEq, Expr.Access.injEq, Expr.Tag.injEq,
    Expr.Closure.injEq, Expr.Call.injEq, Pattern.Identifier.injEq,
    Pattern.AppliedTag.injEq, TagName.global.injEq, Option.some.injEq,
    and_true, true_and, and_self, eq_self_iff_true]
  try omega


theorem str_repeat_shift (sy : Symbol) (s1 s2 : Nat) :
    mapDef (relocate s1 s2) (str_repeat sy s1).1 = (str_repeat sy s2).1 := by
  simp only [str_repeat, defn, defn_help, VarStore.fresh, noRegion, mapDef,
    mapExpr, mapPattern, mapPatternArgs, mapArgExprs, mapLocArgExprs,
    mapLocExprs, mapIfBranches, mapWhenBranches, mapOptGuard, relocate, tagE,
    tagArgsE, intE, numE, floatE, Expr.letNonRecD, List.map,
    Def.mk.injEq, Located.mk.injEq, Prod.mk.injEq, List.cons.injEq,
    Variable.mk.injEq, Expr.Var.injEq, Expr.Num.injEq, Expr.Int.injEq,
    Expr.Float.injEq, Expr.List.injEq, Expr.RunLowLevel.injEq, Expr.If.injEq,
    Expr.When.injEq, Expr.LetNonRec.injEq, Expr.Access.injEq, Expr.Tag.injEq,
    Expr.Closure.injEq, Expr.Call.injEq, Pattern.Identifier.injEq,
    Pattern.AppliedTag.injEq, TagName.global.injEq, Option.some.injEq,
    and_true, true_and, and_self, eq_self_iff_true]
  try omega


theorem str_concat_shift (sy : Symbol) (s1 s2 : Nat) :
    mapDef (relocate s1 s2) (str_concat sy s1).1 = (str_concat sy s2).1 := by
  simp only [str_concat, defn, defn_help, VarStore.fresh, noRegion, mapDef,
    mapExpr, mapPattern, mapPatternArgs, mapArgExprs, mapLocArgExprs,
    mapLocExprs, mapIfBranches, mapWhenBranches, mapOptGuard, relocate, tagE,
    tagArgsE, intE, numE, floatE, Expr.letNonRecD, List.map,
    Def.mk.injEq, Located.mk.injEq, Prod.mk.injEq, List.cons.injEq,
    Variable.mk.injEq, Expr.Var.injEq, Expr.Num.injEq, Expr.Int.injEq,
    Expr.Float.injEq, Expr.List.injEq, Expr.RunLowLevel.injEq, Expr.If.injEq,
    Expr.When.injEq, Expr.LetNonRec.injEq, Expr.Access.injEq, Expr.Tag.injEq,
    Expr.Closure.injEq, Expr.Call.injEq, Pattern.Identifier.injEq,
    Pattern.AppliedTag.injEq, TagName.global.injEq, Option.some.injEq,
    and_true, true_and, and_self, eq_self_iff_true]
  try omega


theorem str_join_with_shift (sy : Symbol) (s1 s2 : Nat) :
    mapDef (relocate s1 s2) (str_join_with sy s1).1 = (str_join_with sy s2).1 := by
  simp only [str_join_with, defn, defn_help, VarStore.fresh, noRegion, mapDef,
    mapExpr, mapPattern, mapPatternArgs, mapArgExprs, mapLocArgExprs,
    mapLocExprs, mapIfBranches, mapWhenBranches, mapOptGuard, relocate, tagE,
    tagArgsE, intE, numE, floatE, Expr.letNonRecD, List.map,
    Def.mk.injEq, Located.mk.injEq, Prod.mk.injEq, List.cons.injEq,
    Variable.mk.injEq, Expr.Var.injEq, Expr.Num.injEq, Expr.Int.injEq,
    Expr.Float.injEq, Expr.List.injEq, Expr.RunLowLevel.injEq, Expr.If.injEq,
    Expr.When.injEq, Expr.LetNonRec.injEq, Expr.Access.injEq, Expr.Tag.injEq,
    Expr.Closure.injEq, Expr.Call.injEq, Pattern.Identifier.injEq,
    Pattern.AppliedTag.injEq, TagName.global.injEq, Option.some.injEq,
    and_true, true_and, and_self, eq_self_iff_true]
  try omega


theorem str_is_empty_shift (sy : Symbol) (s1 s2 : Nat) :
    mapDef (relocate s1 s2) (str_is_empty sy s1).1 = (str_is_empty sy s2).1 := by
  simp only [str_is_empty, defn, defn_help, VarStore.fresh, noRegion, mapDef,
    mapExpr, mapPattern, mapPatternArgs, mapArgExprs, mapLocArgExprs,
    mapLocExprs, mapIfBranches, mapWhenBranches, mapOptGuard, relocate, tagE,
    tagArgsE, intE, numE, floatE, Expr.letNonRecD, List.map,
    Def.mk.injEq, Located.mk.injEq, Prod.mk.injEq, List.cons.injEq,
    Variable.mk.injEq, Expr.Var.injEq, Expr.Num.injEq, Expr.Int.injEq,
    Expr.Float.injEq, Expr.List.injEq, Expr.RunLowLevel.injEq, Expr.If.injEq,
    Expr.When.injEq, Expr.LetNonRec.injEq, Expr.Access.injEq, Expr.Tag.injEq,
    Expr.Closure.injEq, Expr.Call.injEq, Pattern.Identifier.injEq,
    Pattern.AppliedTag.injEq, TagName.global.injEq, Option.some.injEq,
    and_true, true_and, and_self, eq_self_iff_true]
  try omega


theorem str_ends_with_shift (sy : Symbol) (s1 s2 : Nat) :
    mapDef (relocate s1 s2) (str_ends_with sy s1).1 = (str_ends_with sy s2).1 := by
  simp only [str_ends_with, defn, defn_help, VarStore.fresh, noRegion, mapDef,
    mapExpr, mapPattern, mapPatternArgs, mapArgExprs, mapLocArgExprs,
    mapLocExprs, mapIfBranches, mapWhenBranches, mapOptGuard, relocate, tagE,
    tagArgsE, intE, numE, floatE, Expr.letNonRecD, List.map,
    Def.mk.injEq, Located.mk.injEq, Prod.mk.injEq, List.cons.injEq,
    Variable.mk.injEq, Expr.Var.injEq, Expr.Num.injEq, Expr.Int.injEq,
    Expr.Float.injEq, Expr.List.injEq, Expr.RunLowLevel.injEq, Expr.If.injEq,
    Expr.When.injEq, Expr.LetNonRec.injEq, Expr.Access.injEq, Expr.Tag.injEq,
    Expr.Closure.injEq, Expr.Call.injEq, Pattern.Identifier.injEq,
    Pattern.AppliedTag.injEq, TagName.global.injEq, Option.some.injEq,
    and_true, true_and, and_self, eq_self_iff_true]
  try omega


theorem str_count_graphemes_shift (sy : Symbol) (s1 s2 : Nat) :
    mapDef (relocate s1 s2) (str_count_graphemes sy s1).1 = (str_count_graphemes sy s2).1 := by
  simp only [str_count_graphemes, defn, defn_help, VarStore.fresh, noRegion, mapDef,
    mapExpr, mapPattern, mapPatternArgs, mapArgExprs, mapLocArgExprs,
    mapLocExprs, mapIfBranches, mapWhenBranches, mapOptGuard, relocate, tagE,
    tagArgsE, intE, numE, floatE, Expr.letNonRecD, List.map,
    Def.mk.injEq, Located.mk.injEq, Prod.mk.injEq, List.cons.injEq,
    Variable.mk.injEq, Expr.Var.injEq, Expr.Num.injEq, Expr.Int.injEq,
    Expr.Float.injEq, Expr.List.injEq, Expr.RunLowLevel.injEq, Expr.If.injEq,
    Expr.When.injEq, Expr.LetNonRec.injEq, Expr.Access.injEq, Expr.Tag.injEq,
    Expr.Closure.injEq, Expr.Call.injEq, Pattern.Identifier.injEq,
    Pattern.AppliedTag.injEq, TagName.global.injEq, Option.some.injEq,
    and_true, true_and, and_self, eq_self_iff_true]
  try omega


theorem str_from_int_shift (sy : Symbol) (s1 s2 : Nat) :
    mapDef (relocate s1 s2) (str_from_int sy s1).1 = (str_from_int sy s2).1 := by
  simp only [str_from_int, defn, defn_help, VarStore.fresh, noRegion, mapDef,
    mapExpr, mapPattern, mapPatternArgs, mapArgExprs, mapLocArgExprs,
    mapLocExprs, mapIfBranches, mapWhenBranches, mapOptGuard, relocate, tagE,
    tagArgsE, intE, numE, floatE, Expr.letNonRecD, List.map,
    Def.mk.injEq, Located.mk.injEq, Prod.mk.injEq, List.cons.injEq,
    Variable.mk.injEq, Expr.Var.injEq, Expr.Num.injEq, Expr.Int.injEq,
    Expr.Float.injEq, Expr.List.injEq, Expr.RunLowLevel.injEq, Expr.If.injEq,
    Expr.When.injEq, Expr.LetNonRec.injEq, Expr.Access.injEq, Expr.Tag.injEq,
    Expr.Closure.injEq, Expr.Call.injEq, Pattern.Identifier.injEq,
    Pattern.AppliedTag.injEq, TagName.global.injEq, Option.some.injEq,
    and_true, true_and, and_self, eq_self_iff_true]
  try omega


theorem str_from_utf8_shift (sy : Symbol) (s1 s2 : Nat) :
    mapDef (relocate s1 s2) (str_from_utf8 sy s1).1 = (str_from_utf8 sy s2).1 := by
  simp only [str_from_utf8, defn, defn_help, VarStore.fresh, noRegion, mapDef,
    mapExpr, mapPattern, mapPatternArgs, mapArgExprs, mapLocArgExprs,
    mapLocExprs, mapIfBranches, mapWhenBranches, mapOptGuard, relocate, tagE,
    tagArgsE, intE, numE, floatE, Expr.letNonRecD, List.map,
    Def.mk.injEq, Located.mk.injEq, Prod.mk.injEq, List.cons.injEq,
    Variable.mk.injEq, Expr.Var.injEq, Expr.Num.injEq, Expr.Int.injEq,
    Expr.Float.injEq, Expr.List.injEq, Expr.RunLowLevel.injEq, Expr.If.injEq,
    Expr.When.injEq, Expr.LetNonRec.injEq, Expr.Access.injEq, Expr.Tag.injEq,
    Expr.Closure.injEq, Expr.Call.injEq, Pattern.Identifier.injEq,
    Pattern.AppliedTag.injEq, TagName.global.injEq, Option.some.injEq,
    and_true, true_and, and_self, eq_self_iff_true]
  try omega


theorem str_from_utf8_range_shift (sy : Symbol) (s1 s2 : Nat) :
    mapDef (relocate s1 s2) (str_from_utf8_range sy s1).1 = (str_from_utf8_range sy s2).1 := by
  simp only [str_from_utf8_range, defn, defn_help, VarStore.fresh, noRegion, mapDef,
    mapExpr, mapPattern, mapPatternArgs, mapArgExprs, mapLocArgExprs,
    mapLocExprs, mapIfBranches, mapWhenBranches, mapOptGuard, relocate, tagE,
    tagArgsE, intE, numE, floatE, Expr.letNonRecD, List.map,
    Def.mk.injEq, Located.mk.injEq, Prod.mk.injEq, List.cons.injEq,
    Variable.mk.injEq, Expr.Var.injEq, Expr.Num.injEq, Expr.Int.injEq,
    Expr.Float.injEq, Expr.List.injEq, Expr.RunLowLevel.injEq, Expr.If.injEq,
    Expr.When.injEq, Expr.LetNonRec.injEq, Expr.Access.injEq, Expr.Tag.injEq,
    Expr.Closure.injEq, Expr.Call.injEq, Pattern.Identifier.injEq,
    Pattern.AppliedTag.injEq, TagName.global.injEq, Option.some.injEq,
    and_true, true_and, and_self, eq_self_iff_true]
  try omega


theorem str_from_float_shift (sy : Symbol) (s1 s2 : Nat) :
    mapDef (relocate s1 s2) (str_from_float sy s1).1 = (str_from_float sy s2).1 := by
  simp only [str_from_float, defn, defn_help, VarStore.fresh, noRegion, mapDef,
    mapExpr, mapPattern, mapPatternArgs, mapArgExprs, mapLocArgExprs,
    mapLocExprs, mapIfBranches, mapWhenBranches, mapOptGuard, relocate, tagE,
    tagArgsE, intE, numE, floatE, Expr.letNonRecD, List.map,
    Def.mk.injEq, Located.mk.injEq, Prod.mk.injEq, List.cons.injEq,
    Variable.mk.injEq, Expr.Var.injEq, Expr.Num.injEq, Expr.Int.injEq,
    Expr.Float.injEq, Expr.List.injEq, Expr.RunLowLevel.injEq, Expr.If.injEq,
    Expr.When.injEq, Expr.LetNonRec.injEq, Expr.Access.injEq, Expr.Tag.injEq,
    Expr.Closure.injEq, Expr.Call.injEq, Pattern.Identifier.injEq,
    Pattern.AppliedTag.injEq, TagName.global.injEq, Option.some.injEq,
    and_true, true_and, and_self, eq_self_iff_true]
  try omega


theorem list_concat_shift (sy : Symbol) (s1 s2 : Nat) :
    mapDef (relocate s1 s2) (list_concat sy s1).1 = (list_concat sy s2).1 := by
  simp only [list_concat, defn, defn_help, VarStore.fresh, noRegion, mapDef,
    mapExpr, mapPattern, mapPatternArgs, mapArgExprs, mapLocArgExprs,
    mapLocExprs, mapIfBranches, mapWhenBranches, mapOptGuard, relocate, tagE,
    tagArgsE, intE, numE, floatE, Expr.letNonRecD, List.map,
    Def.mk.injEq, Located.mk.injEq, Prod.mk.injEq, List.cons.injEq,
    Variable.mk.injEq, Expr.Var.injEq, Expr.Num.injEq, Expr.Int.injEq,
    Expr.Float.injEq, Expr.List.injEq, Expr.RunLowLevel.injEq, Expr.If.injEq,
    Expr.When.injEq, Expr.LetNonRec.injEq, Expr.Access.injEq, Expr.Tag.injEq,
    Expr.Closure.injEq, Expr.Call.injEq, Pattern.Identifier.injEq,
    Pattern.AppliedTag.injEq, TagName.global.injEq, Option.some.injEq,
    and_true, true_and, and_self, eq_self_iff_true]
  try omega


theorem list_repeat_shift (sy : Symbol) (s1 s2 : Nat) :
    mapDef (relocate s1 s2) (list_repeat sy s1).1 = (list_repeat sy s2).1 := by
  simp only [list_repeat, defn, defn_help, VarStore.fresh, noRegion, mapDef,
    mapExpr, mapPattern, mapPatternArgs, mapArgExprs, mapLocArgExprs,
    mapLocExprs, mapIfBranches, mapWhenBranches, mapOptGuard, relocate, tagE,
    tagArgsE, intE, numE, floatE, Expr.letNonRecD, List.map,
    Def.mk.injEq, Located.mk.injEq, Prod.mk.injEq, List.cons.injEq,
    Variable.mk.injEq, Expr.Var.injEq, Expr.Num.injEq, Expr.Int.injEq,
    Expr.Float.injEq, Expr.List.injEq, Expr.RunLowLevel.injEq, Expr.If.injEq,
    Expr.When.injEq, Expr.LetNonRec.injEq, Expr.Access.injEq, Expr.Tag.injEq,
    Expr.Closure.injEq, Expr.Call.injEq, Pattern.Identifier.injEq,
    Pattern.AppliedTag.injEq, TagName.global.injEq, Option.some.injEq,
    and_true, true_and, and_self, eq_self_iff_true]
  try omega


theorem list_single_shift (sy : Symbol) (s1 s2 : Nat) :
    mapDef (relocate s1 s2) (list_single sy s1).1 = (list_single sy s2).1 := by
  simp only [list_single, defn, defn_help, VarStore.fresh, noRegion, mapDef,
    mapExpr, mapPattern, mapPatternArgs, mapArgExprs, mapLocArgExprs,
    mapLocExprs, mapIfBranches, mapWhenBranches, mapOptGuard, relocate, tagE,
    tagArgsE, intE, numE, floatE, Expr.letNonRecD, List.map,
    Def.mk.injEq, Located.mk.injEq, Prod.mk.injEq, List.cons.injEq,
    Variable.mk.injEq, Expr.Var.injEq, Expr.Num.injEq, Expr.Int.injEq,
    Expr.Float.injEq, Expr.List.injEq, Expr.RunLowLevel.injEq, Expr.If.injEq,
    Expr.When.injEq, Expr.LetNonRec.injEq, Expr.Access.injEq, Expr.Tag.injEq,
    Expr.Closure.injEq, Expr.Call.injEq, Pattern.Identifier.injEq,
    Pattern.AppliedTag.injEq, TagName.global.injEq, Option.some.injEq,
    and_true, true_and, and_self, eq_self_iff_true]
  try omega


theorem list_len_shift (sy : Symbol) (s1 s2 : Nat) :
    mapDef (relocate s1 s2) (list_len sy s1).1 = (list_len sy s2).1 := by
  simp only [list_len, defn, defn_help, VarStore.fresh, noRegion, mapDef,
    mapExpr, mapPattern, mapPatternArgs, mapArgExprs, mapLocArgExprs,
    mapLocExprs, mapIfBranches, mapWhenBranches, mapOptGuard, relocate, tagE,
    tagArgsE, intE, numE, floatE, Expr.letNonRecD, List.map,
    Def.mk.injEq, Located.mk.injEq, Prod.mk.injEq, List.cons.injEq,
    Variable.mk.injEq, Expr.Var.injEq, Expr.Num.injEq, Expr.Int.injEq,
    Expr.Float.injEq, Expr.List.injEq, Expr.RunLowLevel.injEq, Expr.If.injEq,
    Expr.When.injEq, Expr.LetNonRec.injEq, Expr.Access.injEq, Expr.Tag.injEq,
    Expr.Closure.injEq, Expr.Call.injEq, Pattern.Identifier.injEq,
    Pattern.AppliedTag.injEq, TagName.global.injEq, Option.some.injEq,
    and_true, true_and, and_self, eq_self_iff_true]
  try omega


theorem list_get_shift (sy : Symbol) (s1 s2 : Nat) :
    mapDef (relocate s1 s2) (list_get sy s1).1 = (list_get sy s2).1 := by
  simp only [list_get, defn, defn_help, VarStore.fresh, noRegion, mapDef,
    mapExpr, mapPattern, mapPatternArgs, mapArgExprs, mapLocArgExprs,
    mapLocExprs, mapIfBranches, mapWhenBranches, mapOptGuard, relocate, tagE,
    tagArgsE, intE, numE, floatE, Expr.letNonRecD, List.map,
    Def.mk.injEq, Located.mk.injEq, Prod.mk.injEq, List.cons.injEq,
    Variable.mk.injEq, Expr.Var.injEq, Expr.Num.injEq, Expr.Int.injEq,
    Expr.Float.injEq, Expr.List.injEq, Expr.RunLowLevel.injEq, Expr.If.injEq,
    Expr.When.injEq, Expr.LetNonRec.injEq, Expr.Access.injEq, Expr.Tag.injEq,
    Expr.Closure.injEq, Expr.Call.injEq, Pattern.Identifier.injEq,
    Pattern.AppliedTag.injEq, TagName.global.injEq, Option.some.injEq,
    and_true, true_and, and_self, eq_self_iff_true]
  try omega


theorem list_set_shift (sy : Symbol) (s1 s2 : Nat) :
    mapDef (relocate s1 s2) (list_set sy s1).1 = (list_set sy s2).1 := by
  simp only [list_set, defn, defn_help, VarStore.fresh, noRegion, mapDef,
    mapExpr, mapPattern, mapPatternArgs, mapArgExprs, mapLocArgExprs,
    mapLocExprs, mapIfBranches, mapWhenBranches, mapOptGuard, relocate, tagE,
    tagArgsE, intE, numE, floatE, Expr.letNonRecD, List.map,
    Def.mk.injEq, Located.mk.injEq, Prod.mk.injEq, List.cons.injEq,
    Variable.mk.injEq, Expr.Var.injEq, Expr.Num.injEq, Expr.Int.injEq,
    Expr.Float.injEq, Expr.List.injEq, Expr.RunLowLevel.injEq, Expr.If.injEq,
    Expr.When.injEq, Expr.LetNonRec.injEq, Expr.Access.injEq, Expr.Tag.injEq,
    Expr.Closure.injEq, Expr.Call.injEq, Pattern.Identifier.injEq,
    Pattern.AppliedTag.injEq, TagName.global.injEq, Option.some.injEq,
    and_true, true_and, and_self, eq_self_iff_true]
  try omega


theorem list_swap_shift (sy : Symbol) (s1 s2 : Nat) :
    mapDef (relocate s1 s2) (list_swap sy s1).1 = (list_swap sy s2).1 := by
  simp only [list_swap, defn, defn_help, VarStore.fresh, noRegion, mapDef,
    mapExpr, mapPattern, mapPatternArgs, mapArgExprs, mapLocArgExprs,
    mapLocExprs, mapIfBranches, mapWhenBranches, mapOptGuard, relocate, tagE,
    tagArgsE, intE, numE, floatE, Expr.letNonRecD, List.map,
    Def.mk.injEq, Located.mk.injEq, Prod.mk.injEq, List.cons.injEq,
    Variable.mk.injEq, Expr.Var.injEq, Expr.Num.injEq, Expr.Int.injEq,
    Expr.Float.injEq, Expr.List.injEq, Expr.RunLowLevel.injEq, Expr.If.injEq,
    Expr.When.injEq, Expr.LetNonRec.injEq, Expr.Access.injEq, Expr.Tag.injEq,
    Expr.Closure.injEq, Expr.Call.injEq, Pattern.Identifier.injEq,
    Pattern.AppliedTag.injEq, TagName.global.injEq, Option.some.injEq,
    and_true, true_and, and_self, eq_self_iff_true]
  try omega


theorem list_take_first_shift (sy : Symbol) (s1 s2 : Nat) :
    mapDef (relocate s1 s2) (list_take_first sy s1).1 = (list_take_first sy s2).1 := by
  simp only [list_take_first, defn, defn_help, VarStore.fresh, noRegion, mapDef,
    mapExpr, mapPattern, mapPatternArgs, mapArgExprs, mapLocArgExprs,
    mapLocExprs, mapIfBranches, mapWhenBranches, mapOptGuard, relocate, tagE,
    tagArgsE, intE, numE, floatE, Expr.letNonRecD, List.map,
    Def.mk.injEq, Located.mk.injEq, Prod.mk.injEq, List.cons.injEq,
    Variable.mk.injEq, Expr.Var.injEq, Expr.Num.injEq, Expr.Int.injEq,
    Expr.Float.injEq, Expr.List.injEq, Expr.RunLowLevel.injEq, Expr.If.injEq,
    Expr.When.injEq, Expr.LetNonRec.injEq, Expr.Access.injEq, Expr.Tag.injEq,
    Expr.Closure.injEq, Expr.Call.injEq, Pattern.Identifier.injEq,
    Pattern.AppliedTag.injEq, TagName.global.injEq, Option.some.injEq,
    and_true, true_and, and_self, eq_self_iff_true]
  try omega


theorem list_take_last_shift (sy : Symbol) (s1 s2 : Nat) :
    mapDef (relocate s1 s2) (list_take_last sy s1).1 = (list_take_last sy s2).1 := by
  simp only [list_take_last, defn, defn_help, VarStore.fresh, noRegion, mapDef,
    mapExpr, mapPattern, mapPatternArgs, mapArgExprs, mapLocArgExprs,
    mapLocExprs, mapIfBranches, mapWhenBranches, mapOptGuard, relocate, tagE,
    tagArgsE, intE, numE, floatE, Expr.letNonRecD, List.map,
    Def.mk.injEq, Located.mk.injEq, Prod.mk.injEq, List.cons.injEq,
    Variable.mk.injEq, Expr.Var.injEq, Expr.Num.injEq, Expr.Int.injEq,
    Expr.Float.injEq, Expr.List.injEq, Expr.RunLowLevel.injEq, Expr.If.injEq,
    Expr.When.injEq, Expr.LetNonRec.injEq, Expr.Access.injEq, Expr.Tag.injEq,
    Expr.Closure.injEq, Expr.Call.injEq, Pattern.Identifier.injEq,
    Pattern.AppliedTag.injEq, TagName.global.injEq, Option.some.injEq,
    and_true, true_and, and_self, eq_self_iff_true]
  try omega


theorem list_drop_shift (sy : Symbol) (s1 s2 : Nat) :
    mapDef (relocate s1 s2) (list_drop sy s1).1 = (list_drop sy s2).1 := by
  simp only [list_drop, defn, defn_help, VarStore.fresh, noRegion, mapDef,
    mapExpr, mapPattern, mapPatternArgs, mapArgExprs, mapLocArgExprs,
    mapLocExprs, mapIfBranches, mapWhenBranches, mapOptGuard, relocate, tagE,
    tagArgsE, intE, numE, floatE, Expr.letNonRecD, List.map,
    Def.mk.injEq, Located.mk.injEq, Prod.mk.injEq, List.cons.injEq,
    Variable.mk.injEq, Expr.Var.injEq, Expr.Num.injEq, Expr.Int.injEq,
    Expr.Float.injEq, Expr.List.injEq, Expr.RunLowLevel.injEq, Expr.If.injEq,
    Expr.When.injEq, Expr.LetNonRec.injEq, Expr.Access.injEq, Expr.Tag.injEq,
    Expr.Closure.injEq, Expr.Call.injEq, Pattern.Identifier.injEq,
    Pattern.AppliedTag.injEq, TagName.global.injEq, Option.some.injEq,
    and_true, true_and, and_self, eq_self_iff_true]
  try omega


theorem list_drop_at_shift (sy : Symbol) (s1 s2 : Nat) :
    mapDef (relocate s1 s2) (list_drop_at sy s1).1 = (list_drop_at sy s2).1 := by
  simp only [list_drop_at, defn, defn_help, VarStore.fresh, noRegion, mapDef,
    mapExpr, mapPattern, mapPatternArgs, mapArgExprs, mapLocArgExprs,
    mapLocExprs, mapIfBranches, mapWhenBranches, mapOptGuard, relocate, tagE,
    tagArgsE, intE, numE, floatE, Expr.letNonRecD, List.map,
    Def.mk.injEq, Located.mk.injEq, Prod.mk.injEq, List.cons.injEq,
    Variable.mk.injEq, Expr.Var.injEq, Expr.Num.injEq, Expr.Int.injEq,
    Expr.Float.injEq, Expr.List.injEq, Expr.RunLowLevel.injEq, Expr.If.injEq,
    Expr.When.injEq, Expr.LetNonRec.injEq, Expr.Access.injEq, Expr.Tag.injEq,
    Expr.Closure.injEq, Expr.Call.injEq, Pattern.Identifier.injEq,
    Pattern.AppliedTag.injEq, TagName.global.injEq, Option.some.injEq,
    and_true, true_and, and_self, eq_self_iff_true]
  try omega


theorem list_drop_first_shift (sy : Symbol) (s1 s2 : Nat) :
    mapDef (relocate s1 s2) (list_drop_first sy s1).1 = (list_drop_first sy s2).1 := by
  simp only [list_drop_first, defn, defn_help, VarStore.fresh, noRegion, mapDef,
    mapExpr, mapPattern, mapPatternArgs, mapArgExprs, mapLocArgExprs,
    mapLocExprs, mapIfBranches, mapWhenBranches, mapOptGuard, relocate, tagE,
    tagArgsE, intE, numE, floatE, Expr.letNonRecD, List.map,
    Def.mk.injEq, Located.mk.injEq, Prod.mk.injEq, List.cons.injEq,
    Variable.mk.injEq, Expr.Var.injEq, Expr.Num.injEq, Expr.Int.injEq,
    Expr.Float.injEq, Expr.List.injEq, Expr.RunLowLevel.injEq, Expr.If.injEq,
    Expr.When.injEq, Expr.LetNonRec.injEq, Expr.Access.injEq, Expr.Tag.injEq,
    Expr.Closure.injEq, Expr.Call.injEq, Pattern.Identifier.injEq,
    Pattern.AppliedTag.injEq, TagName.global.injEq, Option.some.injEq,
    and_true, true_and, and_self, eq_self_iff_true]
  try omega


theorem list_drop_last_shift (sy : Symbol) (s1 s2 : Nat) :
    mapDef (relocate s1 s2) (list_drop_last sy s1).1 = (list_drop_last sy s2).1 := by
  simp only [list_drop_last, defn, defn_help, VarStore.fresh, noRegion, mapDef,
    mapExpr, mapPattern, mapPatternArgs, mapArgExprs, mapLocArgExprs,
    mapLocExprs, mapIfBranches, mapWhenBranches, mapOptGuard, relocate, tagE,
    tagArgsE, intE, numE, floatE, Expr.letNonRecD, List.map,
    Def.mk.injEq, Located.mk.injEq, Prod.mk.injEq, List.cons.injEq,
    Variable.mk.injEq, Expr.Var.injEq, Expr.Num.injEq, Expr.Int.injEq,
    Expr.Float.injEq, Expr.List.injEq, Expr.RunLowLevel.injEq, Expr.If.injEq,
    Expr.When.injEq, Expr.LetNonRec.injEq, Expr.Access.injEq, Expr.Tag.injEq,
    Expr.Closure.injEq, Expr.Call.injEq, Pattern.Identifier.injEq,
    Pattern.AppliedTag.injEq, TagName.global.injEq, Option.some.injEq,
    and_true, true_and, and_self, eq_self_iff_true]
  try omega


theorem list_append_shift (sy : Symbol) (s1 s2 : Nat) :
    mapDef (relocate s1 s2) (list_append sy s1).1 = (list_append sy s2).1 := by
  simp only [list_append, defn, defn_help, VarStore.fresh, noRegion, mapDef,
    mapExpr, mapPattern, mapPatternArgs, mapArgExprs, mapLocArgExprs,
    mapLocExprs, mapIfBranches, mapWhenBranches, mapOptGuard, relocate, tagE,
    tagArgsE, intE, numE, floatE, Expr.letNonRecD, List.map,
    Def.mk.injEq, Located.mk.injEq, Prod.mk.injEq, List.cons.injEq,
    Variable.mk.injEq, Expr.Var.injEq, Expr.Num.injEq, Expr.Int.injEq,
    Expr.Float.injEq, Expr.List.injEq, Expr.RunLowLevel.injEq, Expr.If.injEq,
    Expr.When.injEq, Expr.LetNonRec.injEq, Expr.Access.injEq, Expr.Tag.injEq,
    Expr.Closure.injEq, Expr.Call.injEq, Pattern.Identifier.injEq,
    Pattern.AppliedTag.injEq, TagName.global.injEq, Option.some.injEq,
    and_true, true_and, and_self, eq_self_iff_true]
  try omega


theorem list_prepend_shift (sy : Symbol) (s1 s2 : Nat) :
    mapDef (relocate s1 s2) (list_prepend sy s1).1 = (list_prepend sy s2).1 := by
  simp only [list_prepend, defn, defn_help, VarStore.fresh, noRegion, mapDef,
    mapExpr, mapPattern, mapPatternArgs, mapArgExprs, mapLocArgExprs,
    mapLocExprs, mapIfBranches, mapWhenBranches, mapOptGuard, relocate, tagE,
    tagArgsE, intE, numE, floatE, Expr.letNonRecD, List.map,
    Def.mk.injEq, Located.mk.injEq, Prod.mk.injEq, List.cons.injEq,
    Variable.mk.injEq, Expr.Var.injEq, Expr.Num.injEq, Expr.Int.injEq,
    Expr.Float.injEq, Expr.List.injEq, Expr.RunLowLevel.injEq, Expr.If.injEq,
    Expr.When.injEq, Expr.LetNonRec.injEq, Expr.Access.injEq, Expr.Tag.injEq,
    Expr.Closure.injEq, Expr.Call.injEq, Pattern.Identifier.injEq,
    Pattern.AppliedTag.injEq, TagName.global.injEq, Option.some.injEq,
    and_true, true_and, and_self, eq_self_iff_true]
  try omega


theorem list_join_shift (sy : Symbol) (s1 s2 : Nat) :
    mapDef (relocate s1 s2) (list_join sy s1).1 = (list_join sy s2).1 := by
  simp only [list_join, defn, defn_help, VarStore.fresh, noRegion, mapDef,
    mapExpr, mapPattern, mapPatternArgs, mapArgExprs, mapLocArgExprs,
    mapLocExprs, mapIfBranches, mapWhenBranches, mapOptGuard, relocate, tagE,
    tagArgsE, intE, numE, floatE, Expr.letNonRecD, List.map,
    Def.mk.injEq, Located.mk.injEq, Prod.mk.injEq, List.cons.injEq,
    Variable.mk.injEq, Expr.Var.injEq, Expr.Num.injEq, Expr.Int.injEq,
    Expr.Float.injEq, Expr.List.injEq, Expr.RunLowLevel.injEq, Expr.If.injEq,
    Expr.When.injEq, Expr.LetNonRec.injEq, Expr.Access.injEq, Expr.Tag.injEq,
    Expr.Closure.injEq, Expr.Call.injEq, Pattern.Identifier.injEq,
    Pattern.AppliedTag.injEq, TagName.global.injEq, Option.some.injEq,
    and_true, true_and, and_self, eq_self_iff_true]
  try omega


theorem list_join_map_shift (sy : Symbol) (s1 s2 : Nat) :
    mapDef (relocate s1 s2) (list_join_map sy s1).1 = (list_join_map sy s2).1 := by
  simp only [list_join_map, defn, defn_help, VarStore.fresh, noRegion, mapDef,
    mapExpr, mapPattern, mapPatternArgs, mapArgExprs, mapLocArgExprs,
    mapLocExprs, mapIfBranches, mapWhenBranches, mapOptGuard, relocate, tagE,
    tagArgsE, intE, numE, floatE, Expr.letNonRecD, List.map,
    Def.mk.injEq, Located.mk.injEq, Prod.mk.injEq, List.cons.injEq,
    Variable.mk.injEq, Expr.Var.injEq, Expr.Num.injEq, Expr.Int.injEq,
    Expr.Float.injEq, Expr.List.injEq, Expr.RunLowLevel.injEq, Expr.If.injEq,
    Expr.When.injEq, Expr.LetNonRec.injEq, Expr.Access.injEq, Expr.Tag.injEq,
    Expr.Closure.injEq, Expr.Call.injEq, Pattern.Identifier.injEq,
    Pattern.AppliedTag.injEq, TagName.global.injEq, Option.some.injEq,
    and_true, true_and, and_self, eq_self_iff_true]
  try omega


theorem list_min_shift (sy : Symbol) (s1 s2 : Nat) :
    mapDef (relocate s1 s2) (list_min sy s1).1 = (list_min sy s2).1 := by
  simp only [list_min, list_min_lt, defn, defn_help, VarStore.fresh, noRegion, mapDef,
    mapExpr, mapPattern, mapPatternArgs, mapArgExprs, mapLocArgExprs,
    mapLocExprs, mapIfBranches, mapWhenBranches, mapOptGuard, relocate, tagE,
    tagArgsE, intE, numE, floatE, Expr.letNonRecD, List.map,
    Def.mk.injEq, Located.mk.injEq, Prod.mk.injEq, List.cons.injEq,
    Variable.mk.injEq, Expr.Var.injEq, Expr.Num.injEq, Expr.Int.injEq,
    Expr.Float.injEq, Expr.List.injEq, Expr.RunLowLevel.injEq, Expr.If.injEq,
    Expr.When.injEq, Expr.LetNonRec.injEq, Expr.Access.injEq, Expr.Tag.injEq,
    Expr.Closure.injEq, Expr.Call.injEq, Pattern.Identifier.injEq,
    Pattern.AppliedTag.injEq, TagName.global.injEq, Option.some.injEq,
    and_true, true_and, and_self, eq_self_iff_true]
  try omega


theorem list_max_shift (sy : Symbol) (s1 s2 : Nat) :
    mapDef (relocate s1 s2) (list_max sy s1).1 = (list_max sy s2).1 := by
  simp only [list_max, list_max_gt, defn, defn_help, VarStore.fresh, noRegion, mapDef,
    mapExpr, mapPattern, mapPatternArgs, mapArgExprs, mapLocArgExprs,
    mapLocExprs, mapIfBranches, mapWhenBranches, mapOptGuard, relocate, tagE,
    tagArgsE, intE, numE, floatE, Expr.letNonRecD, List.map,
    Def.mk.injEq, Located.mk.injEq, Prod.mk.injEq, List.cons.injEq,
    Variable.mk.injEq, Expr.Var.injEq, Expr.Num.injEq, Expr.Int.injEq,
    Expr.Float.injEq, Expr.List.injEq, Expr.RunLowLevel.injEq, Expr.If.injEq,
    Expr.When.injEq, Expr.LetNonRec.injEq, Expr.Access.injEq, Expr.Tag.injEq,
    Expr.Closure.injEq, Expr.Call.injEq, Pattern.Identifier.injEq,
    Pattern.AppliedTag.injEq, TagName.global.injEq, Option.some.injEq,
    and_true, true_and, and_self, eq_self_iff_true]
  try omega


theorem list_sum_shift (sy : Symbol) (s1 s2 : Nat) :
    mapDef (relocate s1 s2) (list_sum sy s1).1 = (list_sum sy s2).1 := by
  simp only [list_sum, list_sum_add, defn, defn_help, VarStore.fresh, noRegion, mapDef,
    mapExpr, mapPattern, mapPatternArgs, mapArgExprs, mapLocArgExprs,
    mapLocExprs, mapIfBranches, mapWhenBranches, mapOptGuard, relocate, tagE,
    tagArgsE, intE, numE, floatE, Expr.letNonRecD, List.map,
    Def.mk.injEq, Located.mk.injEq, Prod.mk.injEq, List.cons.injEq,
    Variable.mk.injEq, Expr.Var.injEq, Expr.Num.injEq, Expr.Int.injEq,
    Expr.Float.injEq, Expr.List.injEq, Expr.RunLowLevel.injEq, Expr.If.injEq,
    Expr.When.injEq, Expr.LetNonRec.injEq, Expr.Access.injEq, Expr.Tag.injEq,
    Expr.Closure.injEq, Expr.Call.injEq, Pattern.Identifier.injEq,
    Pattern.AppliedTag.injEq, TagName.global.injEq, Option.some.injEq,
    and_true, true_and, and_self, eq_self_iff_true]
  try omega


theorem list_product_shift (sy : Symbol) (s1 s2 : Nat) :
    mapDef (relocate s1 s2) (list_product sy s1).1 = (list_product sy s2).1 := by
  simp only [list_product, list_product_mul, defn, defn_help, VarStore.fresh, noRegion, mapDef,
    mapExpr, mapPattern, mapPatternArgs, mapArgExprs, mapLocArgExprs,
    mapLocExprs, mapIfBranches, mapWhenBranches, mapOptGuard, relocate, tagE,
    tagArgsE, intE, numE, floatE, Expr.letNonRecD, List.map,
    Def.mk.injEq, Located.mk.injEq, Prod.mk.injEq, List.cons.injEq,
    Variable.mk.injEq, Expr.Var.injEq, Expr.Num.injEq, Expr.Int.injEq,
    Expr.Float.injEq, Expr.List.injEq, Expr.RunLowLevel.injEq, Expr.If.injEq,
    Expr.When.injEq, Expr.LetNonRec.injEq, Expr.Access.injEq, Expr.Tag.injEq,
    Expr.Closure.injEq, Expr.Call.injEq, Pattern.Identifier.injEq,
    Pattern.AppliedTag.injEq, TagName.global.injEq, Option.some.injEq,
    and_true, true_and, and_self, eq_self_iff_true]
  try omega


theorem list_keep_if_shift (sy : Symbol) (s1 s2 : Nat) :
    mapDef (relocate s1 s2) (list_keep_if sy s1).1 = (list_keep_if sy s2).1 := by
  simp only [list_keep_if, defn, defn_help, VarStore.fresh, noRegion, mapDef,
    mapExpr, mapPattern, mapPatternArgs, mapArgExprs, mapLocArgExprs,
    mapLocExprs, mapIfBranches, mapWhenBranches, mapOptGuard, relocate, tagE,
    tagArgsE, intE, numE, floatE, Expr.letNonRecD, List.map,
    Def.mk.injEq, Located.mk.injEq, Prod.mk.injEq, List.cons.injEq,
    Variable.mk.injEq, Expr.Var.injEq, Expr.Num.injEq, Expr.Int.injEq,
    Expr.Float.injEq, Expr.List.injEq, Expr.RunLowLevel.injEq, Expr.If.injEq,
    Expr.When.injEq, Expr.LetNonRec.injEq, Expr.Access.injEq, Expr.Tag.injEq,
    Expr.Closure.injEq, Expr.Call.injEq, Pattern.Identifier.injEq,
    Pattern.AppliedTag.injEq, TagName.global.injEq, Option.some.injEq,
    and_true, true_and, and_self, eq_self_iff_true]
  try omega


theorem list_find_shift (sy : Symbol) (s1 s2 : Nat) :
    mapDef (relocate s1 s2) (list_find sy s1).1 = (list_find sy s2).1 := by
  simp only [list_find, defn, defn_help, VarStore.fresh, noRegion, mapDef,
    mapExpr, mapPattern, mapPatternArgs, mapArgExprs, mapLocArgExprs,
    mapLocExprs, mapIfBranches, mapWhenBranches, mapOptGuard, relocate, tagE,
    tagArgsE, intE, numE, floatE, Expr.letNonRecD, List.map,
    Def.mk.injEq, Located.mk.injEq, Prod.mk.injEq, List.cons.injEq,
    Variable.mk.injEq, Expr.Var.injEq, Expr.Num.injEq, Expr.Int.injEq,
    Expr.Float.injEq, Expr.List.injEq, Expr.RunLowLevel.injEq, Expr.If.injEq,
    Expr.When.injEq, Expr.LetNonRec.injEq, Expr.Access.injEq, Expr.Tag.injEq,
    Expr.Closure.injEq, Expr.Call.injEq, Pattern.Identifier.injEq,
    Pattern.AppliedTag.injEq, TagName.global.injEq, Option.some.injEq,
    and_true, true_and, and_self, eq_self_iff_true]
  try omega


theorem dict_len_shift (sy : Symbol) (s1 s2 : Nat) :
    mapDef (relocate s1 s2) (dict_len sy s1).1 = (dict_len sy s2).1 := by
  simp only [dict_len, defn, defn_help, VarStore.fresh, noRegion, mapDef,
    mapExpr, mapPattern, mapPatternArgs, mapArgExprs, mapLocArgExprs,
    mapLocExprs, mapIfBranches, mapWhenBranches, mapOptGuard, relocate, tagE,
    tagArgsE, intE, numE, floatE, Expr.letNonRecD, List.map,
    Def.mk.injEq, Located.mk.injEq, Prod.mk.injEq, List.cons.injEq,
    Variable.mk.injEq, Expr.Var.injEq, Expr.Num.injEq, Expr.Int.injEq,
    Expr.Float.injEq, Expr.List.injEq, Expr.RunLowLevel.injEq, Expr.If.injEq,
    Expr.When.injEq, Expr.LetNonRec.injEq, Expr.Access.injEq, Expr.Tag.injEq,
    Expr.Closure.injEq, Expr.Call.injEq, Pattern.Identifier.injEq,
    Pattern.AppliedTag.injEq, TagName.global.injEq, Option.some.injEq,
    and_true, true_and, and_self, eq_self_iff_true]
  try omega


theorem dict_empty_shift (sy : Symbol) (s1 s2 : Nat) :
    mapDef (relocate s1 s2) (dict_empty sy s1).1 = (dict_empty sy s2).1 := by
  simp only [dict_empty, defn, defn_help, VarStore.fresh, noRegion, mapDef,
    mapExpr, mapPattern, mapPatternArgs, mapArgExprs, mapLocArgExprs,
    mapLocExprs, mapIfBranches, mapWhenBranches, mapOptGuard, relocate, tagE,
    tagArgsE, intE, numE, floatE, Expr.letNonRecD, List.map,
    Def.mk.injEq, Located.mk.injEq, Prod.mk.injEq, List.cons.injEq,
    Variable.mk.injEq, Expr.Var.injEq, Expr.Num.injEq, Expr.Int.injEq,
    Expr.Float.injEq, Expr.List.injEq, Expr.RunLowLevel.injEq, Expr.If.injEq,
    Expr.When.injEq, Expr.LetNonRec.injEq, Expr.Access.injEq, Expr.Tag.injEq,
    Expr.Closure.injEq, Expr.Call.injEq, Pattern.Identifier.injEq,
    Pattern.AppliedTag.injEq, TagName.global.injEq, Option.some.injEq,
    and_true, true_and, and_self, eq_self_iff_true]
  try omega


theorem dict_single_shift (sy : Symbol) (s1 s2 : Nat) :
    mapDef (relocate s1 s2) (dict_single sy s1).1 = (dict_single sy s2).1 := by
  simp only [dict_single, defn, defn_help, VarStore.fresh, noRegion, mapDef,
    mapExpr, mapPattern, mapPatternArgs, mapArgExprs, mapLocArgExprs,
    mapLocExprs, mapIfBranches, mapWhenBranches, mapOptGuard, relocate, tagE,
    tagArgsE, intE, numE, floatE, Expr.letNonRecD, List.map,
    Def.mk.injEq, Located.mk.injEq, Prod.mk.injEq, List.cons.injEq,
    Variable.mk.injEq, Expr.Var.injEq, Expr.Num.injEq, Expr.Int.injEq,
    Expr.Float.injEq, Expr.List.injEq, Expr.RunLowLevel.injEq, Expr.If.injEq,
    Expr.When.injEq, Expr.LetNonRec.injEq, Expr.Access.injEq, Expr.Tag.injEq,
    Expr.Closure.injEq, Expr.Call.injEq, Pattern.Identifier.injEq,
    Pattern.AppliedTag.injEq, TagName.global.injEq, Option.some.injEq,
    and_true, true_and, and_self, eq_self_iff_true]
  try omega


theorem dict_get_shift (sy : Symbol) (s1 s2 : Nat) :
    mapDef (relocate s1 s2) (dict_get sy s1).1 = (dict_get sy s2).1 := by
  simp only [dict_get, defn, defn_help, VarStore.fresh, noRegion, mapDef,
    mapExpr, mapPattern, mapPatternArgs, mapArgExprs, mapLocArgExprs,
    mapLocExprs, mapIfBranches, mapWhenBranches, mapOptGuard, relocate, tagE,
    tagArgsE, intE, numE, floatE, Expr.letNonRecD, List.map,
    Def.mk.injEq, Located.mk.injEq, Prod.mk.injEq, List.cons.injEq,
    Variable.mk.injEq, Expr.Var.injEq, Expr.Num.injEq, Expr.Int.injEq,
    Expr.Float.injEq, Expr.List.injEq, Expr.RunLowLevel.injEq, Expr.If.injEq,
    Expr.When.injEq, Expr.LetNonRec.injEq, Expr.Access.injEq, Expr.Tag.injEq,
    Expr.Closure.injEq, Expr.Call.injEq, Pattern.Identifier.injEq,
    Pattern.AppliedTag.injEq, TagName.global.injEq, Option.some.injEq,
    and_true, true_and, and_self, eq_self_iff_true]
  try omega


theorem set_empty_shift (sy : Symbol) (s1 s2 : Nat) :
    mapDef (relocate s1 s2) (set_empty sy s1).1 = (set_empty sy s2).1 := by
  simp only [set_empty, defn, defn_help, VarStore.fresh, noRegion, mapDef,
    mapExpr, mapPattern, mapPatternArgs, mapArgExprs, mapLocArgExprs,
    mapLocExprs, mapIfBranches, mapWhenBranches, mapOptGuard, relocate, tagE,
    tagArgsE, intE, numE, floatE, Expr.letNonRecD, List.map,
    Def.mk.injEq, Located.mk.injEq, Prod.mk.injEq, List.cons.injEq,
    Variable.mk.injEq, Expr.Var.injEq, Expr.Num.injEq, Expr.Int.injEq,
    Expr.Float.injEq, Expr.List.injEq, Expr.RunLowLevel.injEq, Expr.If.injEq,
    Expr.When.injEq, Expr.LetNonRec.injEq, Expr.Access.injEq, Expr.Tag.injEq,
    Expr.Closure.injEq, Expr.Call.injEq, Pattern.Identifier.injEq,
    Pattern.AppliedTag.injEq, TagName.global.injEq, Option.some.injEq,
    and_true, true_and, and_self, eq_self_iff_true]
  try omega


theorem set_single_shift (sy : Symbol) (s1 s2 : Nat) :
    mapDef (relocate s1 s2) (set_single sy s1).1 = (set_single sy s2).1 := by
  simp only [set_single, defn, defn_help, VarStore.fresh, noRegion, mapDef,
    mapExpr, mapPattern, mapPatternArgs, mapArgExprs, mapLocArgExprs,
    mapLocExprs, mapIfBranches, mapWhenBranches, mapOptGuard, relocate, tagE,
    tagArgsE, intE, numE, floatE, Expr.letNonRecD, List.map,
    Def.mk.injEq, Located.mk.injEq, Prod.mk.injEq, List.cons.injEq,
    Variable.mk.injEq, Expr.Var.injEq, Expr.Num.injEq, Expr.Int.injEq,
    Expr.Float.injEq, Expr.List.injEq, Expr.RunLowLevel.injEq, Expr.If.injEq,
    Expr.When.injEq, Expr.LetNonRec.injEq, Expr.Access.injEq, Expr.Tag.injEq,
    Expr.Closure.injEq, Expr.Call.injEq, Pattern.Identifier.injEq,
    Pattern.AppliedTag.injEq, TagName.global.injEq, Option.some.injEq,
    and_true, true_and, and_self, eq_self_iff_true]
  try omega


theorem set_insert_shift (sy : Symbol) (s1 s2 : Nat) :
    mapDef (relocate s1 s2) (set_insert sy s1).1 = (set_insert sy s2).1 := by
  simp only [set_insert, defn, defn_help, VarStore.fresh, noRegion, mapDef,
    mapExpr, mapPattern, mapPatternArgs, mapArgExprs, mapLocArgExprs,
    mapLocExprs, mapIfBranches, mapWhenBranches, mapOptGuard, relocate, tagE,
    tagArgsE, intE, numE, floatE, Expr.letNonRecD, List.map,
    Def.mk.injEq, Located.mk.injEq, Prod.mk.injEq, List.cons.injEq,
    Variable.mk.injEq, Expr.Var.injEq, Expr.Num.injEq, Expr.Int.injEq,
    Expr.Float.injEq, Expr.List.injEq, Expr.RunLowLevel.injEq, Expr.If.injEq,
    Expr.When.injEq, Expr.LetNonRec.injEq, Expr.Access.injEq, Expr.Tag.injEq,
    Expr.Closure.injEq, Expr.Call.injEq, Pattern.Identifier.injEq,
    Pattern.AppliedTag.injEq, TagName.global.injEq, Option.some.injEq,
    and_true, true_and, and_self, eq_self_iff_true]
  try omega


theorem set_walk_shift (sy : Symbol) (s1 s2 : Nat) :
    mapDef (relocate s1 s2) (set_walk sy s1).1 = (set_walk sy s2).1 := by
  simp only [set_walk, defn, defn_help, VarStore.fresh, noRegion, mapDef,
    mapExpr, mapPattern, mapPatternArgs, mapArgExprs, mapLocArgExprs,
    mapLocExprs, mapIfBranches, mapWhenBranches, mapOptGuard, relocate, tagE,
    tagArgsE, intE, numE, floatE, Expr.letNonRecD, List.map,
    Def.mk.injEq, Located.mk.injEq, Prod.mk.injEq, List.cons.injEq,
    Variable.mk.injEq, Expr.Var.injEq, Expr.Num.injEq, Expr.Int.injEq,
    Expr.Float.injEq, Expr.List.injEq, Expr.RunLowLevel.injEq, Expr.If.injEq,
    Expr.When.injEq, Expr.LetNonRec.injEq, Expr.Access.injEq, Expr.Tag.injEq,
    Expr.Closure.injEq, Expr.Call.injEq, Pattern.Identifier.injEq,
    Pattern.AppliedTag.injEq, TagName.global.injEq, Option.some.injEq,
    and_true, true_and, and_self, eq_self_iff_true]
  try omega


theorem num_rem_shift (sy : Symbol) (s1 s2 : Nat) :
    mapDef (relocate s1 s2) (num_rem sy s1).1 = (num_rem sy s2).1 := by
  simp only [num_rem, defn, defn_help, VarStore.fresh, noRegion, mapDef,
    mapExpr, mapPattern, mapPatternArgs, mapArgExprs, mapLocArgExprs,
    mapLocExprs, mapIfBranches, mapWhenBranches, mapOptGuard, relocate, tagE,
    tagArgsE, intE, numE, floatE, Expr.letNonRecD, List.map,
    Def.mk.injEq, Located.mk.injEq, Prod.mk.injEq, List.cons.injEq,
    Variable.mk.injEq, Expr.Var.injEq, Expr.Num.injEq, Expr.Int.injEq,
    Expr.Float.injEq, Expr.List.injEq, Expr.RunLowLevel.injEq, Expr.If.injEq,
    Expr.When.injEq, Expr.LetNonRec.injEq, Expr.Access.injEq, Expr.Tag.injEq,
    Expr.Closure.injEq, Expr.Call.injEq, Pattern.Identifier.injEq,
    Pattern.AppliedTag.injEq, TagName.global.injEq, Option.some.injEq,
    and_true, true_and, and_self, eq_self_iff_true]
  try omega


theorem num_neg_shift (sy : Symbol) (s1 s2 : Nat) :
    mapDef (relocate s1 s2) (num_neg sy s1).1 = (num_neg sy s2).1 := by
  simp only [num_neg, defn, defn_help, VarStore.fresh, noRegion, mapDef,
    mapExpr, mapPattern, mapPatternArgs, mapArgExprs, mapLocArgExprs,
    mapLocExprs, mapIfBranches, mapWhenBranches, mapOptGuard, relocate, tagE,
    tagArgsE, intE, numE, floatE, Expr.letNonRecD, List.map,
    Def.mk.injEq, Located.mk.injEq, Prod.mk.injEq, List.cons.injEq,
    Variable.mk.injEq, Expr.Var.injEq, Expr.Num.injEq, Expr.Int.injEq,
    Expr.Float.injEq, Expr.List.injEq, Expr.RunLowLevel.injEq, Expr.If.injEq,
    Expr.When.injEq, Expr.LetNonRec.injEq, Expr.Access.injEq, Expr.Tag.injEq,
    Expr.Closure.injEq, Expr.Call.injEq, Pattern.Identifier.injEq,
    Pattern.AppliedTag.injEq, TagName.global.injEq, Option.some.injEq,
    and_true, true_and, and_self, eq_self_iff_true]
  try omega


theorem num_abs_shift (sy : Symbol) (s1 s2 : Nat) :
    mapDef (relocate s1 s2) (num_abs sy s1).1 = (num_abs sy s2).1 := by
  simp only [num_abs, defn, defn_help, VarStore.fresh, noRegion, mapDef,
    mapExpr, mapPattern, mapPatternArgs, mapArgExprs, mapLocArgExprs,
    mapLocExprs, mapIfBranches, mapWhenBranches, mapOptGuard, relocate, tagE,
    tagArgsE, intE, numE, floatE, Expr.letNonRecD, List.map,
    Def.mk.injEq, Located.mk.injEq, Prod.mk.injEq, List.cons.injEq,
    Variable.mk.injEq, Expr.Var.injEq, Expr.Num.injEq, Expr.Int.injEq,
    Expr.Float.injEq, Expr.List.injEq, Expr.RunLowLevel.injEq, Expr.If.injEq,
    Expr.When.injEq, Expr.LetNonRec.injEq, Expr.Access.injEq, Expr.Tag.injEq,
    Expr.Closure.injEq, Expr.Call.injEq, Pattern.Identifier.injEq,
    Pattern.AppliedTag.injEq, TagName.global.injEq, Option.some.injEq,
    and_true, true_and, and_self, eq_self_iff_true]
  try omega


theorem num_div_float_shift (sy : Symbol) (s1 s2 : Nat) :
    mapDef (relocate s1 s2) (num_div_float sy s1).1 = (num_div_float sy s2).1 := by
  simp only [num_div_float, defn, defn_help, VarStore.fresh, noRegion, mapDef,
    mapExpr, mapPattern, mapPatternArgs, mapArgExprs, mapLocArgExprs,
    mapLocExprs, mapIfBranches, mapWhenBranches, mapOptGuard, relocate, tagE,
    tagArgsE, intE, numE, floatE, Expr.letNonRecD, List.map,
    Def.mk.injEq, Located.mk.injEq, Prod.mk.injEq, List.cons.injEq,
    Variable.mk.injEq, Expr.Var.injEq, Expr.Num.injEq, Expr.Int.injEq,
    Expr.Float.injEq, Expr.List.injEq, Expr.RunLowLevel.injEq, Expr.If.injEq,
    Expr.When.injEq, Expr.LetNonRec.injEq, Expr.Access.injEq, Expr.Tag.injEq,
    Expr.Closure.injEq, Expr.Call.injEq, Pattern.Identifier.injEq,
    Pattern.AppliedTag.injEq, TagName.global.injEq, Option.some.injEq,
    and_true, true_and, and_self, eq_self_iff_true]
  try omega


theorem num_div_int_shift (sy : Symbol) (s1 s2 : Nat) :
    mapDef (relocate s1 s2) (num_div_int sy s1).1 = (num_div_int sy s2).1 := by
  simp only [num_div_int, defn, defn_help, VarStore.fresh, noRegion, mapDef,
    mapExpr, mapPattern, mapPatternArgs, mapArgExprs, mapLocArgExprs,
    mapLocExprs, mapIfBranches, mapWhenBranches, mapOptGuard, relocate, tagE,
    tagArgsE, intE, numE, floatE, Expr.letNonRecD, List.map,
    Def.mk.injEq, Located.mk.injEq, Prod.mk.injEq, List.cons.injEq,
    Variable.mk.injEq, Expr.Var.injEq, Expr.Num.injEq, Expr.Int.injEq,
    Expr.Float.injEq, Expr.List.injEq, Expr.RunLowLevel.injEq, Expr.If.injEq,
    Expr.When.injEq, Expr.LetNonRec.injEq, Expr.Access.injEq, Expr.Tag.injEq,
    Expr.Closure.injEq, Expr.Call.injEq, Pattern.Identifier.injEq,
    Pattern.AppliedTag.injEq, TagName.global.injEq, Option.some.injEq,
    and_true, true_and, and_self, eq_self_iff_true]
  try omega


theorem num_div_ceil_shift (sy : Symbol) (s1 s2 : Nat) :
    mapDef (relocate s1 s2) (num_div_ceil sy s1).1 = (num_div_ceil sy s2).1 := by
  simp only [num_div_ceil, defn, defn_help, VarStore.fresh, noRegion, mapDef,
    mapExpr, mapPattern, mapPatternArgs, mapArgExprs, mapLocArgExprs,
    mapLocExprs, mapIfBranches, mapWhenBranches, mapOptGuard, relocate, tagE,
    tagArgsE, intE, numE, floatE, Expr.letNonRecD, List.map,
    Def.mk.injEq, Located.mk.injEq, Prod.mk.injEq, List.cons.injEq,
    Variable.mk.injEq, Expr.Var.injEq, Expr.Num.injEq, Expr.Int.injEq,
    Expr.Float.injEq, Expr.List.injEq, Expr.RunLowLevel.injEq, Expr.If.injEq,
    Expr.When.injEq, Expr.LetNonRec.injEq, Expr.Access.injEq, Expr.Tag.injEq,
    Expr.Closure.injEq, Expr.Call.injEq, Pattern.Identifier.injEq,
    Pattern.AppliedTag.injEq, TagName.global.injEq, Option.some.injEq,
    and_true, true_and, and_self, eq_self_iff_true]
  try omega


theorem list_first_shift (sy : Symbol) (s1 s2 : Nat) :
    mapDef (relocate s1 s2) (list_first sy s1).1 = (list_first sy s2).1 := by
  simp only [list_first, defn, defn_help, VarStore.fresh, noRegion, mapDef,
    mapExpr, mapPattern, mapPatternArgs, mapArgExprs, mapLocArgExprs,
    mapLocExprs, mapIfBranches, mapWhenBranches, mapOptGuard, relocate, tagE,
    tagArgsE, intE, numE, floatE, Expr.letNonRecD, List.map,
    Def.mk.injEq, Located.mk.injEq, Prod.mk.injEq, List.cons.injEq,
    Variable.mk.injEq, Expr.Var.injEq, Expr.Num.injEq, Expr.Int.injEq,
    Expr.Float.injEq, Expr.List.injEq, Expr.RunLowLevel.injEq, Expr.If.injEq,
    Expr.When.injEq, Expr.LetNonRec.injEq, Expr.Access.injEq, Expr.Tag.injEq,
    Expr.Closure.injEq, Expr.Call.injEq, Pattern.Identifier.injEq,
    Pattern.AppliedTag.injEq, TagName.global.injEq, Option.some.injEq,
    and_true, true_and, and_self, eq_self_iff_true]
  try omega


theorem list_last_shift (sy : Symbol) (s1 s2 : Nat) :
    mapDef (relocate s1 s2) (list_last sy s1).1 = (list_last sy s2).1 := by
  simp only [list_last, defn, defn_help, VarStore.fresh, noRegion, mapDef,
    mapExpr, mapPattern, mapPatternArgs, mapArgExprs, mapLocArgExprs,
    mapLocExprs, mapIfBranches, mapWhenBranches, mapOptGuard, relocate, tagE,
    tagArgsE, intE, numE, floatE, Expr.letNonRecD, List.map,
    Def.mk.injEq, Located.mk.injEq, Prod.mk.injEq, List.cons.injEq,
    Variable.mk.injEq, Expr.Var.injEq, Expr.Num.injEq, Expr.Int.injEq,
    Expr.Float.injEq, Expr.List.injEq, Expr.RunLowLevel.injEq, Expr.If.injEq,
    Expr.When.injEq, Expr.LetNonRec.injEq, Expr.Access.injEq, Expr.Tag.injEq,
    Expr.Closure.injEq, Expr.Call.injEq, Pattern.Identifier.injEq,
    Pattern.AppliedTag.injEq, TagName.global.injEq, Option.some.injEq,
    and_true, true_and, and_self, eq_self_iff_true]
  try omega


theorem result_map_shift (sy : Symbol) (s1 s2 : Nat) :
    mapDef (relocate s1 s2) (result_map sy s1).1 = (result_map sy s2).1 := by
  simp only [result_map, defn, defn_help, VarStore.fresh, noRegion, mapDef,
    mapExpr, mapPattern, mapPatternArgs, mapArgExprs, mapLocArgExprs,
    mapLocExprs, mapIfBranches, mapWhenBranches, mapOptGuard, relocate, tagE,
    tagArgsE, intE, numE, floatE, Expr.letNonRecD, List.map,
    Def.mk.injEq, Located.mk.injEq, Prod.mk.injEq, List.cons.injEq,
    Variable.mk.injEq, Expr.Var.injEq, Expr.Num.injEq, Expr.Int.injEq,
    Expr.Float.injEq, Expr.List.injEq, Expr.RunLowLevel.injEq, Expr.If.injEq,
    Expr.When.injEq, Expr.LetNonRec.injEq, Expr.Access.injEq, Expr.Tag.injEq,
    Expr.Closure.injEq, Expr.Call.injEq, Pattern.Identifier.injEq,
    Pattern.AppliedTag.injEq, TagName.global.injEq, Option.some.injEq,
    and_true, true_and, and_self, eq_self_iff_true]
  try omega


theorem result_map_err_shift (sy : Symbol) (s1 s2 : Nat) :
    mapDef (relocate s1 s2) (result_map_err sy s1).1 = (result_map_err sy s2).1 := by
  simp only [result_map_err, defn, defn_help, VarStore.fresh, noRegion, mapDef,
    mapExpr, mapPattern, mapPatternArgs, mapArgExprs, mapLocArgExprs,
    mapLocExprs, mapIfBranches, mapWhenBranches, mapOptGuard, relocate, tagE,
    tagArgsE, intE, numE, floatE, Expr.letNonRecD, List.map,
    Def.mk.injEq, Located.mk.injEq, Prod.mk.injEq, List.cons.injEq,
    Variable.mk.injEq, Expr.Var.injEq, Expr.Num.injEq, Expr.Int.injEq,
    Expr.Float.injEq, Expr.List.injEq, Expr.RunLowLevel.injEq, Expr.If.injEq,
    Expr.When.injEq, Expr.LetNonRec.injEq, Expr.Access.injEq, Expr.Tag.injEq,
    Expr.Closure.injEq, Expr.Call.injEq, Pattern.Identifier.injEq,
    Pattern.AppliedTag.injEq, TagName.global.injEq, Option.some.injEq,
    and_true, true_and, and_self, eq_self_iff_true]
  try omega


theorem result_with_default_shift (sy : Symbol) (s1 s2 : Nat) :
    mapDef (relocate s1 s2) (result_with_default sy s1).1 = (result_with_default sy s2).1 := by
  simp only [result_with_default, defn, defn_help, VarStore.fresh, noRegion, mapDef,
    mapExpr, mapPattern, mapPatternArgs, mapArgExprs, mapLocArgExprs,
    mapLocExprs, mapIfBranches, mapWhenBranches, mapOptGuard, relocate, tagE,
    tagArgsE, intE, numE, floatE, Expr.letNonRecD, List.map,
    Def.mk.injEq, Located.mk.injEq, Prod.mk.injEq, List.cons.injEq,
    Variable.mk.injEq, Expr.Var.injEq, Expr.Num.injEq, Expr.Int.injEq,
    Expr.Float.injEq, Expr.List.injEq, Expr.RunLowLevel.injEq, Expr.If.injEq,
    Expr.When.injEq, Expr.LetNonRec.injEq, Expr.Access.injEq, Expr.Tag.injEq,
    Expr.Closure.injEq, Expr.Call.injEq, Pattern.Identifier.injEq,
    Pattern.AppliedTag.injEq, TagName.global.injEq, Option.some.injEq,
    and_true, true_and, and_self, eq_self_iff_true]
  try omega


theorem result_after_shift (sy : Symbol) (s1 s2 : Nat) :
    mapDef (relocate s1 s2) (result_after sy s1).1 = (result_after sy s2).1 := by
  simp only [result_after, defn, defn_help, VarStore.fresh, noRegion, mapDef,
    mapExpr, mapPattern, mapPatternArgs, mapArgExprs, mapLocArgExprs,
    mapLocExprs, mapIfBranches, mapWhenBranches, mapOptGuard, relocate, tagE,
    tagArgsE, intE, numE, floatE, Expr.letNonRecD, List.map,
    Def.mk.injEq, Located.mk.injEq, Prod.mk.injEq, List.cons.injEq,
    Variable.mk.injEq, Expr.Var.injEq, Expr.Num.injEq, Expr.Int.injEq,
    Expr.Float.injEq, Expr.List.injEq, Expr.RunLowLevel.injEq, Expr.If.injEq,
    Expr.When.injEq, Expr.LetNonRec.injEq, Expr.Access.injEq, Expr.Tag.injEq,
    Expr.Closure.injEq, Expr.Call.injEq, Pattern.Identifier.injEq,
    Pattern.AppliedTag.injEq, TagName.global.injEq, Option.some.injEq,
    and_true, true_and, and_self, eq_self_iff_true]
  try omega


theorem num_add_shift (sy : Symbol) (s1 s2 : Nat) :
    mapDef (relocate s1 s2) (num_add sy s1).1 = (num_add sy s2).1 :=
  num_binop_shift sy LowLevel.NumAdd s1 s2

theorem num_add_wrap_shift (sy : Symbol) (s1 s2 : Nat) :
    mapDef (relocate s1 s2) (num_add_wrap sy s1).1 = (num_add_wrap sy s2).1 :=
  num_binop_shift sy LowLevel.NumAddWrap s1 s2

theorem num_sub_shift (sy : Symbol) (s1 s2 : Nat) :
    mapDef (relocate s1 s2) (num_sub sy s1).1 = (num_sub sy s2).1 :=
  num_binop_shift sy LowLevel.NumSub s1 s2

theorem num_sub_wrap_shift (sy : Symbol) (s1 s2 : Nat) :
    mapDef (relocate s1 s2) (num_sub_wrap sy s1).1 = (num_sub_wrap sy s2).1 :=
  num_binop_shift sy LowLevel.NumSubWrap s1 s2

theorem num_mul_shift (sy : Symbol) (s1 s2 : Nat) :
    mapDef (relocate s1 s2) (num_mul sy s1).1 = (num_mul sy s2).1 :=
  num_binop_shift sy LowLevel.NumMul s1 s2

theorem num_mul_wrap_shift (sy : Symbol) (s1 s2 : Nat) :
    mapDef (relocate s1 s2) (num_mul_wrap sy s1).1 = (num_mul_wrap sy s2).1 :=
  num_binop_shift sy LowLevel.NumMulWrap s1 s2

theorem num_bitwise_and_shift (sy : Symbol) (s1 s2 : Nat) :
    mapDef (relocate s1 s2) (num_bitwise_and sy s1).1 = (num_bitwise_and sy s2).1 :=
  num_binop_shift sy LowLevel.NumBitwiseAnd s1 s2

theorem num_bitwise_xor_shift (sy : Symbol) (s1 s2 : Nat) :
    mapDef (relocate s1 s2) (num_bitwise_xor sy s1).1 = (num_bitwise_xor sy s2).1 :=
  num_binop_shift sy LowLevel.NumBitwiseXor s1 s2

theorem num_bitwise_or_shift (sy : Symbol) (s1 s2 : Nat) :
    mapDef (relocate s1 s2) (num_bitwise_or sy s1).1 = (num_bitwise_or sy s2).1 :=
  num_binop_shift sy LowLevel.NumBitwiseOr s1 s2

theorem num_add_checked_shift (sy : Symbol) (s1 s2 : Nat) :
    mapDef (relocate s1 s2) (num_add_checked sy s1).1 = (num_add_checked sy s2).1 :=
  num_overflow_checked_shift sy LowLevel.NumAddChecked s1 s2

theorem num_sub_checked_shift (sy : Symbol) (s1 s2 : Nat) :
    mapDef (relocate s1 s2) (num_sub_checked sy s1).1 = (num_sub_checked sy s2).1 :=
  num_overflow_checked_shift sy LowLevel.NumSubChecked s1 s2

theorem num_mul_checked_shift (sy : Symbol) (s1 s2 : Nat) :
    mapDef (relocate s1 s2) (num_mul_checked sy s1).1 = (num_mul_checked sy s2).1 :=
  num_overflow_checked_shift sy LowLevel.NumMulChecked s1 s2

theorem num_gt_shift (sy : Symbol) (s1 s2 : Nat) :
    mapDef (relocate s1 s2) (num_gt sy s1).1 = (num_gt sy s2).1 :=
  num_num_other_binop_shift sy LowLevel.NumGt s1 s2

theorem num_gte_shift (sy : Symbol) (s1 s2 : Nat) :
    mapDef (relocate s1 s2) (num_gte sy s1).1 = (num_gte sy s2).1 :=
  num_num_other_binop_shift sy LowLevel.NumGte s1 s2

theorem num_lt_shift (sy : Symbol) (s1 s2 : Nat) :
    mapDef (relocate s1 s2) (num_lt sy s1).1 = (num_lt sy s2).1 :=
  num_num_other_binop_shift sy LowLevel.NumLt s1 s2

theorem num_lte_shift (sy : Symbol) (s1 s2 : Nat) :
    mapDef (relocate s1 s2) (num_lte sy s1).1 = (num_lte sy s2).1 :=
  num_num_other_binop_shift sy LowLevel.NumLte s1 s2

theorem num_compare_shift (sy : Symbol) (s1 s2 : Nat) :
    mapDef (relocate s1 s2) (num_compare sy s1).1 = (num_compare sy s2).1 :=
  num_num_other_binop_shift sy LowLevel.NumCompare s1 s2

theorem num_shift_left_by_shift (sy : Symbol) (s1 s2 : Nat) :
    mapDef (relocate s1 s2) (num_shift_left_by sy s1).1 = (num_shift_left_by sy s2).1 :=
  lowlevel_2_shift sy LowLevel.NumShiftLeftBy s1 s2

theorem num_shift_right_by_shift (sy : Symbol) (s1 s2 : Nat) :
    mapDef (relocate s1 s2) (num_shift_right_by sy s1).1 = (num_shift_right_by sy s2).1 :=
  lowlevel_2_shift sy LowLevel.NumShiftRightBy s1 s2

theorem num_shift_right_zf_by_shift (sy : Symbol) (s1 s2 : Nat) :
    mapDef (relocate s1 s2) (num_shift_right_zf_by sy s1).1 = (num_shift_right_zf_by sy s2).1 :=
  lowlevel_2_shift sy LowLevel.NumShiftRightZfBy s1 s2

theorem num_int_cast_shift (sy : Symbol) (s1 s2 : Nat) :
    mapDef (relocate s1 s2) (num_int_cast sy s1).1 = (num_int_cast sy s2).1 :=
  lowlevel_1_shift sy LowLevel.NumIntCast s1 s2

theorem num_bytes_to_u16_shift (sy : Symbol) (s1 s2 : Nat) :
    mapDef (relocate s1 s2) (num_bytes_to_u16 sy s1).1 = (num_bytes_to_u16 sy s2).1 :=
  num_bytes_to_shift sy 1 LowLevel.NumBytesToU16 s1 s2

theorem num_bytes_to_u32_shift (sy : Symbol) (s1 s2 : Nat) :
    mapDef (relocate s1 s2) (num_bytes_to_u32 sy s1).1 = (num_bytes_to_u32 sy s2).1 :=
  num_bytes_to_shift sy 3 LowLevel.NumBytesToU32 s1 s2

theorem num_is_multiple_of_shift (sy : Symbol) (s1 s2 : Nat) :
    mapDef (relocate s1 s2) (num_is_multiple_of sy s1).1 = (num_is_multiple_of sy s2).1 :=
  lowlevel_2_shift sy LowLevel.NumIsMultipleOf s1 s2

theorem str_trim_shift (sy : Symbol) (s1 s2 : Nat) :
    mapDef (relocate s1 s2) (str_trim sy s1).1 = (str_trim sy s2).1 :=
  lowlevel_1_shift sy LowLevel.StrTrim s1 s2

theorem str_starts_with_shift (sy : Symbol) (s1 s2 : Nat) :
    mapDef (relocate s1 s2) (str_starts_with sy s1).1 = (str_starts_with sy s2).1 :=
  lowlevel_2_shift sy LowLevel.StrStartsWith s1 s2

theorem str_starts_with_code_point_shift (sy : Symbol) (s1 s2 : Nat) :
    mapDef (relocate s1 s2) (str_starts_with_code_point sy s1).1 = (str_starts_with_code_point sy s2).1 :=
  lowlevel_2_shift sy LowLevel.StrStartsWithCodePt s1 s2

theorem str_to_utf8_shift (sy : Symbol) (s1 s2 : Nat) :
    mapDef (relocate s1 s2) (str_to_utf8 sy s1).1 = (str_to_utf8 sy s2).1 :=
  lowlevel_1_shift sy LowLevel.StrToUtf8 s1 s2

theorem list_contains_shift (sy : Symbol) (s1 s2 : Nat) :
    mapDef (relocate s1 s2) (list_contains sy s1).1 = (list_contains sy s2).1 :=
  lowlevel_2_shift sy LowLevel.ListContains s1 s2

theorem list_keep_oks_shift (sy : Symbol) (s1 s2 : Nat) :
    mapDef (relocate s1 s2) (list_keep_oks sy s1).1 = (list_keep_oks sy s2).1 :=
  lowlevel_2_shift sy LowLevel.ListKeepOks s1 s2

theorem list_keep_errs_shift (sy : Symbol) (s1 s2 : Nat) :
    mapDef (relocate s1 s2) (list_keep_errs sy s1).1 = (list_keep_errs sy s2).1 :=
  lowlevel_2_shift sy LowLevel.ListKeepErrs s1 s2

theorem list_range_shift (sy : Symbol) (s1 s2 : Nat) :
    mapDef (relocate s1 s2) (list_range sy s1).1 = (list_range sy s2).1 :=
  lowlevel_2_shift sy LowLevel.ListRange s1 s2

theorem list_map_shift (sy : Symbol) (s1 s2 : Nat) :
    mapDef (relocate s1 s2) (list_map sy s1).1 = (list_map sy s2).1 :=
  lowlevel_2_shift sy LowLevel.ListMap s1 s2

theorem list_map_with_index_shift (sy : Symbol) (s1 s2 : Nat) :
    mapDef (relocate s1 s2) (list_map_with_index sy s1).1 = (list_map_with_index sy s2).1 :=
  lowlevel_2_shift sy LowLevel.ListMapWithIndex s1 s2

theorem list_sort_with_shift (sy : Symbol) (s1 s2 : Nat) :
    mapDef (relocate s1 s2) (list_sort_with sy s1).1 = (list_sort_with sy s2).1 :=
  lowlevel_2_shift sy LowLevel.ListSortWith s1 s2

theorem list_any_shift (sy : Symbol) (s1 s2 : Nat) :
    mapDef (relocate s1 s2) (list_any sy s1).1 = (list_any sy s2).1 :=
  lowlevel_2_shift sy LowLevel.ListAny s1 s2

theorem list_walk_shift (sy : Symbol) (s1 s2 : Nat) :
    mapDef (relocate s1 s2) (list_walk sy s1).1 = (list_walk sy s2).1 :=
  lowlevel_3_shift sy LowLevel.ListWalk s1 s2

theorem list_walk_backwards_shift (sy : Symbol) (s1 s2 : Nat) :
    mapDef (relocate s1 s2) (list_walk_backwards sy s1).1 = (list_walk_backwards sy s2).1 :=
  lowlevel_3_shift sy LowLevel.ListWalkBackwards s1 s2

theorem list_walk_until_shift (sy : Symbol) (s1 s2 : Nat) :
    mapDef (relocate s1 s2) (list_walk_until sy s1).1 = (list_walk_until sy s2).1 :=
  lowlevel_3_shift sy LowLevel.ListWalkUntil s1 s2

theorem list_map2_shift (sy : Symbol) (s1 s2 : Nat) :
    mapDef (relocate s1 s2) (list_map2 sy s1).1 = (list_map2 sy s2).1 :=
  lowlevel_3_shift sy LowLevel.ListMap2 s1 s2

theorem list_map3_shift (sy : Symbol) (s1 s2 : Nat) :
    mapDef (relocate s1 s2) (list_map3 sy s1).1 = (list_map3 sy s2).1 :=
  lowlevel_4_shift sy LowLevel.ListMap3 s1 s2

theorem list_map4_shift (sy : Symbol) (s1 s2 : Nat) :
    mapDef (relocate s1 s2) (list_map4 sy s1).1 = (list_map4 sy s2).1 :=
  lowlevel_5_shift sy LowLevel.ListMap4 s1 s2

theorem dict_insert_shift (sy : Symbol) (s1 s2 : Nat) :
    mapDef (relocate s1 s2) (dict_insert sy s1).1 = (dict_insert sy s2).1 :=
  lowlevel_3_shift sy LowLevel.DictInsert s1 s2

theorem dict_remove_shift (sy : Symbol) (s1 s2 : Nat) :
    mapDef (relocate s1 s2) (dict_remove sy s1).1 = (dict_remove sy s2).1 :=
  lowlevel_2_shift sy LowLevel.DictRemove s1 s2

theorem dict_contains_shift (sy : Symbol) (s1 s2 : Nat) :
    mapDef (relocate s1 s2) (dict_contains sy s1).1 = (dict_contains sy s2).1 :=
  lowlevel_2_shift sy LowLevel.DictContains s1 s2

theorem dict_keys_shift (sy : Symbol) (s1 s2 : Nat) :
    mapDef (relocate s1 s2) (dict_keys sy s1).1 = (dict_keys sy s2).1 :=
  lowlevel_1_shift sy LowLevel.DictKeys s1 s2

theorem dict_values_shift (sy : Symbol) (s1 s2 : Nat) :
    mapDef (relocate s1 s2) (dict_values sy s1).1 = (dict_values sy s2).1 :=
  lowlevel_1_shift sy LowLevel.DictValues s1 s2

theorem dict_union_shift (sy : Symbol) (s1 s2 : Nat) :
    mapDef (relocate s1 s2) (dict_union sy s1).1 = (dict_union sy s2).1 :=
  lowlevel_2_shift sy LowLevel.DictUnion s1 s2

theorem dict_difference_shift (sy : Symbol) (s1 s2 : Nat) :
    mapDef (relocate s1 s2) (dict_difference sy s1).1 = (dict_difference sy s2).1 :=
  lowlevel_2_shift sy LowLevel.DictDifference s1 s2

theorem dict_intersection_shift (sy : Symbol) (s1 s2 : Nat) :
    mapDef (relocate s1 s2) (dict_intersection sy s1).1 = (dict_intersection sy s2).1 :=
  lowlevel_2_shift sy LowLevel.DictIntersection s1 s2

theorem dict_walk_shift (sy : Symbol) (s1 s2 : Nat) :
    mapDef (relocate s1 s2) (dict_walk sy s1).1 = (dict_walk sy s2).1 :=
  lowlevel_3_shift sy LowLevel.DictWalk s1 s2

theorem set_len_shift (sy : Symbol) (s1 s2 : Nat) :
    mapDef (relocate s1 s2) (set_len sy s1).1 = (set_len sy s2).1 :=
  lowlevel_1_shift sy LowLevel.DictSize s1 s2

theorem set_union_shift (sy : Symbol) (s1 s2 : Nat) :
    mapDef (relocate s1 s2) (set_union sy s1).1 = (set_union sy s2).1 :=
  lowlevel_2_shift sy LowLevel.DictUnion s1 s2

theorem set_difference_shift (sy : Symbol) (s1 s2 : Nat) :
    mapDef (relocate s1 s2) (set_difference sy s1).1 = (set_difference sy s2).1 :=
  lowlevel_2_shift sy LowLevel.DictDifference s1 s2

theorem set_intersection_shift (sy : Symbol) (s1 s2 : Nat) :
    mapDef (relocate s1 s2) (set_intersection sy s1).1 = (set_intersection sy s2).1 :=
  lowlevel_2_shift sy LowLevel.DictIntersection s1 s2

theorem set_to_list_shift (sy : Symbol) (s1 s2 : Nat) :
    mapDef (relocate s1 s2) (set_to_list sy s1).1 = (set_to_list sy s2).1 :=
  dict_keys_shift sy s1 s2

theorem set_from_list_shift (sy : Symbol) (s1 s2 : Nat) :
    mapDef (relocate s1 s2) (set_from_list sy s1).1 = (set_from_list sy s2).1 :=
  lowlevel_1_shift sy LowLevel.SetFromList s1 s2

theorem set_remove_shift (sy : Symbol) (s1 s2 : Nat) :
    mapDef (relocate s1 s2) (set_remove sy s1).1 = (set_remove sy s2).1 :=
  dict_remove_shift sy s1 s2

theorem set_contains_shift (sy : Symbol) (s1 s2 : Nat) :
    mapDef (relocate s1 s2) (set_contains sy s1).1 = (set_contains sy s2).1 :=
  dict_contains_shift sy s1 s2

/-- C9: for every builtin identity, two synthesis calls with the same
identity but independently-seeded fresh-variable allocators produce
definitions that are alpha-equivalent: equal after a consistent renaming of
variable handles (not necessarily bit-identical); unrecognized identities
produce the absence value either way. -/
theorem claim_C9 (sym : Symbol) (s1 s2 : Nat) :
    AlphaEquivOpt (builtin_defs_map sym s1).1 (builtin_defs_map sym s2).1 := by
  cases sym with
  | BOOL_EQ => exact alpha_of_shift (bool_eq_shift _) s1 s2
  | BOOL_NEQ => exact alpha_of_shift (bool_neq_shift _) s1 s2
  | BOOL_AND => exact alpha_of_shift (bool_and_shift _) s1 s2
  | BOOL_OR => exact alpha_of_shift (bool_or_shift _) s1 s2
  | BOOL_NOT => exact alpha_of_shift (bool_not_shift _) s1 s2
  | STR_CONCAT => exact alpha_of_shift (str_concat_shift _) s1 s2
  | STR_JOIN_WITH => exact alpha_of_shift (str_join_with_shift _) s1 s2
  | STR_SPLIT => exact alpha_of_shift (str_split_shift _) s1 s2
  | STR_IS_EMPTY => exact alpha_of_shift (str_is_empty_shift _) s1 s2
  | STR_STARTS_WITH => exact alpha_of_shift (str_starts_with_shift _) s1 s2
  | STR_STARTS_WITH_CODE_PT => exact alpha_of_shift (str_starts_with_code_point_shift _) s1 s2
  | STR_ENDS_WITH => exact alpha_of_shift (str_ends_with_shift _) s1 s2
  | STR_COUNT_GRAPHEMES => exact alpha_of_shift (str_count_graphemes_shift _) s1 s2
  | STR_FROM_INT => exact alpha_of_shift (str_from_int_shift _) s1 s2
  | STR_FROM_UTF8 => exact alpha_of_shift (str_from_utf8_shift _) s1 s2
  | STR_FROM_UTF8_RANGE => exact alpha_of_shift (str_from_utf8_range_shift _) s1 s2
  | STR_TO_UTF8 => exact alpha_of_shift (str_to_utf8_shift _) s1 s2
  | STR_FROM_FLOAT => exact alpha_of_shift (str_from_float_shift _) s1 s2
  | STR_REPEAT => exact alpha_of_shift (str_repeat_shift _) s1 s2
  | STR_TRIM => exact alpha_of_shift (str_trim_shift _) s1 s2
  | LIST_LEN => exact alpha_of_shift (list_len_shift _) s1 s2
  | LIST_GET => exact alpha_of_shift (list_get_shift _) s1 s2
  | LIST_SET => exact alpha_of_shift (list_set_shift _) s1 s2
  | LIST_APPEND => exact alpha_of_shift (list_append_shift _) s1 s2
  | LIST_FIRST => exact alpha_of_shift (list_first_shift _) s1 s2
  | LIST_LAST => exact alpha_of_shift (list_last_shift _) s1 s2
  | LIST_IS_EMPTY => exact alpha_of_shift (list_is_empty_shift _) s1 s2
  | LIST_SINGLE => exact alpha_of_shift (list_single_shift _) s1 s2
  | LIST_REPEAT => exact alpha_of_shift (list_repeat_shift _) s1 s2
  | LIST_REVERSE => exact alpha_of_shift (list_reverse_shift _) s1 s2
  | LIST_CONCAT => exact alpha_of_shift (list_concat_shift _) s1 s2
  | LIST_CONTAINS => exact alpha_of_shift (list_contains_shift _) s1 s2
  | LIST_MIN => exact alpha_of_shift (list_min_shift _) s1 s2
  | LIST_MAX => exact alpha_of_shift (list_max_shift _) s1 s2
  | LIST_SUM => exact alpha_of_shift (list_sum_shift _) s1 s2
  | LIST_PRODUCT => exact alpha_of_shift (list_product_shift _) s1 s2
  | LIST_PREPEND => exact alpha_of_shift (list_prepend_shift _) s1 s2
  | LIST_JOIN => exact alpha_of_shift (list_join_shift _) s1 s2
  | LIST_JOIN_MAP => exact alpha_of_shift (list_join_map_shift _) s1 s2
  | LIST_MAP => exact alpha_of_shift (list_map_shift _) s1 s2
  | LIST_MAP2 => exact alpha_of_shift (list_map2_shift _) s1 s2
  | LIST_MAP3 => exact alpha_of_shift (list_map3_shift _) s1 s2
  | LIST_MAP4 => exact alpha_of_shift (list_map4_shift _) s1 s2
  | LIST_TAKE_FIRST => exact alpha_of_shift (list_take_first_shift _) s1 s2
  | LIST_TAKE_LAST => exact alpha_of_shift (list_take_last_shift _) s1 s2
  | LIST_DROP => exact alpha_of_shift (list_drop_shift _) s1 s2
  | LIST_DROP_AT => exact alpha_of_shift (list_drop_at_shift _) s1 s2
  | LIST_DROP_FIRST => exact alpha_of_shift (list_drop_first_shift _) s1 s2
  | LIST_DROP_LAST => exact alpha_of_shift (list_drop_last_shift _) s1 s2
  | LIST_SWAP => exact alpha_of_shift (list_swap_shift _) s1 s2
  | LIST_MAP_WITH_INDEX => exact alpha_of_shift (list_map_with_index_shift _) s1 s2
  | LIST_KEEP_IF => exact alpha_of_shift (list_keep_if_shift _) s1 s2
  | LIST_KEEP_OKS => exact alpha_of_shift (list_keep_oks_shift _) s1 s2
  | LIST_KEEP_ERRS => exact alpha_of_shift (list_keep_errs_shift _) s1 s2
  | LIST_RANGE => exact alpha_of_shift (list_range_shift _) s1 s2
  | LIST_WALK => exact alpha_of_shift (list_walk_shift _) s1 s2
  | LIST_WALK_BACKWARDS => exact alpha_of_shift (list_walk_backwards_shift _) s1 s2
  | LIST_WALK_UNTIL => exact alpha_of_shift (list_walk_until_shift _) s1 s2
  | LIST_SORT_WITH => exact alpha_of_shift (list_sort_with_shift _) s1 s2
  | LIST_ANY => exact alpha_of_shift (list_any_shift _) s1 s2
  | LIST_FIND => exact alpha_of_shift (list_find_shift _) s1 s2
  | DICT_LEN => exact alpha_of_shift (dict_len_shift _) s1 s2
  | DICT_EMPTY => exact alpha_of_shift (dict_empty_shift _) s1 s2
  | DICT_SINGLE => exact alpha_of_shift (dict_single_shift _) s1 s2
  | DICT_INSERT => exact alpha_of_shift (dict_insert_shift _) s1 s2
  | DICT_REMOVE => exact alpha_of_shift (dict_remove_shift _) s1 s2
  | DICT_GET => exact alpha_of_shift (dict_get_shift _) s1 s2
  | DICT_CONTAINS => exact alpha_of_shift (dict_contains_shift _) s1 s2
  | DICT_KEYS => exact alpha_of_shift (dict_keys_shift _) s1 s2
  | DICT_VALUES => exact alpha_of_shift (dict_values_shift _) s1 s2
  | DICT_UNION => exact alpha_of_shift (dict_union_shift _) s1 s2
  | DICT_INTERSECTION => exact alpha_of_shift (dict_intersection_shift _) s1 s2
  | DICT_DIFFERENCE => exact alpha_of_shift (dict_difference_shift _) s1 s2
  | DICT_WALK => exact alpha_of_shift (dict_walk_shift _) s1 s2
  | SET_EMPTY => exact alpha_of_shift (set_empty_shift _) s1 s2
  | SET_LEN => exact alpha_of_shift (set_len_shift _) s1 s2
  | SET_SINGLE => exact alpha_of_shift (set_single_shift _) s1 s2
  | SET_UNION => exact alpha_of_shift (set_union_shift _) s1 s2
  | SET_INTERSECTION => exact alpha_of_shift (set_intersection_shift _) s1 s2
  | SET_DIFFERENCE => exact alpha_of_shift (set_difference_shift _) s1 s2
  | SET_TO_LIST => exact alpha_of_shift (set_to_list_shift _) s1 s2
  | SET_FROM_LIST => exact alpha_of_shift (set_from_list_shift _) s1 s2
  | SET_INSERT => exact alpha_of_shift (set_insert_shift _) s1 s2
  | SET_REMOVE => exact alpha_of_shift (set_remove_shift _) s1 s2
  | SET_CONTAINS => exact alpha_of_shift (set_contains_shift _) s1 s2
  | SET_WALK => exact alpha_of_shift (set_walk_shift _) s1 s2
  | NUM_ADD => exact alpha_of_shift (num_add_shift _) s1 s2
  | NUM_ADD_CHECKED => exact alpha_of_shift (num_add_checked_shift _) s1 s2
  | NUM_ADD_WRAP => exact alpha_of_shift (num_add_wrap_shift _) s1 s2
  | NUM_SUB => exact alpha_of_shift (num_sub_shift _) s1 s2
  | NUM_SUB_WRAP => exact alpha_of_shift (num_sub_wrap_shift _) s1 s2
  | NUM_SUB_CHECKED => exact alpha_of_shift (num_sub_checked_shift _) s1 s2
  | NUM_MUL => exact alpha_of_shift (num_mul_shift _) s1 s2
  | NUM_MUL_WRAP => exact alpha_of_shift (num_mul_wrap_shift _) s1 s2
  | NUM_MUL_CHECKED => exact alpha_of_shift (num_mul_checked_shift _) s1 s2
  | NUM_GT => exact alpha_of_shift (num_gt_shift _) s1 s2
  | NUM_GTE => exact alpha_of_shift (num_gte_shift _) s1 s2
  | NUM_LT => exact alpha_of_shift (num_lt_shift _) s1 s2
  | NUM_LTE => exact alpha_of_shift (num_lte_shift _) s1 s2
  | NUM_COMPARE => exact alpha_of_shift (num_compare_shift _) s1 s2
  | NUM_SIN => exact alpha_of_shift (num_sin_shift _) s1 s2
  | NUM_COS => exact alpha_of_shift (num_cos_shift _) s1 s2
  | NUM_TAN => exact alpha_of_shift (num_tan_shift _) s1 s2
  | NUM_DIV_FLOAT => exact alpha_of_shift (num_div_float_shift _) s1 s2
  | NUM_DIV_INT => exact alpha_of_shift (num_div_int_shift _) s1 s2
  | NUM_DIV_CEIL => exact alpha_of_shift (num_div_ceil_shift _) s1 s2
  | NUM_ABS => exact alpha_of_shift (num_abs_shift _) s1 s2
  | NUM_NEG => exact alpha_of_shift (num_neg_shift _) s1 s2
  | NUM_REM => exact alpha_of_shift (num_rem_shift _) s1 s2
  | NUM_IS_MULTIPLE_OF => exact alpha_of_shift (num_is_multiple_of_shift _) s1 s2
  | NUM_SQRT => exact alpha_of_shift (num_sqrt_shift _) s1 s2
  | NUM_LOG => exact alpha_of_shift (num_log_shift _) s1 s2
  | NUM_ROUND => exact alpha_of_shift (num_round_shift _) s1 s2
  | NUM_IS_ODD => exact alpha_of_shift (num_is_odd_shift _) s1 s2
  | NUM_IS_EVEN => exact alpha_of_shift (num_is_even_shift _) s1 s2
  | NUM_IS_ZERO => exact alpha_of_shift (num_is_zero_shift _) s1 s2
  | NUM_IS_POSITIVE => exact alpha_of_shift (num_is_positive_shift _) s1 s2
  | NUM_IS_NEGATIVE => exact alpha_of_shift (num_is_negative_shift _) s1 s2
  | NUM_TO_FLOAT => exact alpha_of_shift (num_to_float_shift _) s1 s2
  | NUM_POW => exact alpha_of_shift (num_pow_shift _) s1 s2
  | NUM_CEILING => exact alpha_of_shift (num_ceiling_shift _) s1 s2
  | NUM_POW_INT => exact alpha_of_shift (num_pow_int_shift _) s1 s2
  | NUM_FLOOR => exact alpha_of_shift (num_floor_shift _) s1 s2
  | NUM_ATAN => exact alpha_of_shift (num_atan_shift _) s1 s2
  | NUM_ACOS => exact alpha_of_shift (num_acos_shift _) s1 s2
  | NUM_ASIN => exact alpha_of_shift (num_asin_shift _) s1 s2
  | NUM_BYTES_TO_U16 => exact alpha_of_shift (num_bytes_to_u16_shift _) s1 s2
  | NUM_BYTES_TO_U32 => exact alpha_of_shift (num_bytes_to_u32_shift _) s1 s2
  | NUM_MAX_INT => exact alpha_of_shift (num_max_int_shift _) s1 s2
  | NUM_MIN_INT => exact alpha_of_shift (num_min_int_shift _) s1 s2
  | NUM_BITWISE_AND => exact alpha_of_shift (num_bitwise_and_shift _) s1 s2
  | NUM_BITWISE_XOR => exact alpha_of_shift (num_bitwise_xor_shift _) s1 s2
  | NUM_BITWISE_OR => exact alpha_of_shift (num_bitwise_or_shift _) s1 s2
  | NUM_SHIFT_LEFT => exact alpha_of_shift (num_shift_left_by_shift _) s1 s2
  | NUM_SHIFT_RIGHT => exact alpha_of_shift (num_shift_right_by_shift _) s1 s2
  | NUM_SHIFT_RIGHT_ZERO_FILL => exact alpha_of_shift (num_shift_right_zf_by_shift _) s1 s2
  | NUM_INT_CAST => exact alpha_of_shift (num_int_cast_shift _) s1 s2
  | NUM_MAX_I128 => exact alpha_of_shift (num_max_i128_shift _) s1 s2
  | RESULT_MAP => exact alpha_of_shift (result_map_shift _) s1 s2
  | RESULT_MAP_ERR => exact alpha_of_shift (result_map_err_shift _) s1 s2
  | RESULT_AFTER => exact alpha_of_shift (result_after_shift _) s1 s2
  | RESULT_WITH_DEFAULT => exact alpha_of_shift (result_with_default_shift _) s1 s2
  | ARG_1 => trivial
  | ARG_2 => trivial
  | ARG_3 => trivial
  | ARG_4 => trivial
  | ARG_5 => trivial
  | ARG_6 => trivial
  | LIST_JOIN_MAP_CONCAT => trivial
  | LIST_MIN_LT => trivial
  | LIST_MAX_GT => trivial
  | LIST_SUM_ADD => trivial
  | LIST_PRODUCT_MUL => trivial
  | SET_WALK_USER_FUNCTION => trivial
  | DICT_GET_RESULT => trivial
  | LIST_FIND_RESULT => trivial
  | user n => trivial



/-- C1: the dispatcher `builtin_defs_map`, given a builtin identity and a
fresh-variable allocator, returns `Some` definition for every identity
flagged as a builtin, returns `None` for any identity it does not recognize,
and the debug-build assertion fails exactly on identities not flagged as
builtins. -/
theorem claim_C1 (sym : Symbol) (vs : VarStore) :
    (Symbol.is_builtin sym = true →
      ((builtin_defs_map sym vs).1).isSome = true) ∧
    (Symbol.is_builtin sym = false → (builtin_defs_map sym vs).1 = none) ∧
    (builtin_defs_map_debug sym vs = none ↔
      Symbol.is_builtin sym = false) := by
  cases sym <;>
    first
      | exact ⟨fun _ => rfl, (fun h => nomatch h),
          ⟨(fun h => nomatch h), (fun h => nomatch h)⟩⟩
      | exact ⟨(fun h => nomatch h), fun _ => rfl,
          ⟨fun _ => rfl, fun _ => rfl⟩⟩

/-- Witness for C1 at concrete inputs: a flagged builtin gets a definition,
an unrecognized user symbol gets the absence value and trips the debug
assertion. -/
theorem claim_C1_witness :
    ((builtin_defs_map Symbol.LIST_GET 0).1).isSome = true ∧
    (builtin_defs_map (Symbol.user 0) 0).1 = none ∧
    builtin_defs_map_debug (Symbol.user 0) 0 = none :=
  ⟨(claim_C1 Symbol.LIST_GET 0).1 rfl,
    (claim_C1 (Symbol.user 0) 0).2.1 rfl,
    ((claim_C1 (Symbol.user 0) 0).2.2).2 rfl⟩


/-- C2: each checked arithmetic builtin (`Num.addChecked`, `Num.subChecked`,
`Num.mulChecked`) is synthesized as a non-recursive binding of the checked
primitive's anonymous-record result (field `a` = computed value, field `b` =
overflow flag) followed by `If(overflow-flag, Err Overflow, Ok value-field)`. -/
theorem claim_C2 (vs : VarStore) :
    checkedShape (bodyOfB Symbol.NUM_ADD_CHECKED vs) LowLevel.NumAddChecked ∧
    checkedShape (bodyOfB Symbol.NUM_SUB_CHECKED vs) LowLevel.NumSubChecked ∧
    checkedShape (bodyOfB Symbol.NUM_MUL_CHECKED vs) LowLevel.NumMulChecked :=
  ⟨⟨_, _, _, _, _, _, _, _, _, _, _, _, _, _, _, _, _, rfl⟩,
    ⟨_, _, _, _, _, _, _, _, _, _, _, _, _, _, _, _, _, rfl⟩,
    ⟨_, _, _, _, _, _, _, _, _, _, _, _, _, _, _, _, _, rfl⟩⟩


/-- C3: the synthesized float and integer division builtins have the body
`If(denominator != 0, Ok(uncheckedDiv(numerator, denominator)),
Err DivByZero)`: the guard is a direct `NotEq` of the second argument
against a zero literal, and the unchecked division primitive receives the
numerator first and the denominator second. -/
theorem claim_C3 (vs : VarStore) :
    divShape (bodyOfB Symbol.NUM_DIV_FLOAT vs) true ∧
    divShape (bodyOfB Symbol.NUM_DIV_INT vs) false :=
  ⟨⟨_, _, _, _, _, _, _, _, _, _, _, _, _, rfl⟩,
    ⟨_, _, _, _, _, _, _, _, _, _, _, _, _, rfl⟩⟩

/-- C4: the synthesized `List.get` body is `If(index < ListLen list,
Ok(ListGetUnsafe list index), Err OutOfBounds)`: a strict less-than guard
comparing the index argument against the list's length, the unchecked get
invoked only in the success branch with the list first and the index second,
and the failure branch the no-argument tag `OutOfBounds` wrapped in `Err`. -/
theorem claim_C4 (vs : VarStore) :
    ∃ bool_var branch_var len_var list_var elem_var
      ok1 ok2 ok3 err1 err2 err3 err4 err5 : Variable,
      bodyOfB Symbol.LIST_GET vs =
        Expr.If bool_var branch_var
          [(noRegion (Expr.RunLowLevel LowLevel.NumLt
              [(len_var, Expr.Var Symbol.ARG_2),
                (len_var, Expr.RunLowLevel LowLevel.ListLen
                  [(list_var, Expr.Var Symbol.ARG_1)] len_var)] bool_var),
            noRegion (Expr.Tag ok1 ok2 (TagName.global "Ok")
              [(ok3, noRegion (Expr.RunLowLevel LowLevel.ListGetUnsafe
                  [(list_var, Expr.Var Symbol.ARG_1),
                    (len_var, Expr.Var Symbol.ARG_2)] elem_var))]))]
          (noRegion (Expr.Tag err1 err2 (TagName.global "Err")
            [(err3, noRegion
                (Expr.Tag err4 err5 (TagName.global "OutOfBounds") []))])) :=
  ⟨_, _, _, _, _, _, _, _, _, _, _, _, _, rfl⟩


/-- C5 (amended): `List.min` and `List.max` wrap their whole fold in the
safe-wrapper idiom guarded on the collection being non-empty (length
compared against zero), seed the fold with the first element (unchecked get
at index 0) in the success branch, and produce `Err ListWasEmpty` — not
`Err CollectionWasEmpty` — in the failure branch. -/
theorem claim_C5 (vs : VarStore) :
    minMaxShape (bodyOfB Symbol.LIST_MIN vs) LowLevel.NumLt
      Symbol.LIST_MIN_LT ∧
    minMaxShape (bodyOfB Symbol.LIST_MAX vs) LowLevel.NumGt
      Symbol.LIST_MAX_GT :=
  ⟨⟨_, _, _, _, _, _, _, _, _, _, _, _, _, _, _, _, _, _, rfl⟩,
    ⟨_, _, _, _, _, _, _, _, _, _, _, _, _, _, _, _, _, _, rfl⟩⟩


/-- Counterexample to C5 as stated: the failure branch of the synthesized
`List.min` carries the tag `ListWasEmpty`, not `CollectionWasEmpty`. -/
theorem claim_C5_counterexample :
    elseErrPayloadTag (bodyOfB Symbol.LIST_MIN 0) = some "ListWasEmpty" ∧
    some "ListWasEmpty" ≠ some "CollectionWasEmpty" :=
  ⟨rfl, by decide⟩








/-- Counterexample to C6 as stated: `Num.addChecked` follows the §4.3
safe-wrapper pattern, but its produced tree is a `LetNonRec` (not exactly an
`If`), its guard is a record-field access rather than a comparison, and its
failure sits in the true branch. -/
theorem claim_C6_counterexample :
    claimC6Shape (bodyOfB Symbol.NUM_ADD_CHECKED 0) = false := rfl

/-- C6 (amended): among the safe-wrapper builtins, the division/remainder,
bounds-check, domain-restricted-math and empty-collection families produce
exactly `If(guard, success, Err(no-argument tag))` with a comparison guard
(strict for all but `Num.sqrt`'s `>=` and the `<=` pre-checks); the
overflow-checked family instead produces a non-recursive binding whose `If`
guards on a record-field access with the no-argument `Err` failure in the
TRUE branch; and `Str.fromUtf8` produces the binding shape with an `Err`
failure tag that carries arguments. -/
theorem claim_C6 (vs : VarStore) :
    wrapperIfShape (bodyOfB Symbol.NUM_DIV_FLOAT vs) = true ∧
    wrapperIfShape (bodyOfB Symbol.NUM_DIV_INT vs) = true ∧
    wrapperIfShape (bodyOfB Symbol.NUM_DIV_CEIL vs) = true ∧
    wrapperIfShape (bodyOfB Symbol.NUM_REM vs) = true ∧
    wrapperIfShape (bodyOfB Symbol.NUM_SQRT vs) = true ∧
    wrapperIfShape (bodyOfB Symbol.NUM_LOG vs) = true ∧
    wrapperIfShape (bodyOfB Symbol.LIST_GET vs) = true ∧
    wrapperIfShape (bodyOfB Symbol.LIST_FIRST vs) = true ∧
    wrapperIfShape (bodyOfB Symbol.LIST_LAST vs) = true ∧
    wrapperIfShape (bodyOfB Symbol.LIST_MIN vs) = true ∧
    wrapperIfShape (bodyOfB Symbol.LIST_MAX vs) = true ∧
    wrapperIfShape (bodyOfB Symbol.NUM_BYTES_TO_U16 vs) = true ∧
    wrapperIfShape (bodyOfB Symbol.NUM_BYTES_TO_U32 vs) = true ∧
    wrapperIfShape (bodyOfB Symbol.STR_FROM_UTF8_RANGE vs) = true ∧
    checkedWrapperIf (bodyOfB Symbol.NUM_ADD_CHECKED vs) = true ∧
    checkedWrapperIf (bodyOfB Symbol.NUM_SUB_CHECKED vs) = true ∧
    checkedWrapperIf (bodyOfB Symbol.NUM_MUL_CHECKED vs) = true ∧
    utf8WrapperIf (bodyOfB Symbol.STR_FROM_UTF8 vs) = true :=
  ⟨rfl, rfl, rfl, rfl, rfl, rfl, rfl, rfl, rfl, rfl, rfl, rfl, rfl, rfl,
    rfl, rfl, rfl, rfl⟩

/-- C7: the synthesized `List.joinMap` body is a single call to the
list-walk (fold) primitive over the input list, seeded with an empty list
literal, whose step closure captures the user-supplied mapper (`ARG_2`),
applies it to the current element, and concatenates the mapper's result onto
the accumulator via the list-concat primitive. -/
theorem claim_C7 (vs : VarStore) :
    ∃ beforeVar listBefore afterVar listAfter b2la tClos lambdaSet
      ct cev : Variable,
      bodyOfB Symbol.LIST_JOIN_MAP vs =
        Expr.RunLowLevel LowLevel.ListWalk
          [(listBefore, Expr.Var Symbol.ARG_1),
            (listAfter, Expr.List afterVar []),
            (tClos, Expr.Closure tClos ct cev listAfter
              Symbol.LIST_JOIN_MAP_CONCAT Recursive.NotRecursive
              [(Symbol.ARG_2, b2la)]
              [(listAfter, noRegion (Pattern.Identifier Symbol.ARG_3)),
                (beforeVar, noRegion (Pattern.Identifier Symbol.ARG_4))]
              (noRegion (Expr.RunLowLevel LowLevel.ListConcat
                [(listAfter, Expr.Var Symbol.ARG_3),
                  (listAfter, Expr.Call b2la
                    (noRegion (Expr.Var Symbol.ARG_2)) lambdaSet listAfter
                    [(beforeVar, noRegion (Expr.Var Symbol.ARG_4))]
                    CalledVia.Space)] listAfter)))] listAfter :=
  ⟨_, _, _, _, _, _, _, _, _, rfl⟩

/-- C8: the synthesized result combinators are two-arm pattern matches on
the first argument: `Result.withDefault` yields `Ok x -> x` and
`Err _ -> ARG_2` (the default argument returned unchanged), and
`Result.after` yields `Ok x -> f x` with no re-wrapping of the callback's
result, and `Err e -> Err e`. -/
theorem claim_C8 (vs : VarStore) :
    (∃ resultVar retVar okExt errExt ev : Variable,
      bodyOfB Symbol.RESULT_WITH_DEFAULT vs =
        Expr.When resultVar retVar Region.zero
          (noRegion (Expr.Var Symbol.ARG_1))
          [([noRegion (Pattern.AppliedTag resultVar okExt
              (TagName.global "Ok")
              [(retVar, noRegion (Pattern.Identifier Symbol.ARG_3))])],
            noRegion (Expr.Var Symbol.ARG_3), none),
            ([noRegion (Pattern.AppliedTag resultVar errExt
              (TagName.global "Err")
              [(ev, noRegion Pattern.Underscore)])],
            noRegion (Expr.Var Symbol.ARG_2), none)]) ∧
    (∃ resultVar retVar funcVar cls cexp argv okPExt okPArg
      errV errE errA errPExt errPArg : Variable,
      bodyOfB Symbol.RESULT_AFTER vs =
        Expr.When resultVar retVar Region.zero
          (noRegion (Expr.Var Symbol.ARG_1))
          [([noRegion (Pattern.AppliedTag resultVar okPExt
              (TagName.global "Ok")
              [(okPArg, noRegion (Pattern.Identifier Symbol.ARG_5))])],
            noRegion (Expr.Call funcVar (noRegion (Expr.Var Symbol.ARG_2))
              cls cexp [(argv, noRegion (Expr.Var Symbol.ARG_5))]
              CalledVia.Space), none),
            ([noRegion (Pattern.AppliedTag resultVar errPExt
              (TagName.global "Err")
              [(errPArg, noRegion (Pattern.Identifier Symbol.ARG_4))])],
            noRegion (Expr.Tag errV errE (TagName.global "Err")
              [(errA, noRegion (Expr.Var Symbol.ARG_4))]), none)]) :=
  ⟨⟨_, _, _, _, _, rfl⟩, ⟨_, _, _, _, _, _, _, _, _, _, _, _, _, rfl⟩⟩


/-- C10 (amended): every definition returned by `builtin_defs_map` has empty
`pattern_vars` and a top-level pattern that is exactly the builtin's own
identifier — including `Num.maxInt` and `Num.minInt`, whose literal bodies
carry no annotation — and its annotation field is `None` for every builtin
except `Num.maxI128`, which carries an explicit signature from the
pre-solved type table. -/
theorem claim_C10 (sym : Symbol) (vs : VarStore) :
    C10prop (builtin_defs_map sym vs).1 sym := by
  cases sym <;>
    first
      | exact ⟨rfl, rfl, fun _ => rfl, fun hne => absurd rfl hne⟩
      | exact ⟨rfl, rfl, (fun heq => nomatch heq), fun _ => rfl⟩
      | trivial

/-- Witness for C10 at a concrete input: `List.get`'s dispatched definition
has no annotation and no pattern variables. -/
theorem claim_C10_witness :
    ((list_get Symbol.LIST_GET 0).1).anno = none ∧
    ((list_get Symbol.LIST_GET 0).1).patternVars = [] := by
  have h := claim_C10 Symbol.LIST_GET 0
  exact ⟨h.2.2.2 (fun heq => nomatch heq), h.1⟩

/-- Counterexample to C10 as stated: not every dispatched definition has an
absent annotation — `Num.maxI128`'s carries one. -/
theorem claim_C10_counterexample :
    ¬ (∀ (sym : Symbol) (vs : VarStore) (d : Def),
        (builtin_defs_map sym vs).1 = some d → d.anno = none) := by
  intro h
  have hc := h Symbol.NUM_MAX_I128 0 (num_max_i128 Symbol.NUM_MAX_I128 0).1 rfl
  exact nomatch hc

end RocCan
